import Mathlib

/-!
# Portal scraper orchestrator: run lifecycle, retries and metrics

Shallow embedding of `backend/internal/scraper`: `models.go`, `scraper.go`,
`auth.go`, `downloader.go` and the task of `scheduler.go`.

Conventions of the embedding

* `time.Time` is an integer count of nanoseconds, `time.Duration` an `int64`
  count of nanoseconds kept in `Int` with explicit wrap-around (`wrapInt64`).
* A Go `error` is a `GoError`; a nil error or nil pointer is `none`.
* Everything the code does outside the process (the browser, the clock, the
  file system, `time.Sleep`) goes through an `Env` acting on an arbitrary
  external state; every such call is also appended to a trace of `Event`s, so
  that "is invoked", "exactly once" and "in this order" are statements about
  the trace.
* The mutex only matters for interleavings; `Run` is split into its locked
  admission test (`Run_guard`), its body (`Run_body`) and its deferred block
  (`Run_deferred`), and `Run` is their sequential composition. Concurrent
  invocations are interleavings of these steps on one shared scraper (`Pool`).
* `AuthManager.Login` and `Downloader.DownloadCSV` are what `Run` sees of the
  two dialogues with the portal; `AuthManager.LoginOn` and
  `Downloader.DownloadCSVOn` follow them call by call.
* `log` output is not modelled.
-/

namespace Scraper

/-! ## models.go -/

/-- CSVType: the four kinds of export (`models.go`, lines 9-16). -/
inductive CSVType where
  | CSVClientes
  | CSVPolizas
  | CSVRecibos
  | CSVSiniestros
  deriving DecidableEq, Repr

/-- The string value of a `CSVType` constant. -/
def CSVType.str : CSVType → String
  | .CSVClientes => "clientes"
  | .CSVPolizas => "polizas"
  | .CSVRecibos => "recibos"
  | .CSVSiniestros => "siniestros"

/-- ScraperStatus (`models.go`, lines 19-27). -/
inductive ScraperStatus where
  | StatusIdle
  | StatusRunning
  | StatusSuccess
  | StatusFailed
  | StatusCancelled
  deriving DecidableEq, Repr

/-- A Go error value: built by `fmt.Errorf` without `%w` (`errorf`), with a
`%w` operand that is a non-nil error (`wrapf`), or with a `%w` operand that is
nil (`wrapNil`). The string is the formatted text before the operand. -/
inductive GoError where
  | errorf (msg : String) : GoError
  | wrapf (msg : String) (inner : GoError) : GoError
  | wrapNil (msg : String) : GoError
  deriving DecidableEq, Repr

/-- The text of `err.Error()`. -/
def GoError.Error : GoError → String
  | .errorf msg => msg
  | .wrapf msg inner => msg ++ inner.Error
  | .wrapNil msg => msg ++ "%!w(<nil>)"

/-- The result of `errors.Unwrap(err)`. -/
def GoError.Unwrap : GoError → Option GoError
  | .errorf _ => none
  | .wrapf _ inner => some inner
  | .wrapNil _ => none

/-- The call `fmt.Errorf(msg + "%w", e)` for a possibly nil `e`. -/
def errorfWrap (msg : String) : Option GoError → GoError
  | some e => .wrapf msg e
  | none => .wrapNil msg

/-- Two's-complement reduction of an integer to the `int64` range. -/
def wrapInt64 (x : Int) : Int := (x + 2 ^ 63) % 2 ^ 64 - 2 ^ 63

def minInt64 : Int := -(2 ^ 63)

def maxInt64 : Int := 2 ^ 63 - 1

/-- The method `t.Sub(u)` of `time.Time`: the difference, saturated to the
range of `time.Duration`. -/
def timeSub (t u : Int) : Int :=
  if t - u > maxInt64 then maxInt64 else if t - u < minInt64 then minInt64 else t - u

/-- DownloadedFile (`models.go`, lines 39-45). `Type_` is the field `Type`. -/
structure DownloadedFile where
  Type_ : CSVType
  Path : String
  Size : Int
  DownloadedAt : Int
  ImportJobID : String
  deriving DecidableEq, Repr

/-- ScraperResult (`models.go`, lines 48-56). `Duration` holds the duration
whose `String()` the code stores. -/
structure ScraperResult where
  Success : Bool
  StartTime : Int
  EndTime : Int
  Duration : Int
  Files : List DownloadedFile
  Errors : List String
  ImportJobIDs : List String
  deriving DecidableEq, Repr

/-- ScraperMetrics (`models.go`, lines 59-70), without its mutex. -/
structure ScraperMetrics where
  TotalRuns : Int
  SuccessfulRuns : Int
  FailedRuns : Int
  TotalFilesDownloaded : Int
  TotalBytesDownloaded : Int
  LastRunTime : Int
  LastRunDuration : Int
  LastRunStatus : Option ScraperStatus
  AverageRunDuration : Int
  deriving DecidableEq, Repr

/-- The zero value `&ScraperMetrics{}`; the empty status string is `none`. -/
def ScraperMetrics.zero : ScraperMetrics :=
  { TotalRuns := 0, SuccessfulRuns := 0, FailedRuns := 0, TotalFilesDownloaded := 0,
    TotalBytesDownloaded := 0, LastRunTime := 0, LastRunDuration := 0,
    LastRunStatus := none, AverageRunDuration := 0 }

/-- The loop of `RecordRun` over `result.Files` (`models.go`, lines 89-92). -/
def RecordRun_files : List DownloadedFile → ScraperMetrics → ScraperMetrics
  | [], m => m
  | file :: rest, m =>
    RecordRun_files rest
      { m with TotalFilesDownloaded := wrapInt64 (m.TotalFilesDownloaded + 1),
               TotalBytesDownloaded := wrapInt64 (m.TotalBytesDownloaded + file.Size) }

/-- ScraperMetrics.RecordRun (`models.go`, lines 73-99). -/
def RecordRun (m : ScraperMetrics) (result : ScraperResult) : ScraperMetrics :=
  let m1 := { m with TotalRuns := wrapInt64 (m.TotalRuns + 1),
                     LastRunTime := result.StartTime,
                     LastRunDuration := timeSub result.EndTime result.StartTime }
  let m2 :=
    if result.Success then
      { m1 with SuccessfulRuns := wrapInt64 (m1.SuccessfulRuns + 1),
                LastRunStatus := some ScraperStatus.StatusSuccess }
    else
      { m1 with FailedRuns := wrapInt64 (m1.FailedRuns + 1),
                LastRunStatus := some ScraperStatus.StatusFailed }
  let m3 := RecordRun_files result.Files m2
  if m3.TotalRuns > 0 then
    let totalDuration :=
      wrapInt64 (wrapInt64 (m3.AverageRunDuration * wrapInt64 (m3.TotalRuns - 1))
        + m3.LastRunDuration)
    { m3 with AverageRunDuration := Int.tdiv totalDuration m3.TotalRuns }
  else m3

/-- RetryConfig (`models.go`, lines 126-131). `MaxRetries` is a Go `int`,
the delays are `time.Duration`s in nanoseconds. `BackoffFactor` is a finite
`float64`, given exactly as `mant * 2 ^ exp2`. -/
structure RetryConfig where
  MaxRetries : Int
  InitialDelay : Int
  MaxDelay : Int
  BackoffMant : Int
  BackoffExp2 : Int
  deriving DecidableEq, Repr

def second : Int := 1000000000

/-- DefaultRetryConfig (`models.go`, lines 134-139); the factor `2.0` is
`1 * 2 ^ 1`. -/
def DefaultRetryConfig : RetryConfig :=
  { MaxRetries := 3, InitialDelay := 5 * second, MaxDelay := 60 * second,
    BackoffMant := 1, BackoffExp2 := 1 }

/-- DownloadConfig (`models.go`, lines 30-36). -/
structure DownloadConfig where
  Type_ : CSVType
  MenuPath : List String
  ExportButton : String
  FileName : String
  WaitSelector : String
  deriving DecidableEq, Repr

def defaultExportButton : String :=
  "button[title*=\"Exportar\"], .btn-export, a[href*=\"export\"], button:contains(\"Excel\"), button:contains(\"CSV\")"

def defaultWaitSelector : String := "table, .grid, .data-table, .ag-body"

/-- DefaultDownloadConfigs (`models.go`, lines 143-172), the map as an
association list. -/
def DefaultDownloadConfigs : List (CSVType × DownloadConfig) :=
  [ (.CSVClientes,
      { Type_ := .CSVClientes, MenuPath := ["Cartera", "Clientes"],
        ExportButton := defaultExportButton, FileName := "CLIENTES.csv",
        WaitSelector := defaultWaitSelector }),
    (.CSVPolizas,
      { Type_ := .CSVPolizas, MenuPath := ["Cartera", "Pólizas"],
        ExportButton := defaultExportButton, FileName := "POLIZAS.csv",
        WaitSelector := defaultWaitSelector }),
    (.CSVRecibos,
      { Type_ := .CSVRecibos, MenuPath := ["Recibos", "Listado"],
        ExportButton := defaultExportButton, FileName := "RECIBOS.csv",
        WaitSelector := defaultWaitSelector }),
    (.CSVSiniestros,
      { Type_ := .CSVSiniestros, MenuPath := ["Siniestros", "Listado"],
        ExportButton := defaultExportButton, FileName := "SINIESTROS.csv",
        WaitSelector := defaultWaitSelector }) ]

/-! ## The outside world -/

/-- One call that leaves the process. -/
inductive Event where
  | chromeStart (h : Nat)
  | login
  | download (t : CSVType)
  | logout
  | cancel (h : Nat)
  | sleep (d : Int)
  deriving DecidableEq, Repr

/-- The behaviour of everything outside the process, over an external state
`σ`: the clock, the browser launcher (it hands out the handle of the new
browser context, which is what its `CancelFunc` cancels), the portal as seen
through the browser, `time.Sleep`, and what the platform yields when a
`float64` that does not fit is converted to `int64` (Go leaves that
implementation-dependent; the arguments are sign, mantissa and exponent). -/
structure Env (σ : Type) where
  now : σ → Int × σ
  newChrome : σ → Nat × σ
  loginPortal : σ → Option GoError × σ
  logoutPortal : σ → σ
  exportPortal : CSVType → σ → Except GoError (String × Int) × σ
  cancelChrome : Nat → σ → σ
  sleep : Int → σ → σ
  floatToInt64Overflow : Bool → Nat → Int → Int

/-- The external state together with the trace of calls made so far. -/
structure World (σ : Type) where
  st : σ
  trace : List Event

/-- The call `time.Now()`. -/
def timeNow {σ : Type} (env : Env σ) (w : World σ) : Int × World σ :=
  ((env.now w.st).1, { w with st := (env.now w.st).2 })

/-- The call `time.Sleep(d)`. -/
def timeSleep {σ : Type} (env : Env σ) (d : Int) (w : World σ) : World σ :=
  { st := env.sleep d w.st, trace := w.trace ++ [Event.sleep d] }

/-- Calling the `CancelFunc` of browser context `h`. -/
def callCancel {σ : Type} (env : Env σ) (h : Nat) (w : World σ) : World σ :=
  { st := env.cancelChrome h w.st, trace := w.trace ++ [Event.cancel h] }

/-- The function `createChromeContext` (`scraper.go`, lines 65-113): launches the
browser and returns the handle that the returned `cancel` closes. -/
def createChromeContext {σ : Type} (env : Env σ) (w : World σ) : Nat × World σ :=
  ((env.newChrome w.st).1,
   { st := (env.newChrome w.st).2, trace := w.trace ++ [Event.chromeStart (env.newChrome w.st).1] })

/-! ## auth.go and downloader.go, as far as `Run` sees them -/

/-- AuthManager (`auth.go`, lines 14-20). -/
structure AuthManager where
  Username : String
  Password : String
  BaseURL : String
  IsLoggedIn : Bool
  LastLogin : Int
  deriving DecidableEq, Repr

/-- AuthManager.Login as `Run` sees it: the dialogue with the portal
(`auth.go`, lines 33-253) either ends in one of its `return fmt.Errorf(...)`,
which leave the manager untouched, or reaches lines 255-259, which set
`IsLoggedIn` and stamp `LastLogin`. -/
def AuthManager.Login {σ : Type} (env : Env σ) (am : AuthManager) (w : World σ) :
    Option GoError × AuthManager × World σ :=
  let w1 : World σ := { st := (env.loginPortal w.st).2, trace := w.trace ++ [Event.login] }
  match (env.loginPortal w.st).1 with
  | some err => (some err, am, w1)
  | none =>
    let t := timeNow env w1
    (none, { am with IsLoggedIn := true, LastLogin := t.1 }, t.2)

/-- AuthManager.Logout (`auth.go`, lines 273-299): a best-effort click, then
`IsLoggedIn = false`; it always returns nil. -/
def AuthManager.Logout {σ : Type} (env : Env σ) (am : AuthManager) (w : World σ) :
    AuthManager × World σ :=
  ({ am with IsLoggedIn := false },
   { st := env.logoutPortal w.st, trace := w.trace ++ [Event.logout] })

/-- Downloader (`downloader.go`, lines 16-19). -/
structure Downloader where
  DownloadDir : String
  Configs : List (CSVType × DownloadConfig)
  deriving DecidableEq, Repr

def NewDownloader (downloadDir : String) : Downloader :=
  { DownloadDir := downloadDir, Configs := DefaultDownloadConfigs }

/-- Downloader.DownloadCSV as `Run` sees it: navigation, export and `os.Stat`
(`downloader.go`, lines 31-73) either end in `return nil, err` or yield the
path and size of the downloaded file, from which lines 75-84 build the
`DownloadedFile` of the requested type. -/
def Downloader.DownloadCSV {σ : Type} (env : Env σ) (csvType : CSVType) (w : World σ) :
    Except GoError DownloadedFile × World σ :=
  let w1 : World σ :=
    { st := (env.exportPortal csvType w.st).2, trace := w.trace ++ [Event.download csvType] }
  match (env.exportPortal csvType w.st).1 with
  | .error err => (.error err, w1)
  | .ok (downloadPath, size) =>
    let t := timeNow env w1
    (.ok { Type_ := csvType, Path := downloadPath, Size := size, DownloadedAt := t.1,
           ImportJobID := "" }, t.2)

/-! ## scraper.go -/

/-- A `context.Context` as far as its holder can tell: whether it is already
done (cancelled or past its deadline) and its deadline, if it has one. -/
structure Context where
  isDone : Bool
  deadline : Option Int
  deriving DecidableEq, Repr

/-- The context `context.Background()`. -/
def Context.Background : Context := { isDone := false, deadline := none }


/-- GCOScraper (`scraper.go`, lines 15-27), without its mutex. `cancelFunc`
holds the handle of the browser context that the stored function cancels. -/
structure GCOScraper where
  Auth : AuthManager
  Downloader : Downloader
  Metrics : ScraperMetrics
  BaseURL : String
  DownloadDir : String
  IsRunning : Bool
  LastRun : Int
  LastError : Option GoError
  Status : ScraperStatus
  cancelFunc : Option Nat
  deriving DecidableEq, Repr

/-- NewAuthManager (`auth.go`, lines 23-29); `getenv` is `os.Getenv`. -/
def NewAuthManager (getenv : String → String) : AuthManager :=
  { Username := getenv "GCO_USERNAME", Password := getenv "GCO_PASSWORD",
    BaseURL := getenv "GCO_BASE_URL", IsLoggedIn := false, LastLogin := 0 }

/-- NewGCOScraper (`scraper.go`, lines 39-62); the directories it creates are
not modelled. -/
def NewGCOScraper (getenv : String → String) : GCOScraper :=
  let downloadDir :=
    if getenv "GCO_DOWNLOAD_DIR" = "" then "/opt/soriano/backend/CSV/scraped"
    else getenv "GCO_DOWNLOAD_DIR"
  { Auth := NewAuthManager getenv,
    Downloader := NewDownloader downloadDir,
    Metrics := ScraperMetrics.zero,
    BaseURL := getenv "GCO_BASE_URL",
    DownloadDir := downloadDir,
    IsRunning := false,
    LastRun := 0,
    LastError := none,
    Status := .StatusIdle,
    cancelFunc := none }

/-- What a call of `Run` leaves behind: the two return values, the scraper
and the world. -/
structure RunOutput (σ : Type) where
  result : Option ScraperResult
  err : Option GoError
  s : GCOScraper
  w : World σ

/-- The locked admission test of `Run` (`scraper.go`, lines 117-124): `none`
when the scraper is already running, otherwise the scraper marked as
running. -/
def Run_guard (s : GCOScraper) : Option GCOScraper :=
  if s.IsRunning then none
  else some { s with IsRunning := true, Status := .StatusRunning }

/-- The order of the export loop (`scraper.go`, line 169). -/
def csvTypes : List CSVType :=
  [.CSVClientes, .CSVPolizas, .CSVRecibos, .CSVSiniestros]

/-- The export loop of `Run` (`scraper.go`, lines 171-184). -/
def Run_downloads {σ : Type} (env : Env σ) :
    List CSVType → ScraperResult → World σ → ScraperResult × World σ
  | [], result, w => (result, w)
  | csvType :: rest, result, w =>
    match Downloader.DownloadCSV env csvType w with
    | (.error err, w1) =>
      let errMsg := "Error descargando " ++ csvType.str ++ ": " ++ err.Error
      Run_downloads env rest { result with Errors := result.Errors ++ [errMsg] } w1
    | (.ok file, w1) =>
      Run_downloads env rest { result with Files := result.Files ++ [file] } w1

/-- The status chosen at the end of a run (`scraper.go`, lines 195-204). -/
def Run_finalStatus (result : ScraperResult) : ScraperStatus :=
  if result.Success then .StatusSuccess
  else if result.Files.length > 0 then .StatusSuccess
  else .StatusFailed

/-- The body of `Run` after admission (`scraper.go`, lines 133-213), up to
its `return`; the second component is the handle closed by the local
`cancel`. The 15-minute timeout context is derived from the browser context
and is local to the call. -/
def Run_body {σ : Type} (env : Env σ) (s : GCOScraper) (w : World σ) : RunOutput σ × Nat :=
  let t0 := timeNow env w
  let result0 : ScraperResult :=
    { Success := false, StartTime := t0.1, EndTime := 0, Duration := 0,
      Files := [], Errors := [], ImportJobIDs := [] }
  let c := createChromeContext env t0.2
  let s1 := { s with cancelFunc := some c.1 }
  match AuthManager.Login env s1.Auth c.2 with
  | (some err, am, w1) =>
    let errMsg := "Error en login: " ++ err.Error
    let result1 := { result0 with Errors := result0.Errors ++ [errMsg] }
    let s2 := { s1 with Auth := am, Status := .StatusFailed, LastError := some err }
    let t1 := timeNow env w1
    let result2 :=
      { result1 with EndTime := t1.1, Duration := timeSub t1.1 result1.StartTime }
    ({ result := some result2, err := some err, s := s2, w := t1.2 }, c.1)
  | (none, am, w1) =>
    let d := Run_downloads env csvTypes result0 w1
    let lo := AuthManager.Logout env am d.2
    let t1 := timeNow env lo.2
    let result1 := { d.1 with EndTime := t1.1, Duration := timeSub t1.1 d.1.StartTime }
    let result2 :=
      { result1 with
        Success := decide (result1.Errors.length = 0) && decide (result1.Files.length > 0) }
    let s2 := { s1 with Auth := lo.1, Status := Run_finalStatus result2,
                        Metrics := RecordRun s1.Metrics result2 }
    ({ result := some result2, err := none, s := s2, w := t1.2 }, c.1)

/-- The deferred calls of `Run`, in the order they run at return
(`scraper.go`, lines 150, 146 and 126-131): the browser context is cancelled,
then `IsRunning` is cleared and `LastRun` stamped. -/
def Run_deferred {σ : Type} (env : Env σ) (h : Nat) (s : GCOScraper) (w : World σ) :
    GCOScraper × World σ :=
  let w1 := callCancel env h w
  let t := timeNow env w1
  ({ s with IsRunning := false, LastRun := t.1 }, t.2)

/-- GCOScraper.Run (`scraper.go`, lines 116-214). As in the source, the
body never reads `parentCtx`: the browser context is derived from
`context.Background()` inside `createChromeContext`. -/
def Run {σ : Type} (env : Env σ) (parentCtx : Context) (s : GCOScraper) (w : World σ) :
    RunOutput σ :=
  match Run_guard s with
  | none =>
    { result := none, err := some (.errorf "el scraper ya está en ejecución"), s := s, w := w }
  | some s1 =>
    let b := Run_body env s1 w
    let d := Run_deferred env b.2 b.1.s b.1.w
    { result := b.1.result, err := b.1.err, s := d.1, w := d.2 }

/-- GCOScraper.Stop (`scraper.go`, lines 217-233). -/
def Stop {σ : Type} (env : Env σ) (s : GCOScraper) (w : World σ) :
    Option GoError × GCOScraper × World σ :=
  if !s.IsRunning then
    (some (.errorf "el scraper no está en ejecución"), s, w)
  else
    let w1 :=
      match s.cancelFunc with
      | some h => callCancel env h w
      | none => w
    (none, { s with Status := .StatusCancelled }, w1)

/-! ### The backoff arithmetic

`delay = time.Duration(float64(delay) * config.BackoffFactor)` is computed in
IEEE-754 binary64 with round-to-nearest-even. A finite binary64 magnitude is
kept as a pair `(mant, exp2)` standing for `mant * 2 ^ exp2`; the sign is kept
apart. Results too large for binary64 are too large for `int64` as well, so
the exponent needs no upper bound here, and results below the normal range
truncate to zero with or without gradual underflow. -/

/-- The quotient `n / 2 ^ k` rounded to nearest, ties to even. -/
def roundShift (n k : Nat) : Nat :=
  if k = 0 then n
  else
    let q := n / 2 ^ k
    let r := n % 2 ^ k
    let half := 2 ^ (k - 1)
    if r > half ∨ (r = half ∧ q % 2 = 1) then q + 1 else q

/-- Rounding of the magnitude `mant * 2 ^ exp2` to a 53-bit significand. -/
def roundFloat64 (mant : Nat) (exp2 : Int) : Nat × Int :=
  if mant < 2 ^ 53 then (mant, exp2)
  else
    let k := Nat.log2 mant + 1 - 53
    (roundShift mant k, exp2 + k)

/-- The conversion `int64(f)` of the float with the given sign and magnitude:
truncation toward zero, and the platform's value when that does not fit. -/
def float64ToInt64 {σ : Type} (env : Env σ) (neg : Bool) (mant : Nat) (exp2 : Int) : Int :=
  let mag : Nat := if exp2 ≥ 0 then mant * 2 ^ exp2.toNat else mant / 2 ^ (-exp2).toNat
  let v : Int := if neg then -(mag : Int) else (mag : Int)
  if minInt64 ≤ v ∧ v ≤ maxInt64 then v else env.floatToInt64Overflow neg mant exp2

/-- The expression `time.Duration(float64(delay) * config.BackoffFactor)`
(`scraper.go`, line 267). -/
def scaleDelay {σ : Type} (env : Env σ) (config : RetryConfig) (delay : Int) : Int :=
  let d := roundFloat64 delay.natAbs 0
  let p := roundFloat64 (d.1 * config.BackoffMant.natAbs) (d.2 + config.BackoffExp2)
  float64ToInt64 env (xor (decide (delay < 0)) (decide (config.BackoffMant < 0))) p.1 p.2

/-- The delay update of a retry (`scraper.go`, lines 267-270). -/
def nextDelay {σ : Type} (env : Env σ) (config : RetryConfig) (delay : Int) : Int :=
  if scaleDelay env config delay > config.MaxDelay then config.MaxDelay
  else scaleDelay env config delay

/-- What a call of `RunWithRetry` leaves behind: the two return values, the
scraper and the world; `attempts` lists what each call of `Run` it made
returned, in order; `nilDeref` records the run-time panic of reading
`result.Success` through a nil `result`. -/
structure RetryOutput (σ : Type) where
  result : Option ScraperResult
  err : Option GoError
  s : GCOScraper
  w : World σ
  attempts : List (RunOutput σ)
  nilDeref : Bool

/-- The loop of `RunWithRetry` (`scraper.go`, lines 261-288) with
`remaining` iterations to go, that is, entered with
`attempt = config.MaxRetries + 1 - remaining`. -/
def RunWithRetry_loop {σ : Type} (env : Env σ) (ctx : Context) (config : RetryConfig) :
    Nat → Int → Int → Option ScraperResult → Option GoError → GCOScraper → World σ →
    List (RunOutput σ) → RetryOutput σ
  | 0, _, _, lastResult, lastErr, s, w, done =>
    { result := lastResult,
      err := some (errorfWrap
        ("falló después de " ++ toString config.MaxRetries ++ " reintentos: ") lastErr),
      s := s, w := w, attempts := done, nilDeref := false }
  | remaining + 1, attempt, delay, _, _, s, w, done =>
    let w1 := if attempt > 0 then timeSleep env delay w else w
    let delay1 := if attempt > 0 then nextDelay env config delay else delay
    let r := Run env ctx s w1
    match r.err, r.result with
    | none, none =>
      { result := none, err := none, s := r.s, w := r.w, attempts := done ++ [r],
        nilDeref := true }
    | err, some result =>
      if err.isNone && result.Success then
        { result := some result, err := none, s := r.s, w := r.w, attempts := done ++ [r],
          nilDeref := false }
      else if result.Files.length > 0 then
        { result := some result, err := none, s := r.s, w := r.w, attempts := done ++ [r],
          nilDeref := false }
      else
        RunWithRetry_loop env ctx config remaining (attempt + 1) delay1 r.result r.err r.s r.w
          (done ++ [r])
    | some _, none =>
      RunWithRetry_loop env ctx config remaining (attempt + 1) delay1 r.result r.err r.s r.w
        (done ++ [r])

/-- GCOScraper.RunWithRetry (`scraper.go`, lines 255-289). The counter
`attempt` is an unbounded integer: `attempt++` stays within a Go `int` for
every `MaxRetries` below the largest one. -/
def RunWithRetry {σ : Type} (env : Env σ) (ctx : Context) (config : RetryConfig)
    (s : GCOScraper) (w : World σ) : RetryOutput σ :=
  RunWithRetry_loop env ctx config (config.MaxRetries + 1).toNat 0 config.InitialDelay
    none none s w []

/-! ## Bookkeeping used by the statements -/

/-- The world in which `Run`, once admitted, calls `s.Auth.Login`: after the
start time was read and the browser was launched. -/
def Run_loginWorld {σ : Type} (env : Env σ) (w : World σ) : World σ :=
  (createChromeContext env (timeNow env w).2).2

/-- The handle of the browser context an admitted `Run` launches. -/
def Run_handle {σ : Type} (env : Env σ) (w : World σ) : Nat :=
  (createChromeContext env (timeNow env w).2).1

/-- The error returned by the `s.Auth.Login` call of an admitted `Run`. -/
def Run_loginOutcome {σ : Type} (env : Env σ) (s : GCOScraper) (w : World σ) :
    Option GoError :=
  (AuthManager.Login env s.Auth (Run_loginWorld env w)).1

/-- The world in which the export loop of `Run` starts. -/
def Run_exportWorld {σ : Type} (env : Env σ) (s : GCOScraper) (w : World σ) : World σ :=
  (AuthManager.Login env s.Auth (Run_loginWorld env w)).2.2

/-- What the successive `DownloadCSV` calls for the given types return when
made one after the other from world `w`, in call order. -/
def downloadOutcomes {σ : Type} (env : Env σ) :
    List CSVType → World σ → List (CSVType × Except GoError DownloadedFile)
  | [], _ => []
  | t :: ts, w =>
    (t, (Downloader.DownloadCSV env t w).1) ::
      downloadOutcomes env ts (Downloader.DownloadCSV env t w).2

/-- The file of a successful download. -/
def outcomeFile : CSVType × Except GoError DownloadedFile → Option DownloadedFile
  | (_, .ok file) => some file
  | (_, .error _) => none

/-- The entry of `Errors` for a failed download. -/
def outcomeError : CSVType × Except GoError DownloadedFile → Option String
  | (_, .ok _) => none
  | (t, .error err) => some ("Error descargando " ++ t.str ++ ": " ++ err.Error)

/-- The type of a successful download. -/
def outcomeType : CSVType × Except GoError DownloadedFile → Option CSVType
  | (t, .ok _) => some t
  | (_, .error _) => none

/-! ## A scripted outside world, for concrete runs -/

/-- External state of the scripted world: a clock in nanoseconds, the number
of browsers launched and the number of logins attempted. -/
structure Script where
  clock : Int
  launched : Nat
  logins : Nat
  deriving DecidableEq, Repr

/-- A world whose clock advances by one nanosecond per reading and by the
requested time per sleep; the n-th login (from 0) fails with `loginErr n`
when that is an error, and after n logins the export of type t fails with
`exportErr n t` when that is an error and otherwise yields a 2048-byte file. -/
def scriptEnv (loginErr : Nat → Option GoError) (exportErr : Nat → CSVType → Option GoError) :
    Env Script :=
  { now := fun σ => (σ.clock, { σ with clock := σ.clock + 1 }),
    newChrome := fun σ => (σ.launched, { σ with launched := σ.launched + 1 }),
    loginPortal := fun σ => (loginErr σ.logins, { σ with logins := σ.logins + 1 }),
    logoutPortal := fun σ => σ,
    exportPortal := fun t σ =>
      (match exportErr σ.logins t with
        | some e => .error e
        | none => .ok ("/opt/soriano/backend/CSV/scraped/" ++ t.str ++ ".csv", 2048), σ),
    cancelChrome := fun _ σ => σ,
    sleep := fun d σ => { σ with clock := σ.clock + d },
    floatToInt64Overflow := fun _ _ _ => minInt64 }

def script0 : World Script :=
  { st := { clock := 1000, launched := 0, logins := 0 }, trace := [] }

/-- A freshly constructed scraper, with no environment variable set. -/
def scraper0 : GCOScraper := NewGCOScraper (fun _ => "")

/-- Every login and every export succeeds. -/
def envAllOk : Env Script := scriptEnv (fun _ => none) (fun _ _ => none)

/-- Logins succeed; the exports of policies and claims time out. -/
def envHalf : Env Script :=
  scriptEnv (fun _ => none)
    (fun _ t => if t = .CSVPolizas ∨ t = .CSVSiniestros then some (.errorf "timeout") else none)

/-- Logins succeed; every export fails. -/
def envNoFile : Env Script :=
  scriptEnv (fun _ => none) (fun _ _ => some (.errorf "no se encontró botón de exportar"))

/-- Every login is rejected. -/
def envNoLogin : Env Script :=
  scriptEnv (fun _ => some (.errorf "error de login: credenciales")) (fun _ _ => none)

/-- The fresh scraper as the guard of `Run` leaves it: marked as running,
before the browser is launched and `cancelFunc` assigned. -/
def scraperAdmitted : GCOScraper :=
  { scraper0 with IsRunning := true, Status := .StatusRunning }

/-! ## Bookkeeping for the retry loop -/

/-- The files an attempt brought back; none when `Run` returned a nil
result. -/
def attemptFiles {σ : Type} (a : RunOutput σ) : List DownloadedFile :=
  match a.result with
  | some r => r.Files
  | none => []

/-- The delay slept before retry `k + 1`, as the specification gives it: the
first is `InitialDelay`, each later one is the previous one times the
backoff factor, capped at `MaxDelay`; the product is the one the code
computes (`scaleDelay`). -/
def retryDelay {σ : Type} (env : Env σ) (config : RetryConfig) : Nat → Int
  | 0 => config.InitialDelay
  | k + 1 => min (scaleDelay env config (retryDelay env config k)) config.MaxDelay

/-- The durations of the `time.Sleep` calls of a trace, in order. -/
def sleepDurations : List Event → List Int
  | [] => []
  | Event.sleep d :: rest => d :: sleepDurations rest
  | _ :: rest => sleepDurations rest

/-- The attempts `as` are consecutive retries: each is the call of `Run` on
the scraper and world left by the one before (initially `s` and `w`), after
a sleep of `retryDelay k`, `retryDelay (k + 1)`, and so on. -/
def retriesFrom {σ : Type} (env : Env σ) (ctx : Context) (config : RetryConfig) :
    Nat → GCOScraper → World σ → List (RunOutput σ) → Prop
  | _, _, _, [] => True
  | k, s, w, a :: rest =>
    a = Run env ctx s (timeSleep env (retryDelay env config k) w) ∧
      retriesFrom env ctx config (k + 1) a.s a.w rest

/-- The first attempt is rejected as already running or fails its exports;
from the second login on, clients and receipts are exported and the other
two time out. -/
def envSecondTry : Env Script :=
  scriptEnv (fun _ => none)
    (fun n t =>
      if n ≤ 1 then some (.errorf "no se encontró botón de exportar")
      else if t = .CSVPolizas ∨ t = .CSVSiniestros then some (.errorf "timeout")
      else none)

/-! ## scheduler.go -/

/-- The error with which `Run` turns away a caller while a run is in
flight (`scraper.go`, line 120). -/
def errAlreadyRunning : GoError := .errorf "el scraper ya está en ejecución"

/-- ScraperScheduler (`scheduler.go`, lines 14-21). The `gocron` scheduler
object is left out; `Job` holds the handle of the scheduled job and
`Location` the name of the time zone. -/
structure ScraperScheduler where
  Scraper : GCOScraper
  CronExpr : String
  Enabled : Bool
  Job : Option Nat
  Location : String
  deriving DecidableEq, Repr

/-- Which of the three notification functions of `scheduler.go` (lines
188-217) was called, and with what. -/
inductive Notification where
  | success (result : ScraperResult)
  | partialSuccess (result : ScraperResult)
  | error (err : GoError)
  deriving DecidableEq, Repr

/-- What a call of `runTask` leaves behind: the scheduler (with its
scraper), the world, the notifications sent in order, what its call of
`RunWithRetry` left, and whether it ended in the run-time panic of reading
through a nil result. -/
structure TaskOutput (σ : Type) where
  ss : ScraperScheduler
  w : World σ
  notifications : List Notification
  retry : RetryOutput σ
  nilDeref : Bool

/-- ScraperScheduler.runTask (`scheduler.go`, lines 89-122). The context is
`context.WithTimeout(context.Background(), 20*time.Minute)`, whose deadline
is read off the clock. -/
def runTask {σ : Type} (env : Env σ) (ss : ScraperScheduler) (w : World σ) : TaskOutput σ :=
  let t := timeNow env w
  let ctx : Context := { isDone := false, deadline := some (t.1 + 20 * 60 * second) }
  let out := RunWithRetry env ctx DefaultRetryConfig ss.Scraper t.2
  let ss1 := { ss with Scraper := out.s }
  if out.nilDeref then
    { ss := ss1, w := out.w, notifications := [], retry := out, nilDeref := true }
  else
    match out.err, out.result with
    | some err, _ =>
      { ss := ss1, w := out.w, notifications := [.error err], retry := out,
        nilDeref := false }
    | none, none =>
      { ss := ss1, w := out.w, notifications := [], retry := out, nilDeref := true }
    | none, some result =>
      if result.Success then
        { ss := ss1, w := out.w, notifications := [.success result], retry := out,
          nilDeref := false }
      else if result.Files.length > 0 then
        { ss := ss1, w := out.w, notifications := [.partialSuccess result], retry := out,
          nilDeref := false }
      else
        { ss := ss1, w := out.w,
          notifications := [.error (.errorf "no se descargaron archivos")], retry := out,
          nilDeref := false }

/-- A scheduler around the scraper that `Run` has just admitted: a run is in
flight when the scheduled task fires. -/
def schedulerBusy : ScraperScheduler :=
  { Scraper := scraperAdmitted, CronExpr := "0 6 * * *", Enabled := true, Job := some 0,
    Location := "Europe/Madrid" }

/-! ## Bookkeeping for the metrics -/

/-- The integer `x` is a value of type `int64`. -/
def isInt64 (x : Int) : Prop := minInt64 ≤ x ∧ x ≤ maxInt64

instance (x : Int) : Decidable (isInt64 x) := by
  unfold isInt64
  infer_instance

/-- The sum of the sizes of the files, as an integer. -/
def sumSizes (files : List DownloadedFile) : Int :=
  (files.map (fun f => f.Size)).sum

/-- The metrics after `RecordRun` was called for each result in turn, from
the zero value that `NewGCOScraper` installs. -/
def recordAll (results : List ScraperResult) : ScraperMetrics :=
  results.foldl RecordRun ScraperMetrics.zero

/-- How many of the results are successes. -/
def countSuccess (results : List ScraperResult) : Nat :=
  (results.filter (fun r => r.Success)).length

/-- How many of the results are failures. -/
def countFailed (results : List ScraperResult) : Nat :=
  (results.filter (fun r => !r.Success)).length

/-- A result of a run that took `d` nanoseconds and brought back the given
files. -/
def resultOfDuration (d : Int) (files : List DownloadedFile) (ok : Bool) : ScraperResult :=
  { Success := ok, StartTime := 1000, EndTime := 1000 + d, Duration := d, Files := files,
    Errors := [], ImportJobIDs := [] }

/-- A downloaded file of the given type and size. -/
def fileOfSize (t : CSVType) (size : Int) : DownloadedFile :=
  { Type_ := t, Path := "/opt/soriano/backend/CSV/scraped/" ++ t.str ++ ".csv", Size := size,
    DownloadedAt := 2000, ImportJobID := "" }

/-- Every counter and duration of the metrics is a value of type `int64`,
as the fields of the Go struct are. -/
def ScraperMetrics.int64Fields (m : ScraperMetrics) : Prop :=
  isInt64 m.TotalRuns ∧ isInt64 m.SuccessfulRuns ∧ isInt64 m.FailedRuns ∧
  isInt64 m.TotalFilesDownloaded ∧ isInt64 m.TotalBytesDownloaded ∧
  isInt64 m.LastRunDuration ∧ isInt64 m.AverageRunDuration

/-- None of the sums that `RecordRun m result` forms leaves the range of
`int64`, and the run did not last longer than a `time.Duration` can tell. -/
def RecordRun_fits (m : ScraperMetrics) (result : ScraperResult) : Prop :=
  isInt64 (m.TotalRuns + 1) ∧
  (result.Success = true → isInt64 (m.SuccessfulRuns + 1)) ∧
  (result.Success = false → isInt64 (m.FailedRuns + 1)) ∧
  isInt64 (m.TotalFilesDownloaded + result.Files.length) ∧
  isInt64 (m.TotalBytesDownloaded + sumSizes result.Files) ∧
  isInt64 (result.EndTime - result.StartTime)

instance (m : ScraperMetrics) : Decidable m.int64Fields := by
  unfold ScraperMetrics.int64Fields
  infer_instance

instance (m : ScraperMetrics) (result : ScraperResult) : Decidable (RecordRun_fits m result) := by
  unfold RecordRun_fits
  infer_instance

/-! ## auth.go in detail -/

def minute : Int := 60 * second

/-- The call `time.Since(t)`: the clock reading minus `t`, as a
`time.Duration`. -/
def timeSince {σ : Type} (env : Env σ) (t : Int) (w : World σ) : Int × World σ :=
  (timeSub (timeNow env w).1 t, (timeNow env w).2)

/-- AuthManager.IsSessionValid (`auth.go`, lines 263-270). The manager is
handed back to show what the method leaves of it. -/
def AuthManager.IsSessionValid {σ : Type} (env : Env σ) (am : AuthManager) (w : World σ) :
    Bool × AuthManager × World σ :=
  if !am.IsLoggedIn then (false, am, w)
  else (decide ((timeSince env am.LastLogin w).1 < 30 * minute), am,
    (timeSince env am.LastLogin w).2)

/-- The candidate lists of `Login` (`auth.go`, lines 37-76, 179-190 and
206-213). -/
def usernameSelectors : List String :=
  [ "input[name=\"username\"]", "input[name=\"user\"]", "input[name=\"login\"]",
    "input[name=\"Usuario\"]", "input[id=\"username\"]", "input[id=\"user\"]",
    "input[id=\"txtUsuario\"]", "input[type=\"text\"]:first-of-type", "#username", "#user",
    "#login" ]

def passwordSelectors : List String :=
  [ "input[name=\"password\"]", "input[name=\"pass\"]", "input[name=\"Password\"]",
    "input[name=\"Clave\"]", "input[id=\"password\"]", "input[id=\"pass\"]",
    "input[id=\"txtPassword\"]", "input[type=\"password\"]", "#password", "#pass" ]

def submitSelectors : List String :=
  [ "button[type=\"submit\"]", "input[type=\"submit\"]", "button[name=\"login\"]",
    "button[id=\"btnLogin\"]", "button[id=\"btnEntrar\"]", ".btn-login", ".login-button",
    "button:contains(\"Entrar\")", "button:contains(\"Acceder\")", "input[value=\"Entrar\"]",
    "input[value=\"Acceder\"]" ]

def dashboardSelectors : List String :=
  [ ".dashboard", ".main-content", ".menu-principal", ".sidebar", ".nav-menu", "#menu",
    ".header-user", ".user-info", "nav", ".layout-main" ]

def errorSelectors : List String :=
  [ ".error", ".alert-danger", ".error-message", ".login-error", "#error",
    ".validation-error" ]

/-- What the browser answers during one login. `pageMatches sel` says that
on the login page the query for `sel` came back without error and found an
element, `afterMatches` the same on the page shown after the form was
sent; `afterText sel` is the text read for `sel` on that page (`none` when
the read failed); `currentURL` is what `chromedp.Location` left in the
variable (empty when it failed); screenshots and the outer HTML are byte
strings, empty when the capture failed. -/
structure LoginPortal where
  navigate : Option GoError
  pageMatches : String → Bool
  submit : String → String → String → Option GoError
  wait : Option GoError
  afterMatches : String → Bool
  afterText : String → Option String
  currentURL : String
  screenshotLogin : List Nat
  screenshotAfter : List Nat
  html : List Nat

/-- The diagnostics `Login` takes. -/
inductive AuthAction where
  | captureScreenshot
  | writeFile (path : String) (bytes : List Nat)
  | outerHTML
  | logHTML (bytes : List Nat)
  deriving DecidableEq, Repr

/-- The `return` statement through which `Login` left, by its line in
`auth.go`. -/
inductive LoginExit where
  | navigation
  | usernameNotFound
  | passwordNotFound
  | submitNotFound
  | fillFailed
  | waitFailed
  | rejected
  | unverified
  | success
  deriving DecidableEq, Repr

/-- What the dialogue of `Login` with the portal comes to: the error it
returns (nil when the login is taken as successful), the exit taken, the
diagnostics taken in order, the selectors chosen (empty while not chosen)
and the final value of `loginSuccess`. -/
structure LoginRun where
  err : Option GoError
  exit : LoginExit
  actions : List AuthAction
  usernameSelector : String
  passwordSelector : String
  submitSelector : String
  loginSuccess : Bool
  deriving DecidableEq, Repr

/-- The selector loops of `Login` (`auth.go`, lines 91-102, 116-127 and
134-145): the first candidate that matches, or the empty string. -/
def firstMatch (pageMatches : String → Bool) : List String → String
  | [] => ""
  | sel :: rest => if pageMatches sel then sel else firstMatch pageMatches rest

/-- The dashboard loop of `Login` (`auth.go`, lines 192-203): whether some
candidate matches. -/
def anyMatch (pageMatches : String → Bool) : List String → Bool
  | [] => false
  | sel :: rest => if pageMatches sel then true else anyMatch pageMatches rest

/-- The error-message loop of `Login` (`auth.go`, lines 215-223): the first
non-empty text read for a candidate. -/
def firstErrorText (afterText : String → Option String) : List String → Option String
  | [] => none
  | sel :: rest =>
    match afterText sel with
    | some t => if t ≠ "" then some t else firstErrorText afterText rest
    | none => firstErrorText afterText rest

/-- The screenshot block of `Login` (`auth.go`, lines 106-111 and 237-242):
the capture, and the file written when the capture is not empty. -/
def screenshotTo (path : String) (bytes : List Nat) : List AuthAction :=
  if bytes.length > 0 then [.captureScreenshot, .writeFile path bytes]
  else [.captureScreenshot]

/-- The three bytes of `"..."`. -/
def ellipsis : List Nat := [46, 46, 46]

/-- The truncation of the snapshot (`auth.go`, lines 247-249):
`html[:500] + "..."` when `len(html) > 500`. -/
def truncateHTML (html : List Nat) : List Nat :=
  if html.length > 500 then html.take 500 ++ ellipsis else html

/-- The verdict of `Login` after the form was sent (`auth.go`, lines
177-253). -/
def Login_verify (p : LoginPortal) (am : AuthManager) (u pw sb : String) : LoginRun :=
  let dashboard := anyMatch p.afterMatches dashboardSelectors
  match firstErrorText p.afterText errorSelectors with
  | some errorText =>
    { err := some (.errorf ("error de login: " ++ errorText)), exit := .rejected,
      actions := [], usernameSelector := u, passwordSelector := pw, submitSelector := sb,
      loginSuccess := dashboard }
  | none =>
    let loginSuccess :=
      if p.currentURL ≠ am.BaseURL ∧ p.currentURL ≠ am.BaseURL ++ "/" then true
      else dashboard
    if !loginSuccess then
      { err := some (.errorf "no se pudo verificar el login exitoso"), exit := .unverified,
        actions := screenshotTo "/opt/soriano/logs/scraper/after_login.png" p.screenshotAfter
          ++ [.outerHTML, .logHTML (truncateHTML p.html)],
        usernameSelector := u, passwordSelector := pw, submitSelector := sb,
        loginSuccess := false }
    else
      { err := none, exit := .success, actions := [], usernameSelector := u,
        passwordSelector := pw, submitSelector := sb, loginSuccess := true }

/-- The dialogue of `Login` with the portal (`auth.go`, lines 33-253). -/
def Login_dialogue (p : LoginPortal) (am : AuthManager) : LoginRun :=
  match p.navigate with
  | some e =>
    { err := some (.wrapf ("error navegando a " ++ am.BaseURL ++ ": ") e),
      exit := .navigation, actions := [], usernameSelector := "", passwordSelector := "",
      submitSelector := "", loginSuccess := false }
  | none =>
    let u := firstMatch p.pageMatches usernameSelectors
    if u = "" then
      { err := some (.errorf "no se encontró campo de usuario en la página"),
        exit := .usernameNotFound,
        actions := screenshotTo "/opt/soriano/logs/scraper/login_page.png" p.screenshotLogin,
        usernameSelector := "", passwordSelector := "", submitSelector := "",
        loginSuccess := false }
    else
      let pw := firstMatch p.pageMatches passwordSelectors
      if pw = "" then
        { err := some (.errorf "no se encontró campo de password en la página"),
          exit := .passwordNotFound, actions := [], usernameSelector := u,
          passwordSelector := "", submitSelector := "", loginSuccess := false }
      else
        let sb := firstMatch p.pageMatches submitSelectors
        if sb = "" then
          { err := some (.errorf "no se encontró botón de submit en la página"),
            exit := .submitNotFound, actions := [], usernameSelector := u,
            passwordSelector := pw, submitSelector := "", loginSuccess := false }
        else
          match p.submit u pw sb with
          | some e =>
            { err := some (.wrapf "error rellenando formulario: " e), exit := .fillFailed,
              actions := [], usernameSelector := u, passwordSelector := pw,
              submitSelector := sb, loginSuccess := false }
          | none =>
            match p.wait with
            | some e =>
              { err := some (.wrapf "error esperando respuesta de login: " e),
                exit := .waitFailed, actions := [], usernameSelector := u,
                passwordSelector := pw, submitSelector := sb, loginSuccess := false }
            | none => Login_verify p am u pw sb

/-- AuthManager.Login (`auth.go`, lines 32-260) against a given portal: the
dialogue, and on success the two assignments of lines 255-256. -/
def AuthManager.LoginOn {σ : Type} (env : Env σ) (p : LoginPortal) (am : AuthManager)
    (w : World σ) : LoginRun × AuthManager × World σ :=
  match (Login_dialogue p am).err with
  | some _ => (Login_dialogue p am, am, w)
  | none =>
    (Login_dialogue p am, { am with IsLoggedIn := true, LastLogin := (timeNow env w).1 },
      (timeNow env w).2)

/-- A portal whose login page shows `#username`, `input[type="password"]`
and `button[type="submit"]`, and whose page after the form is sent shows
the dashboard at another address. -/
def portalOk : LoginPortal :=
  { navigate := none,
    pageMatches := fun sel =>
      sel == "#username" || sel == "input[type=\"password\"]" ||
        sel == "button[type=\"submit\"]",
    submit := fun _ _ _ => none,
    wait := none,
    afterMatches := fun sel => sel == ".dashboard",
    afterText := fun _ => some "",
    currentURL := "https://gco.example/inicio",
    screenshotLogin := [137, 80, 78, 71],
    screenshotAfter := [137, 80, 78, 71],
    html := List.replicate 600 60 }

/-- The manager of a scraper configured for `https://gco.example`. -/
def manager0 : AuthManager :=
  { Username := "agente", Password := "secreto", BaseURL := "https://gco.example",
    IsLoggedIn := false, LastLogin := 0 }

/-- A world whose clock reads `t`. -/
def scriptAt (t : Int) : World Script :=
  { st := { clock := t, launched := 0, logins := 0 }, trace := [] }

/-- The dialogue gets as far as the verdict on the page shown after the form
was sent: the portal loaded, the three controls were found, and filling,
sending and waiting went through. -/
def reachesVerdict (p : LoginPortal) : Prop :=
  p.navigate = none ∧
  firstMatch p.pageMatches usernameSelectors ≠ "" ∧
  firstMatch p.pageMatches passwordSelectors ≠ "" ∧
  firstMatch p.pageMatches submitSelectors ≠ "" ∧
  p.submit (firstMatch p.pageMatches usernameSelectors)
    (firstMatch p.pageMatches passwordSelectors)
    (firstMatch p.pageMatches submitSelectors) = none ∧
  p.wait = none

instance (p : LoginPortal) : Decidable (reachesVerdict p) := by
  unfold reachesVerdict
  infer_instance

/-- The portal of `portalOk` whose page after the form is sent shows the
dashboard and, on it, an element of class `error` with a text. -/
def portalDashboardAndError : LoginPortal :=
  { portalOk with
    afterText := fun sel => if sel == ".error" then some "Aviso: 2 recibos rechazados" else none }

/-- The portal of `portalOk` whose login page has no password field that any
candidate matches. -/
def portalNoPassword : LoginPortal :=
  { portalOk with pageMatches := fun sel => sel == "#username" }

/-- The portal of `portalOk` that shows the login page again, at the login
address, with no message. -/
def portalSilent : LoginPortal :=
  { portalOk with
    afterMatches := fun _ => false,
    currentURL := "https://gco.example/" }

/-- The diagnostics that go with each exit of `Login`. -/
def diagnosticsOf (p : LoginPortal) : LoginExit → List AuthAction
  | .usernameNotFound =>
    screenshotTo "/opt/soriano/logs/scraper/login_page.png" p.screenshotLogin
  | .unverified =>
    screenshotTo "/opt/soriano/logs/scraper/after_login.png" p.screenshotAfter
      ++ [.outerHTML, .logHTML (truncateHTML p.html)]
  | _ => []

/-! ## downloader.go: waiting for the download -/

/-- What `os.Stat` tells of a file that the loop looks at: its size, and
whether `time.Since(info.ModTime())` is below two minutes. -/
structure FileStat where
  size : Int
  recent : Bool
  deriving DecidableEq, Repr

/-- One path that `filepath.Glob` lists at a poll: what `os.Stat` says of it
(`none` when it fails) and, for the re-check that follows the rename and the
two-second sleep, the size then found (`none` when that `os.Stat` fails). -/
structure ScanEntry where
  path : String
  info : Option FileStat
  final : Option Int
  deriving DecidableEq, Repr

/-- What one turn of the polling loop observes: the size of the expected
file (`none` when `os.Stat` fails on it), and the `*.csv` and `*.xlsx` files
of the download directory. -/
structure Poll where
  expected : Option Int
  csv : List ScanEntry
  xlsx : List ScanEntry
  deriving DecidableEq, Repr

/-- What the loop does to the file system and the clock. -/
inductive FsAction where
  | rename (src dst : String)
  | sleep (d : Int)
  deriving DecidableEq, Repr

/-- The `return` statement through which `waitForDownload` left: the
stability count (line 276), the scan for `*.csv` (line 308), the scan for
`*.xlsx` (line 325), or the timeout (line 335). -/
inductive WaitExit where
  | stable
  | csvScan
  | xlsxScan
  | timeout
  deriving DecidableEq, Repr

/-- What a call of `waitForDownload` comes to: the two return values, the
exit taken, the number of polls begun, the renames and sleeps made, and the
sizes of the expected file observed by `os.Stat` at line 270, in order. -/
structure WaitOutput where
  path : String
  err : Option GoError
  exit : WaitExit
  polls : Nat
  actions : List FsAction
  observed : List Int
  deriving DecidableEq, Repr

/-- The elements of a path, that is, what stands between its slashes; `acc`
holds the element under way, reversed. -/
def pathElements : List Char → List Char → List (List Char)
  | [], acc => [acc.reverse]
  | c :: cs, acc =>
    if c.toNat = 47 then acc.reverse :: pathElements cs [] else pathElements cs (c :: acc)

/-- The elements that `filepath.Clean` keeps: empty elements and `.` go; `..`
takes away the element kept before it, unless that is itself `..` or there is
none, in which case `..` goes when the path is rooted and stays when it is
not. `out` holds the elements kept so far, last first. -/
def cleanElements (rooted : Bool) : List (List Char) → List (List Char) → List (List Char)
  | [], out => out.reverse
  | e :: rest, out =>
    if e = [] ∨ e = ".".data then cleanElements rooted rest out
    else if e = "..".data then
      match out with
      | [] => if rooted then cleanElements rooted rest [] else cleanElements rooted rest [e]
      | top :: below =>
        if top = "..".data then cleanElements rooted rest (e :: out)
        else cleanElements rooted rest below
    else cleanElements rooted rest (e :: out)

/-- The elements with a slash between each two. -/
def joinElements : List (List Char) → List Char
  | [] => []
  | [e] => e
  | e :: rest => e ++ "/".data ++ joinElements rest

/-- The call `filepath.Clean(path)` on a system whose separator is the
slash. -/
def filepathClean (path : String) : String :=
  if path = "" then "."
  else if path.data.take 1 = "/".data then
    String.mk ("/".data ++ joinElements (cleanElements true (pathElements path.data []) []))
  else if cleanElements false (pathElements path.data []) [] = [] then "."
  else String.mk (joinElements (cleanElements false (pathElements path.data []) []))

/-- The call `filepath.Join(dir, name)`: empty arguments are left out, the
others are joined by a slash and the result is cleaned; two empty arguments
give the empty string. -/
def filepathJoin (dir name : String) : String :=
  if dir = "" then (if name = "" then "" else filepathClean name)
  else if name = "" then filepathClean dir
  else filepathClean (dir ++ "/" ++ name)

/-- The scan for `*.csv` files of one poll (`downloader.go`, lines 285-313):
the file to return, if any, and the renames and sleeps made. -/
def waitForDownload_csv (expectedPath : String) : List ScanEntry → Option String × List FsAction
  | [] => (none, [])
  | e :: rest =>
    match e.info with
    | none => waitForDownload_csv expectedPath rest
    | some info =>
      if info.recent = true ∧ info.size > 0 then
        let moved : List FsAction :=
          if e.path ≠ expectedPath then [.rename e.path expectedPath] else []
        let file := if e.path ≠ expectedPath then expectedPath else e.path
        if e.final = some info.size then (some file, moved ++ [.sleep (2 * second)])
        else
          ((waitForDownload_csv expectedPath rest).1,
            moved ++ [.sleep (2 * second)] ++ (waitForDownload_csv expectedPath rest).2)
      else waitForDownload_csv expectedPath rest

/-- The scan for `*.xlsx` files of one poll (`downloader.go`, lines
315-328). -/
def waitForDownload_xlsx : List ScanEntry → Option String
  | [] => none
  | e :: rest =>
    match e.info with
    | none => waitForDownload_xlsx rest
    | some info =>
      if info.recent = true ∧ info.size > 0 then some e.path else waitForDownload_xlsx rest

/-- The stability check of one poll (`downloader.go`, lines 269-283), on
what `os.Stat` says of the expected file: whether the loop returns the
expected path, and the new values of `lastSize` and `stableCount`. -/
def waitForDownload_check (lastSize : Int) (stableCount : Nat) : Option Int → Bool × Int × Nat
  | none => (false, lastSize, stableCount)
  | some currentSize =>
    if currentSize = lastSize ∧ currentSize > 0 then
      (decide (stableCount + 1 ≥ 3), lastSize, stableCount + 1)
    else (false, currentSize, 0)

/-- The sizes of the expected file observed so far, after one more poll. -/
def observe (obs : List Int) : Option Int → List Int
  | none => obs
  | some currentSize => obs ++ [currentSize]

/-- The polling loop of `waitForDownload` (`downloader.go`, lines 267-333),
one turn for each poll made before the deadline, and its timeout error (line
335). The arguments after the polls are `lastSize`, `stableCount`, and the
polls, actions and observations so far. -/
def waitForDownload_loop (expectedPath expectedFileName : String) :
    List Poll → Int → Nat → Nat → List FsAction → List Int → WaitOutput
  | [], _, _, n, acts, obs =>
    { path := "",
      err := some (.errorf ("timeout esperando descarga de " ++ expectedFileName)),
      exit := .timeout, polls := n, actions := acts, observed := obs }
  | poll :: rest, lastSize, stableCount, n, acts, obs =>
    if (waitForDownload_check lastSize stableCount poll.expected).1 then
      { path := expectedPath, err := none, exit := .stable, polls := n + 1, actions := acts,
        observed := observe obs poll.expected }
    else
      match (waitForDownload_csv expectedPath poll.csv).1 with
      | some file =>
        { path := file, err := none, exit := .csvScan, polls := n + 1,
          actions := acts ++ (waitForDownload_csv expectedPath poll.csv).2,
          observed := observe obs poll.expected }
      | none =>
        match waitForDownload_xlsx poll.xlsx with
        | some file =>
          { path := file, err := none, exit := .xlsxScan, polls := n + 1,
            actions := acts ++ (waitForDownload_csv expectedPath poll.csv).2,
            observed := observe obs poll.expected }
        | none =>
          waitForDownload_loop expectedPath expectedFileName rest
            (waitForDownload_check lastSize stableCount poll.expected).2.1
            (waitForDownload_check lastSize stableCount poll.expected).2.2
            (n + 1)
            (acts ++ (waitForDownload_csv expectedPath poll.csv).2 ++ [.sleep second])
            (observe obs poll.expected)

/-- Downloader.waitForDownload (`downloader.go`, lines 254-336). `polls`
holds what the loop observes at each turn it makes while
`time.Now().Before(deadline)` holds. -/
def Downloader.waitForDownload (d : Downloader) (expectedFileName : String)
    (polls : List Poll) : WaitOutput :=
  waitForDownload_loop (filepathJoin d.DownloadDir expectedFileName) expectedFileName polls
    (-1) 0 0 [] []

/-- The downloader of the fresh scraper. -/
def downloader0 : Downloader := NewDownloader "/opt/soriano/backend/CSV/scraped"

/-- A poll at which the expected file `CLIENTES.csv` has the given size and,
being a `*.csv` file of the download directory written to a moment ago, is
listed by the scan with that size; `final` is its size two seconds later. -/
def pollGrowing (size final : Int) : Poll :=
  { expected := some size,
    csv := [ { path := "/opt/soriano/backend/CSV/scraped/CLIENTES.csv",
               info := some { size := size, recent := true }, final := some final } ],
    xlsx := [] }

/-- A poll at which only the expected file is seen, with the given size, and
the scans list nothing. -/
def pollOnly (size : Int) : Poll := { expected := some size, csv := [], xlsx := [] }

/-- What the two variables of the stability check know of the sizes observed
so far: nothing was observed yet, or `lastSize` is the size last observed
and the last `stableCount + 1` observations all showed it, a positive size
once the count is positive; the count stays below 3. -/
def stabilityInv (obs : List Int) (lastSize : Int) (stableCount : Nat) : Prop :=
  (obs = [] ∧ lastSize = -1 ∧ stableCount = 0) ∨
  (∃ (pre : List Int) (x : Int), obs = pre ++ List.replicate (stableCount + 1) x ∧
    lastSize = x ∧ stableCount ≤ 2 ∧ (1 ≤ stableCount → x > 0))

/-! ## Bookkeeping for the parent context -/

/-- Every login and every export succeeds, and each export takes six
minutes of the clock. -/
def envSlow : Env Script :=
  { envAllOk with
    exportPortal := fun t σ =>
      (.ok ("/opt/soriano/backend/CSV/scraped/" ++ t.str ++ ".csv", 2048),
        { σ with clock := σ.clock + 6 * minute }) }

/-- A context that is already cancelled, its deadline long past. -/
def contextCancelled : Context := { isDone := true, deadline := some 0 }

/-- A scheduler around the fresh scraper. -/
def scheduler0 : ScraperScheduler := { schedulerBusy with Scraper := scraper0 }

/-! ## Concurrent callers of `Run` -/

/-- Where one invocation of `Run` stands: before the guard; past the guard
(`scraper.go`, line 124) with the body still to run; past the body, holding
what it is about to return and the handle its deferred `cancel` closes, with
the deferred block still to run; returned from the guard with the "already
running" error (line 120); or returned after the deferred block. -/
inductive Caller where
  | waiting
  | admitted
  | unwinding (result : Option ScraperResult) (err : Option GoError) (h : Nat)
  | rejected
  | finished (result : Option ScraperResult) (err : Option GoError)
  deriving DecidableEq, Repr

/-- The invocation passed the guard. -/
def Caller.passed : Caller → Bool
  | .admitted => true
  | .unwinding _ _ _ => true
  | .finished _ _ => true
  | _ => false

/-- The invocation is between its guard and its deferred block. -/
def Caller.inFlight : Caller → Bool
  | .admitted => true
  | .unwinding _ _ _ => true
  | _ => false

/-- What the invocation returned, once it has. -/
def Caller.returned : Caller → Option (Option ScraperResult × Option GoError)
  | .rejected => some (none, some (.errorf "el scraper ya está en ejecución"))
  | .finished result err => some (result, err)
  | _ => none

/-- One scraper shared by concurrent invocations of `Run`, numbered from 0,
and the outside world. -/
structure Pool (σ : Type) where
  s : GCOScraper
  w : World σ
  callers : Nat → Caller

/-- The callers with caller `i` moved to `c`. -/
def setCaller (callers : Nat → Caller) (i : Nat) (c : Caller) : Nat → Caller :=
  fun j => if j = i then c else callers j

/-- One step of invocation `i`, on the scraper as the other invocations
left it. The guard and the deferred block are atomic because they hold the
mutex. The body is taken in one step: it does not write `IsRunning`, and the
guard of another invocation reads nothing else and, turned away, writes
nothing. An invocation that has returned does nothing more. -/
def Pool.step {σ : Type} (env : Env σ) (i : Nat) (p : Pool σ) : Pool σ :=
  match p.callers i with
  | .waiting =>
    match Run_guard p.s with
    | none => { p with callers := setCaller p.callers i .rejected }
    | some s1 => { p with s := s1, callers := setCaller p.callers i .admitted }
  | .admitted =>
    { s := (Run_body env p.s p.w).1.s,
      w := (Run_body env p.s p.w).1.w,
      callers := setCaller p.callers i
        (.unwinding (Run_body env p.s p.w).1.result (Run_body env p.s p.w).1.err
          (Run_body env p.s p.w).2) }
  | .unwinding result err h =>
    { s := (Run_deferred env h p.s p.w).1,
      w := (Run_deferred env h p.s p.w).2,
      callers := setCaller p.callers i (.finished result err) }
  | .rejected => p
  | .finished _ _ => p

/-- An interleaving: the invocations take their steps in the order of the
schedule. -/
def Pool.exec {σ : Type} (env : Env σ) : List Nat → Pool σ → Pool σ
  | [], p => p
  | i :: rest, p => Pool.exec env rest (Pool.step env i p)

/-- The pool before any invocation has taken a step. -/
def Pool.start {σ : Type} (s : GCOScraper) (w : World σ) : Pool σ :=
  { s := s, w := w, callers := fun _ => .waiting }

/-- The `N` invocations are simultaneous in the schedule `pre ++ post`: no
invocation takes a third step (for an admitted one, its deferred block)
before each of the `N` has taken its first (its guard). -/
def simultaneous (N : Nat) (pre : List Nat) : List Nat → Bool
  | [] => true
  | i :: post =>
    (decide (pre.count i < 2) || decide (∀ j < N, j ∈ pre)) && simultaneous N (pre ++ [i]) post

/-- What holds of the pool after the steps `pre` of a schedule of
simultaneous invocations on an idle scraper. -/
def Pool.inv {σ : Type} (N : Nat) (pre : List Nat) (p : Pool σ) : Prop :=
  (∀ i, p.callers i = .waiting ↔ i ∉ pre) ∧
  ((∃ i r e, p.callers i = .finished r e) → ∀ j < N, j ∈ pre) ∧
  (∀ i r e h, p.callers i = .unwinding r e h → 2 ≤ pre.count i) ∧
  (∀ i j, (p.callers i).passed = true → (p.callers j).passed = true → i = j) ∧
  (p.s.IsRunning = true ↔ ∃ i, (p.callers i).inFlight = true) ∧
  (pre ≠ [] → ∃ i, (p.callers i).passed = true)

/-! ## Bookkeeping for the directory scans -/

/-- The entry qualifies for the scans: `os.Stat` succeeds on it, it was
modified within the last two minutes and it is not empty. -/
def ScanEntry.fresh (e : ScanEntry) : Prop :=
  ∃ info : FileStat, e.info = some info ∧ info.recent = true ∧ info.size > 0

/-- The entry qualifies and its size is found again at the re-check two
seconds later. -/
def ScanEntry.settled (e : ScanEntry) : Prop :=
  ∃ info : FileStat, e.info = some info ∧ info.recent = true ∧ info.size > 0 ∧
    e.final = some info.size

/-- A poll at which the expected file is not there and the directory holds
one spreadsheet, `export.xlsx`, of 4096 bytes, written to a moment ago. -/
def pollXlsx : Poll :=
  { expected := none,
    csv := [],
    xlsx := [ { path := "/opt/soriano/backend/CSV/scraped/export.xlsx",
                info := some { size := 4096, recent := true }, final := some 4096 } ] }

/-- A poll at which the expected file is there, with 512 bytes and untouched
for more than two minutes, next to another file `descarga.csv` of 2048 bytes
written to a moment ago, which has the same size two seconds later. -/
def pollStray : Poll :=
  { expected := some 512,
    csv := [ { path := "/opt/soriano/backend/CSV/scraped/CLIENTES.csv",
               info := some { size := 512, recent := false }, final := some 512 },
             { path := "/opt/soriano/backend/CSV/scraped/descarga.csv",
               info := some { size := 2048, recent := true }, final := some 2048 } ],
    xlsx := [] }

/-! ## downloader.go: navigation and export -/

/-- Whether the characters `sub` occur in a row somewhere in the list. -/
def containsChars (sub : List Char) : List Char → Bool
  | [] => sub.isEmpty
  | c :: cs => sub.isPrefixOf (c :: cs) || containsChars sub cs

/-- The call `strings.Contains(s, substr)`. -/
def stringsContains (s substr : String) : Bool := containsChars substr.data s.data

/-- The pieces of a character list between the occurrences of `sep`, found
from left to right; `acc` holds the piece under way, reversed, and `skip` the
number of characters of a separator still to pass. -/
def splitChars (sep : List Char) : List Char → List Char → Nat → List (List Char)
  | [], acc, _ => [acc.reverse]
  | _ :: cs, acc, skip + 1 => splitChars sep cs acc skip
  | c :: cs, acc, 0 =>
    if sep.isPrefixOf (c :: cs) then acc.reverse :: splitChars sep cs [] (sep.length - 1)
    else splitChars sep cs (c :: acc) 0

/-- The call `strings.Split(s, sep)` for a separator that is not empty. -/
def stringsSplit (s sep : String) : List String :=
  (splitChars sep.data s.data [] 0).map String.mk

/-- The white space of `unicode.IsSpace`, by code point. -/
def isSpace (c : Char) : Bool :=
  decide (c.toNat = 9 ∨ c.toNat = 10 ∨ c.toNat = 11 ∨ c.toNat = 12 ∨ c.toNat = 13 ∨
    c.toNat = 32 ∨ c.toNat = 133 ∨ c.toNat = 160 ∨ c.toNat = 5760 ∨
    (8192 ≤ c.toNat ∧ c.toNat ≤ 8202) ∨ c.toNat = 8232 ∨ c.toNat = 8233 ∨ c.toNat = 8239 ∨
    c.toNat = 8287 ∨ c.toNat = 12288)

/-- The call `strings.TrimSpace(s)`. -/
def stringsTrimSpace (s : String) : String :=
  String.mk ((s.data.dropWhile isSpace).reverse.dropWhile isSpace).reverse

/-- A call that `DownloadCSV` and its helpers make on the browser, the clock
or the file system: the script of `clickMenu` that looks for the text among
the `a`, `span`, `li`, `button` and `div` elements and clicks the first hit;
the test `document.querySelector(sel) !== null`; `chromedp.Click`;
`chromedp.WaitVisible`; the script of `clickExportAndDownload` that looks for
the text among buttons and links and clicks the first hit; its script that
looks for a download icon; `chromedp.CaptureScreenshot`; `os.WriteFile`;
`time.Sleep`; the polling of `waitForDownload`; `os.Stat`. -/
inductive NavEvent where
  | menuSearch (searchText : String)
  | query (sel : String)
  | click (sel : String)
  | waitVisible (sel : String)
  | exportSearch (text : String)
  | iconSearch
  | captureScreenshot
  | writeFile (path : String)
  | sleep (d : Int)
  | waitForDownload (fileName : String)
  | stat (path : String)
  deriving DecidableEq, Repr

/-- What the browser, the file system and the clock answer to those calls,
over an external state `σ`. A script evaluation yields `none` when
`chromedp.Run` returns an error and otherwise the boolean the script
returned; `click` and `waitVisible` say whether the error is nil;
`captureScreenshot` yields the bytes, `none` on error; `polls` is what the
loop of `waitForDownload` observes; `toLower` is `strings.ToLower` and
`logDir` the value of `GCO_LOG_DIR`. -/
structure Browser (σ : Type) where
  menuSearch : String → σ → Option Bool × σ
  query : String → σ → Option Bool × σ
  click : String → σ → Bool × σ
  waitVisible : String → σ → Bool × σ
  exportSearch : String → σ → Option Bool × σ
  iconSearch : σ → Option Bool × σ
  captureScreenshot : σ → Option (List Nat) × σ
  writeFile : String → List Nat → σ → σ
  sleep : Int → σ → σ
  polls : String → σ → List Poll × σ
  stat : String → σ → Except GoError Int × σ
  now : σ → Int × σ
  toLower : String → String
  logDir : String

/-- The external state together with the trace of calls made so far. -/
structure Page (σ : Type) where
  st : σ
  trace : List NavEvent

/-- The candidates of `clickMenu` for a menu item (`downloader.go`, lines
90-99). -/
def menuSelectors (toLower : String → String) (menuItem : String) : List String :=
  [ "a:contains(\"" ++ menuItem ++ "\")",
    "span:contains(\"" ++ menuItem ++ "\")",
    "li:contains(\"" ++ menuItem ++ "\") > a",
    "[data-menu=\"" ++ menuItem ++ "\"]",
    "[title=\"" ++ menuItem ++ "\"]",
    "nav a[href*=\"" ++ toLower menuItem ++ "\" i]",
    ".menu-item:contains(\"" ++ menuItem ++ "\")",
    ".nav-link:contains(\"" ++ menuItem ++ "\")" ]

/-- The loop of `clickMenu` (`downloader.go`, lines 102-143): whether it
returned nil from inside the loop. -/
def clickMenu_loop {σ : Type} (b : Browser σ) (searchText : String) :
    List String → Page σ → Bool × Page σ
  | [], w => (false, w)
  | sel :: rest, w =>
    if stringsContains sel ":contains" then
      let w1 : Page σ :=
        { st := (b.menuSearch searchText w.st).2,
          trace := w.trace ++ [.menuSearch searchText] }
      if (b.menuSearch searchText w.st).1 = some true then (true, w1)
      else clickMenu_loop b searchText rest w1
    else
      let w1 : Page σ := { st := (b.query sel w.st).2, trace := w.trace ++ [.query sel] }
      if (b.query sel w.st).1 = some true then
        let w2 : Page σ := { st := (b.click sel w1.st).2, trace := w1.trace ++ [.click sel] }
        if (b.click sel w1.st).1 then (true, w2)
        else clickMenu_loop b searchText rest w2
      else clickMenu_loop b searchText rest w1

/-- Downloader.clickMenu (`downloader.go`, lines 88-146). -/
def Downloader.clickMenu {σ : Type} (b : Browser σ) (menuItem : String) (w : Page σ) :
    Option GoError × Page σ :=
  if (clickMenu_loop b (b.toLower menuItem) (menuSelectors b.toLower menuItem) w).1 then
    (none, (clickMenu_loop b (b.toLower menuItem) (menuSelectors b.toLower menuItem) w).2)
  else
    (some (.errorf ("no se encontró elemento de menú: " ++ menuItem)),
      (clickMenu_loop b (b.toLower menuItem) (menuSelectors b.toLower menuItem) w).2)

/-- The loop of `waitForData` (`downloader.go`, lines 152-169): whether it
returned nil from inside the loop. -/
def waitForData_loop {σ : Type} (b : Browser σ) : List String → Page σ → Bool × Page σ
  | [], w => (false, w)
  | sel0 :: rest, w =>
    let sel := stringsTrimSpace sel0
    let w1 : Page σ := { st := (b.query sel w.st).2, trace := w.trace ++ [.query sel] }
    if (b.query sel w.st).1 = some true then
      let w2 : Page σ :=
        { st := (b.waitVisible sel w1.st).2, trace := w1.trace ++ [.waitVisible sel] }
      if (b.waitVisible sel w1.st).1 then (true, w2)
      else waitForData_loop b rest w2
    else waitForData_loop b rest w1

/-- Downloader.waitForData (`downloader.go`, lines 149-172). -/
def Downloader.waitForData {σ : Type} (b : Browser σ) (waitSelector : String) (w : Page σ) :
    Option GoError × Page σ :=
  if (waitForData_loop b (stringsSplit waitSelector ", ") w).1 then
    (none, (waitForData_loop b (stringsSplit waitSelector ", ") w).2)
  else
    (some (.errorf "no se encontró indicador de datos cargados"),
      (waitForData_loop b (stringsSplit waitSelector ", ") w).2)

/-- The call `d.waitForDownload(config.FileName)` made from
`clickExportAndDownload`, on what its loop observes. -/
def callWaitForDownload {σ : Type} (b : Browser σ) (d : Downloader) (fileName : String)
    (w : Page σ) : (String × Option GoError) × Page σ :=
  (((d.waitForDownload fileName (b.polls fileName w.st).1).path,
    (d.waitForDownload fileName (b.polls fileName w.st).1).err),
   { st := (b.polls fileName w.st).2, trace := w.trace ++ [.waitForDownload fileName] })

/-- The texts that `clickExportAndDownload` looks for (`downloader.go`, line
179). -/
def exportTexts : List String := ["Exportar", "Export", "Excel", "CSV", "Descargar", "Download"]

/-- The first loop of `clickExportAndDownload` (`downloader.go`, lines
182-201): what it returned, if it returned. -/
def clickExport_css {σ : Type} (b : Browser σ) (d : Downloader) (config : DownloadConfig) :
    List String → Page σ → Option (String × Option GoError) × Page σ
  | [], w => (none, w)
  | sel0 :: rest, w =>
    let sel := stringsTrimSpace sel0
    if stringsContains sel ":contains" then clickExport_css b d config rest w
    else
      let w1 : Page σ := { st := (b.query sel w.st).2, trace := w.trace ++ [.query sel] }
      if (b.query sel w.st).1 = some true then
        let w2 : Page σ := { st := (b.click sel w1.st).2, trace := w1.trace ++ [.click sel] }
        if (b.click sel w1.st).1 then
          (some (callWaitForDownload b d config.FileName w2).1,
            (callWaitForDownload b d config.FileName w2).2)
        else clickExport_css b d config rest w2
      else clickExport_css b d config rest w1

/-- The second loop of `clickExportAndDownload` (`downloader.go`, lines
204-226): what it returned, if it returned. -/
def clickExport_text {σ : Type} (b : Browser σ) (d : Downloader) (config : DownloadConfig) :
    List String → Page σ → Option (String × Option GoError) × Page σ
  | [], w => (none, w)
  | text :: rest, w =>
    let w1 : Page σ :=
      { st := (b.exportSearch (b.toLower text) w.st).2,
        trace := w.trace ++ [.exportSearch (b.toLower text)] }
    if (b.exportSearch (b.toLower text) w.st).1 = some true then
      (some (callWaitForDownload b d config.FileName w1).1,
        (callWaitForDownload b d config.FileName w1).2)
    else clickExport_text b d config rest w1

/-- Downloader.clickExportAndDownload (`downloader.go`, lines 175-251). -/
def Downloader.clickExportAndDownload {σ : Type} (b : Browser σ) (d : Downloader)
    (config : DownloadConfig) (w : Page σ) : (String × Option GoError) × Page σ :=
  match clickExport_css b d config (stringsSplit config.ExportButton ", ") w with
  | (some r, w1) => (r, w1)
  | (none, w1) =>
    match clickExport_text b d config exportTexts w1 with
    | (some r, w2) => (r, w2)
    | (none, w2) =>
      let w3 : Page σ := { st := (b.iconSearch w2.st).2, trace := w2.trace ++ [.iconSearch] }
      if (b.iconSearch w2.st).1 = some true then callWaitForDownload b d config.FileName w3
      else (("", some (.errorf "no se encontró botón de exportar")), w3)

/-- The call `filepath.Join(os.Getenv("GCO_LOG_DIR"), filename)`. -/
def screenshotPath (logDir filename : String) : String := filepathJoin logDir filename

/-- Downloader.takeScreenshot (`downloader.go`, lines 339-355). -/
def Downloader.takeScreenshot {σ : Type} (b : Browser σ) (filename : String) (w : Page σ) :
    Page σ :=
  match (b.captureScreenshot w.st).1 with
  | none => { st := (b.captureScreenshot w.st).2, trace := w.trace ++ [.captureScreenshot] }
  | some screenshot =>
    { st := b.writeFile (screenshotPath b.logDir filename) screenshot
        (b.captureScreenshot w.st).2,
      trace := w.trace ++
        [.captureScreenshot, .writeFile (screenshotPath b.logDir filename)] }

/-- The navigation loop of `DownloadCSV` (`downloader.go`, lines 39-51) from
index `i` on: the error it returned, if it returned, and, added to `done`,
the menu items for which it called `clickMenu`, each with what the call
returned. -/
def DownloadCSV_menu {σ : Type} (b : Browser σ) (csvType : CSVType) :
    List String → Nat → Page σ → List (String × Option GoError) →
    Option GoError × Page σ × List (String × Option GoError)
  | [], _, w, done => (none, w, done)
  | menuItem :: rest, i, w, done =>
    match Downloader.clickMenu b menuItem w with
    | (some err, w1) =>
      (some (.wrapf ("error navegando a menú '" ++ menuItem ++ "': ") err),
        Downloader.takeScreenshot b
          ("menu_error_" ++ csvType.str ++ "_" ++ toString i ++ ".png") w1,
        done ++ [(menuItem, some err)])
    | (none, w1) =>
      DownloadCSV_menu b csvType rest (i + 1)
        { st := b.sleep (2 * second) w1.st, trace := w1.trace ++ [.sleep (2 * second)] }
        (done ++ [(menuItem, none)])

/-- What a call of `DownloadCSV` comes to: the two return values and the
world it leaves; the menu items for which `clickMenu` was called, in order,
each with what the call returned; what `waitForData` returned, if it was
called; what `clickExportAndDownload` returned, if it was called. -/
structure DownloadRun (σ : Type) where
  file : Option DownloadedFile
  err : Option GoError
  w : Page σ
  menu : List (String × Option GoError)
  dataWait : Option (Option GoError)
  exportStep : Option (String × Option GoError)

/-- Downloader.DownloadCSV (`downloader.go`, lines 30-85), step by step. -/
def Downloader.DownloadCSVOn {σ : Type} (b : Browser σ) (d : Downloader) (csvType : CSVType)
    (w : Page σ) : DownloadRun σ :=
  match d.Configs.lookup csvType with
  | none =>
    { file := none,
      err := some (.errorf ("configuración no encontrada para: " ++ csvType.str)),
      w := w, menu := [], dataWait := none, exportStep := none }
  | some config =>
    match DownloadCSV_menu b csvType config.MenuPath 0 w [] with
    | (some err, w1, menu) =>
      { file := none, err := some err, w := w1, menu := menu, dataWait := none,
        exportStep := none }
    | (none, w1, menu) =>
      let dw := Downloader.waitForData b config.WaitSelector w1
      let ex := Downloader.clickExportAndDownload b d config dw.2
      match ex.1.2 with
      | some err =>
        { file := none,
          err := some (.wrapf ("error exportando " ++ csvType.str ++ ": ") err),
          w := Downloader.takeScreenshot b ("export_error_" ++ csvType.str ++ ".png") ex.2,
          menu := menu, dataWait := some dw.1, exportStep := some ex.1 }
      | none =>
        let w3 : Page σ :=
          { st := (b.stat ex.1.1 ex.2.st).2, trace := ex.2.trace ++ [.stat ex.1.1] }
        match (b.stat ex.1.1 ex.2.st).1 with
        | .error err =>
          { file := none, err := some (.wrapf "error obteniendo info del archivo: " err),
            w := w3, menu := menu, dataWait := some dw.1, exportStep := some ex.1 }
        | .ok size =>
          { file := some { Type_ := csvType, Path := ex.1.1, Size := size,
                           DownloadedAt := (b.now w3.st).1, ImportJobID := "" },
            err := none,
            w := { w3 with st := (b.now w3.st).2 },
            menu := menu, dataWait := some dw.1, exportStep := some ex.1 }

/-- The call belongs to the export step or to what follows it. -/
def NavEvent.afterNavigation : NavEvent → Bool
  | .exportSearch _ => true
  | .iconSearch => true
  | .waitForDownload _ => true
  | .stat _ => true
  | .waitVisible _ => true
  | _ => false

/-- The call resolves or clicks a menu item. -/
def NavEvent.ofMenu : NavEvent → Bool
  | .menuSearch _ => true
  | .query _ => true
  | .click _ => true
  | _ => false

/-! ## A scripted portal, for concrete navigations -/

/-- Lower case of the letters A to Z, which is what `strings.ToLower` does
to a text of ASCII letters. -/
def asciiLower (s : String) : String :=
  String.mk (s.data.map (fun c =>
    if 65 ≤ c.toNat ∧ c.toNat ≤ 90 then Char.ofNat (c.toNat + 32) else c))

/-- A portal whose pages do not change: the lower-case texts that the menu
search finds, the selectors that match an element, the lower-case texts that
the export search finds, what the polling of the download directory observes,
and the size that `os.Stat` gives of the downloaded file. -/
structure Site where
  menuTexts : List String
  selectors : List String
  exportTexts : List String
  polls : List Poll
  size : Int

/-- The browser on such a portal, over a clock in nanoseconds: every script
runs without error, every click and every wait for visibility goes through,
screenshots are four bytes long, no download icon is found. -/
def siteBrowser (site : Site) : Browser Int :=
  { menuSearch := fun t σ => (some (decide (t ∈ site.menuTexts)), σ),
    query := fun sel σ => (some (decide (sel ∈ site.selectors)), σ),
    click := fun _ σ => (true, σ),
    waitVisible := fun _ σ => (true, σ),
    exportSearch := fun t σ => (some (decide (t ∈ site.exportTexts)), σ),
    iconSearch := fun σ => (some false, σ),
    captureScreenshot := fun σ => (some [137, 80, 78, 71], σ),
    writeFile := fun _ _ σ => σ,
    sleep := fun d σ => σ + d,
    polls := fun _ σ => (site.polls, σ),
    stat := fun _ σ => (.ok site.size, σ),
    now := fun σ => (σ, σ + 1),
    toLower := asciiLower,
    logDir := "/opt/soriano/logs/scraper" }

/-- The page before any call, the clock at 1000. -/
def page0 : Page Int := { st := 1000, trace := [] }

/-- A portal on which the text "cartera" is found by the menu search and an
element with `data-menu="Cartera"` exists as well. -/
def siteBoth : Site :=
  { menuTexts := ["cartera"], selectors := ["[data-menu=\"Cartera\"]"], exportTexts := [],
    polls := [], size := 0 }

/-- A portal on which no text is found by the menu search and an element
with `data-menu="Cartera"` exists. -/
def siteStructural : Site :=
  { menuTexts := [], selectors := ["[data-menu=\"Cartera\"]"], exportTexts := [],
    polls := [], size := 0 }

/-- A portal on which the menu "Cartera" is found and the menu "Clientes" is
not, by no candidate. -/
def siteNoClientes : Site :=
  { menuTexts := ["cartera"], selectors := [".btn-export", "table"], exportTexts := ["exportar"],
    polls := [pollOnly 2048, pollOnly 2048, pollOnly 2048, pollOnly 2048], size := 2048 }

/-- A portal on which both menus are found and an export button of class
`btn-export` exists, but none of the indicators of loaded data. -/
def siteNoGrid : Site :=
  { menuTexts := ["cartera", "clientes"], selectors := [".btn-export"], exportTexts := [],
    polls := [pollOnly 2048, pollOnly 2048, pollOnly 2048, pollOnly 2048], size := 2048 }

/-! ## Bookkeeping for the scans and the verdict -/

/-- A poll at which `os.Stat` fails on the expected file and both scans find
nothing. -/
def pollGone : Poll := { expected := none, csv := [], xlsx := [] }

/-- A downloader whose directory was given with a slash at its end. -/
def downloaderSlash : Downloader := NewDownloader "/opt/soriano/backend/CSV/scraped/"

/-- The portal of `portalOk` when the browser context is cancelled once the
form was sent and the wait is over: every query of the page fails, so no
selector is resolved, no text is read, `chromedp.Location` leaves
`currentURL` empty, and no screenshot or HTML is had. -/
def portalDead : LoginPortal :=
  { portalOk with
    afterMatches := fun _ => false,
    afterText := fun _ => none,
    currentURL := "",
    screenshotAfter := [],
    html := [] }

/-! ## Lemmas on the export loop -/

theorem downloadOutcomes_length {σ : Type} (env : Env σ) (ts : List CSVType) (w : World σ) :
    (downloadOutcomes env ts w).length = ts.length := by
  induction ts generalizing w with
  | nil => rfl
  | cons t ts ih => simp [downloadOutcomes, ih]

theorem DownloadCSV_trace {σ : Type} (env : Env σ) (t : CSVType) (w : World σ) :
    (Downloader.DownloadCSV env t w).2.trace = w.trace ++ [Event.download t] := by
  unfold Downloader.DownloadCSV
  split <;> simp [timeNow]

theorem DownloadCSV_type {σ : Type} (env : Env σ) (t : CSVType) (w : World σ)
    (file : DownloadedFile) (h : (Downloader.DownloadCSV env t w).1 = .ok file) :
    file.Type_ = t := by
  unfold Downloader.DownloadCSV at h
  split at h
  · simp at h
  · simp at h
    rw [← h]

theorem Run_downloads_trace {σ : Type} (env : Env σ) (ts : List CSVType)
    (r : ScraperResult) (w : World σ) :
    (Run_downloads env ts r w).2.trace = w.trace ++ ts.map Event.download := by
  induction ts generalizing r w with
  | nil => simp [Run_downloads]
  | cons t ts ih =>
    have ht := DownloadCSV_trace env t w
    unfold Run_downloads
    split
    · next err w1 heq =>
      rw [heq] at ht
      simp only [ih, List.map_cons]
      simp at ht
      simp [ht]
    · next file w1 heq =>
      rw [heq] at ht
      simp only [ih, List.map_cons]
      simp at ht
      simp [ht]

theorem Run_downloads_result {σ : Type} (env : Env σ) (ts : List CSVType)
    (r : ScraperResult) (w : World σ) :
    (Run_downloads env ts r w).1 =
      { r with
        Files := r.Files ++ (downloadOutcomes env ts w).filterMap outcomeFile,
        Errors := r.Errors ++ (downloadOutcomes env ts w).filterMap outcomeError } := by
  induction ts generalizing r w with
  | nil => simp [Run_downloads, downloadOutcomes]
  | cons t ts ih =>
    unfold Run_downloads
    split
    · next err w1 heq =>
      rw [ih]
      simp [downloadOutcomes, heq, outcomeFile, outcomeError]
    · next file w1 heq =>
      rw [ih]
      simp [downloadOutcomes, heq, outcomeFile, outcomeError]

theorem filterMap_outcomes_length (os : List (CSVType × Except GoError DownloadedFile)) :
    (os.filterMap outcomeFile).length + (os.filterMap outcomeError).length = os.length := by
  induction os with
  | nil => rfl
  | cons o os ih =>
    obtain ⟨t, x⟩ := o
    cases x with
    | error e => simp [List.filterMap_cons, outcomeFile, outcomeError]; omega
    | ok f => simp [List.filterMap_cons, outcomeFile, outcomeError]; omega

/-! ## Lemmas on `Run` -/

theorem Run_rejected {σ : Type} (env : Env σ) (ctx : Context) (s : GCOScraper) (w : World σ)
    (h : s.IsRunning = true) :
    Run env ctx s w =
      { result := none, err := some (.errorf "el scraper ya está en ejecución"),
        s := s, w := w } := by
  simp [Run, Run_guard, h]

theorem Run_login_split {σ : Type} (env : Env σ) (s : GCOScraper) (w : World σ) :
    AuthManager.Login env s.Auth (Run_loginWorld env w) =
      (Run_loginOutcome env s w, (AuthManager.Login env s.Auth (Run_loginWorld env w)).2.1,
        Run_exportWorld env s w) := rfl

theorem Login_trace {σ : Type} (env : Env σ) (am : AuthManager) (w : World σ) :
    (AuthManager.Login env am w).2.2.trace = w.trace ++ [Event.login] := by
  unfold AuthManager.Login
  split <;> simp [timeNow]

theorem Run_loginWorld_trace {σ : Type} (env : Env σ) (w : World σ) :
    (Run_loginWorld env w).trace = w.trace ++ [Event.chromeStart (Run_handle env w)] := by
  simp [Run_loginWorld, Run_handle, createChromeContext, timeNow]

theorem Run_exportWorld_trace {σ : Type} (env : Env σ) (s : GCOScraper) (w : World σ) :
    (Run_exportWorld env s w).trace =
      w.trace ++ [Event.chromeStart (Run_handle env w), Event.login] := by
  simp [Run_exportWorld, Login_trace, Run_loginWorld_trace]

/-- The result an admitted run returns when its login failed with `err`. -/
theorem Run_login_failed_result {σ : Type} (env : Env σ) (ctx : Context)
    (s : GCOScraper) (w : World σ)
    (h : s.IsRunning = false) (err : GoError) (hl : Run_loginOutcome env s w = some err) :
    ∃ t1 : Int, (Run env ctx s w).result =
      some { Success := false, StartTime := (timeNow env w).1, EndTime := t1,
             Duration := timeSub t1 (timeNow env w).1, Files := [],
             Errors := ["Error en login: " ++ err.Error], ImportJobIDs := [] } := by
  have hs := Run_login_split env s w
  rw [hl] at hs
  simp [Run, Run_guard, h, Run_body, Run_loginWorld] at hs ⊢
  rw [hs]
  exact ⟨_, rfl⟩

/-- The result an admitted run returns when its login succeeded. -/
theorem Run_login_ok_result {σ : Type} (env : Env σ) (ctx : Context) (s : GCOScraper) (w : World σ)
    (h : s.IsRunning = false) (hl : Run_loginOutcome env s w = none) :
    ∃ t1 : Int, (Run env ctx s w).result =
      some { Success :=
               decide (((downloadOutcomes env csvTypes (Run_exportWorld env s w)).filterMap
                 outcomeError).length = 0) &&
               decide (((downloadOutcomes env csvTypes (Run_exportWorld env s w)).filterMap
                 outcomeFile).length > 0),
             StartTime := (timeNow env w).1, EndTime := t1,
             Duration := timeSub t1 (timeNow env w).1,
             Files := (downloadOutcomes env csvTypes (Run_exportWorld env s w)).filterMap
               outcomeFile,
             Errors := (downloadOutcomes env csvTypes (Run_exportWorld env s w)).filterMap
               outcomeError,
             ImportJobIDs := [] } := by
  have hs := Run_login_split env s w
  rw [hl] at hs
  simp only [Run, Run_guard, h, Run_body, Run_loginWorld] at hs ⊢
  simp only [Bool.false_eq_true, if_false]
  rw [hs]
  simp only [Run_downloads_result, List.nil_append]
  exact ⟨_, rfl⟩

theorem Login_failed_manager {σ : Type} (env : Env σ) (am : AuthManager) (w : World σ)
    (err : GoError) (h : (AuthManager.Login env am w).1 = some err) :
    (AuthManager.Login env am w).2.1 = am := by
  unfold AuthManager.Login at h ⊢
  split
  · rfl
  · next heq => simp [heq] at h

/-- Error, scraper and trace of an admitted run whose login failed. -/
theorem Run_login_failed_state {σ : Type} (env : Env σ) (ctx : Context)
    (s : GCOScraper) (w : World σ)
    (h : s.IsRunning = false) (err : GoError) (hl : Run_loginOutcome env s w = some err) :
    (Run env ctx s w).err = some err ∧
    (∃ t2 : Int, (Run env ctx s w).s =
      { s with IsRunning := false, LastRun := t2, Status := .StatusFailed,
               LastError := some err, cancelFunc := some (Run_handle env w) }) ∧
    (Run env ctx s w).w.trace =
      w.trace ++ [Event.chromeStart (Run_handle env w), Event.login,
        Event.cancel (Run_handle env w)] := by
  have hs := Run_login_split env s w
  have ht := Run_exportWorld_trace env s w
  have hm := Login_failed_manager env s.Auth (Run_loginWorld env w) err hl
  rw [hl, hm] at hs
  simp only [Run, Run_guard, h, Run_body, Run_loginWorld] at hs ⊢
  simp only [Bool.false_eq_true, if_false]
  rw [hs]
  refine ⟨rfl, ⟨_, rfl⟩, ?_⟩
  simp [Run_deferred, callCancel, timeNow, ht, Run_handle]

/-- Error, scraper and trace of an admitted run whose login succeeded. -/
theorem Run_login_ok_state {σ : Type} (env : Env σ) (ctx : Context) (s : GCOScraper) (w : World σ)
    (h : s.IsRunning = false) (hl : Run_loginOutcome env s w = none) :
    (Run env ctx s w).err = none ∧
    (∃ r : ScraperResult, ∃ t2 tl : Int, (Run env ctx s w).result = some r ∧ (Run env ctx s w).s =
      { s with IsRunning := false, LastRun := t2, Status := Run_finalStatus r,
               Metrics := RecordRun s.Metrics r, cancelFunc := some (Run_handle env w),
               Auth := { s.Auth with IsLoggedIn := false, LastLogin := tl } }) ∧
    (Run env ctx s w).w.trace =
      w.trace ++ [Event.chromeStart (Run_handle env w), Event.login] ++
        csvTypes.map Event.download ++ [Event.logout, Event.cancel (Run_handle env w)] := by
  have hs := Run_login_split env s w
  have ht := Run_exportWorld_trace env s w
  have hm : ∃ tl : Int, (AuthManager.Login env s.Auth (Run_loginWorld env w)).2.1 =
      { s.Auth with IsLoggedIn := true, LastLogin := tl } := by
    unfold Run_loginOutcome at hl
    unfold AuthManager.Login at hl ⊢
    split
    · next heq => simp [heq] at hl
    · exact ⟨_, rfl⟩
  obtain ⟨tl, hm⟩ := hm
  rw [hl, hm] at hs
  simp only [Run, Run_guard, h, Run_body, Run_loginWorld] at hs ⊢
  simp only [Bool.false_eq_true, if_false]
  rw [hs]
  refine ⟨rfl, ⟨_, _, tl, rfl, rfl⟩, ?_⟩
  simp [Run_deferred, callCancel, timeNow, ht, Run_handle, AuthManager.Logout,
    Run_downloads_trace]

theorem outcomes_types {σ : Type} (env : Env σ) (ts : List CSVType) (w : World σ) :
    ((downloadOutcomes env ts w).filterMap outcomeFile).map (fun f => f.Type_) =
      (downloadOutcomes env ts w).filterMap outcomeType := by
  induction ts generalizing w with
  | nil => rfl
  | cons t ts ih =>
    cases hd : (Downloader.DownloadCSV env t w).1 with
    | error e => simp [downloadOutcomes, hd, outcomeFile, outcomeType, ih]
    | ok f =>
      simp [downloadOutcomes, hd, outcomeFile, outcomeType, ih,
        DownloadCSV_type env t w f hd]

theorem outcomes_types_sublist {σ : Type} (env : Env σ) (ts : List CSVType) (w : World σ) :
    List.Sublist ((downloadOutcomes env ts w).filterMap outcomeType) ts := by
  induction ts generalizing w with
  | nil => simp [downloadOutcomes]
  | cons t ts ih =>
    cases hd : (Downloader.DownloadCSV env t w).1 with
    | error e =>
      simp only [downloadOutcomes, hd, List.filterMap_cons, outcomeType]
      exact List.Sublist.cons _ (ih _)
    | ok f =>
      simp only [downloadOutcomes, hd, List.filterMap_cons, outcomeType]
      exact List.Sublist.cons₂ _ (ih _)

/-- An admitted run always returns a result. -/
theorem Run_admitted_result {σ : Type} (env : Env σ) (ctx : Context) (s : GCOScraper) (w : World σ)
    (h : s.IsRunning = false) : ∃ r : ScraperResult, (Run env ctx s w).result = some r := by
  cases hl : Run_loginOutcome env s w with
  | some err =>
    obtain ⟨t1, hr⟩ := Run_login_failed_result env ctx s w h err hl
    exact ⟨_, hr⟩
  | none =>
    obtain ⟨t1, hr⟩ := Run_login_ok_result env ctx s w h hl
    exact ⟨_, hr⟩

/-! ## The run lifecycle -/

/-- C1. Every run that is admitted by the single-flight guard returns a
result whose `Success` flag is true exactly when `Errors` is empty and
`Files` is not; so 4 files and 0 errors give true, 2 files and 2 errors give
false, 0 files and 1 error give false; and when the login succeeded `Files`
holds the file of every export that succeeded, whatever the flag. -/
theorem Run_success_iff {σ : Type} (env : Env σ) (ctx : Context) (s : GCOScraper) (w : World σ)
    (h : s.IsRunning = false) :
    ∃ r : ScraperResult, (Run env ctx s w).result = some r ∧
      (r.Success = true ↔ (r.Errors = [] ∧ r.Files ≠ [])) ∧
      (r.Files.length = 4 → r.Errors.length = 0 → r.Success = true) ∧
      (r.Files.length = 2 → r.Errors.length = 2 → r.Success = false) ∧
      (r.Files.length = 0 → r.Errors.length = 1 → r.Success = false) ∧
      (Run_loginOutcome env s w = none →
        r.Files = (downloadOutcomes env csvTypes (Run_exportWorld env s w)).filterMap
          outcomeFile) := by
  cases hl : Run_loginOutcome env s w with
  | some err =>
    obtain ⟨t1, hr⟩ := Run_login_failed_result env ctx s w h err hl
    refine ⟨_, hr, ?_, ?_, ?_, ?_, ?_⟩ <;> simp
  | none =>
    obtain ⟨t1, hr⟩ := Run_login_ok_result env ctx s w h hl
    refine ⟨_, hr, ?_, ?_, ?_, ?_, ?_⟩
    · simp [List.length_eq_zero, List.length_pos]
    · intro h4 h0
      simp only at h4 h0
      simp [h4, h0]
    · intro h2 he
      simp only at h2 he
      simp [h2, he]
    · intro h0 he
      simp only at h0 he
      simp [h0, he]
    · intro _
      rfl

/-- Witness for C1: a fresh scraper in the worlds where every export
succeeds (4 files, 0 errors, success), where two exports time out (2 files of
types clients and receipts, 2 errors, no success) and where the login is
rejected (0 files, 1 error, no success). -/
theorem Run_success_iff_witness :
    scraper0.IsRunning = false ∧
    (∃ r : ScraperResult, (Run envHalf Context.Background scraper0 script0).result = some r ∧
      (r.Success = true ↔ (r.Errors = [] ∧ r.Files ≠ [])) ∧
      (r.Files.length = 4 → r.Errors.length = 0 → r.Success = true) ∧
      (r.Files.length = 2 → r.Errors.length = 2 → r.Success = false) ∧
      (r.Files.length = 0 → r.Errors.length = 1 → r.Success = false) ∧
      (Run_loginOutcome envHalf scraper0 script0 = none →
        r.Files = (downloadOutcomes envHalf csvTypes
          (Run_exportWorld envHalf scraper0 script0)).filterMap outcomeFile)) ∧
    (Run envAllOk Context.Background scraper0 script0).result.map
      (fun r => (r.Files.length, r.Errors.length, r.Success)) = some (4, 0, true) ∧
    (Run envHalf Context.Background scraper0 script0).result.map
      (fun r => (r.Files.map (fun f => f.Type_), r.Errors.length, r.Success)) =
        some ([.CSVClientes, .CSVRecibos], 2, false) ∧
    (Run envNoLogin Context.Background scraper0 script0).result.map
      (fun r => (r.Files.length, r.Errors.length, r.Success)) = some (0, 1, false) :=
  ⟨by decide, Run_success_iff envHalf Context.Background scraper0 script0 (by decide), by decide, by decide,
    by decide⟩

/-- C2. A call of `Run` on a scraper that is already running returns a nil
result and the "already running" error, and leaves the scraper (IsRunning,
Status, LastRun, LastError, cancelFunc, Metrics and all the rest) and the
outside world exactly as they were: no browser is launched, no login and no
download is made. -/
theorem Run_already_running {σ : Type} (env : Env σ) (ctx : Context) (s : GCOScraper) (w : World σ)
    (h : s.IsRunning = true) :
    (Run env ctx s w).result = none ∧
    (Run env ctx s w).err = some (GoError.errorf "el scraper ya está en ejecución") ∧
    (Run env ctx s w).s = s ∧
    (Run env ctx s w).w = w := by
  rw [Run_rejected env ctx s w h]
  exact ⟨rfl, rfl, rfl, rfl⟩

/-- Witness for C2: a scraper in the middle of a run, called again. -/
theorem Run_already_running_witness :
    ({ scraper0 with IsRunning := true, Status := .StatusRunning } : GCOScraper).IsRunning
      = true ∧
    (Run envAllOk Context.Background { scraper0 with IsRunning := true, Status := .StatusRunning }
      script0).result = none ∧
    (Run envAllOk Context.Background { scraper0 with IsRunning := true, Status := .StatusRunning }
      script0).err = some (GoError.errorf "el scraper ya está en ejecución") ∧
    (Run envAllOk Context.Background { scraper0 with IsRunning := true, Status := .StatusRunning }
      script0).s = { scraper0 with IsRunning := true, Status := .StatusRunning } ∧
    (Run envAllOk Context.Background { scraper0 with IsRunning := true, Status := .StatusRunning }
      script0).w = script0 :=
  ⟨by decide, Run_already_running envAllOk Context.Background _ script0 (by decide)⟩

/-- C3. In every admitted run whose login succeeds, the calls made after the
login are exactly one `DownloadCSV` per record type, in the order clients,
policies, receipts, claims, followed by the logout, whatever the downloads
return; each failed download adds one entry to `Errors` and each successful
one adds its file to `Files`, so the two lists have 4 entries in all and
the types of `Files` are the types that succeeded, in that order. -/
theorem Run_downloads_all_types {σ : Type} (env : Env σ) (ctx : Context)
    (s : GCOScraper) (w : World σ)
    (h : s.IsRunning = false) (hl : Run_loginOutcome env s w = none) :
    ∃ r : ScraperResult, (Run env ctx s w).result = some r ∧
      (Run env ctx s w).w.trace =
        w.trace ++ [Event.chromeStart (Run_handle env w), Event.login,
          Event.download .CSVClientes, Event.download .CSVPolizas,
          Event.download .CSVRecibos, Event.download .CSVSiniestros,
          Event.logout, Event.cancel (Run_handle env w)] ∧
      r.Files = (downloadOutcomes env csvTypes (Run_exportWorld env s w)).filterMap
        outcomeFile ∧
      r.Errors = (downloadOutcomes env csvTypes (Run_exportWorld env s w)).filterMap
        outcomeError ∧
      r.Files.length + r.Errors.length = 4 ∧
      r.Files.map (fun f => f.Type_) =
        (downloadOutcomes env csvTypes (Run_exportWorld env s w)).filterMap outcomeType ∧
      List.Sublist (r.Files.map (fun f => f.Type_)) csvTypes := by
  obtain ⟨t1, hr⟩ := Run_login_ok_result env ctx s w h hl
  obtain ⟨_, _, htr⟩ := Run_login_ok_state env ctx s w h hl
  have hty := outcomes_types env csvTypes (Run_exportWorld env s w)
  refine ⟨_, hr, ?_, rfl, rfl, ?_, hty, ?_⟩
  · rw [htr]
    simp [csvTypes]
  · simp only [filterMap_outcomes_length, downloadOutcomes_length]
    rfl
  · simp only [hty]
    exact outcomes_types_sublist env csvTypes (Run_exportWorld env s w)

/-- Witness for C3: two of the four exports time out. -/
theorem Run_downloads_all_types_witness :
    scraper0.IsRunning = false ∧ Run_loginOutcome envHalf scraper0 script0 = none ∧
    ∃ r : ScraperResult, (Run envHalf Context.Background scraper0 script0).result = some r ∧
      (Run envHalf Context.Background scraper0 script0).w.trace =
        script0.trace ++ [Event.chromeStart (Run_handle envHalf script0), Event.login,
          Event.download .CSVClientes, Event.download .CSVPolizas,
          Event.download .CSVRecibos, Event.download .CSVSiniestros,
          Event.logout, Event.cancel (Run_handle envHalf script0)] ∧
      r.Files = (downloadOutcomes envHalf csvTypes
        (Run_exportWorld envHalf scraper0 script0)).filterMap outcomeFile ∧
      r.Errors = (downloadOutcomes envHalf csvTypes
        (Run_exportWorld envHalf scraper0 script0)).filterMap outcomeError ∧
      r.Files.length + r.Errors.length = 4 ∧
      r.Files.map (fun f => f.Type_) =
        (downloadOutcomes envHalf csvTypes
          (Run_exportWorld envHalf scraper0 script0)).filterMap outcomeType ∧
      List.Sublist (r.Files.map (fun f => f.Type_)) csvTypes :=
  ⟨by decide, by decide,
    Run_downloads_all_types envHalf Context.Background scraper0 script0 (by decide) (by decide)⟩

/-- C4. When the login of an admitted run fails, `Run` returns a non-nil
result together with the login error; the result has no file, exactly one
entry in `Errors` and `Success` false; the scraper ends with status failed
and `LastError` set to the login error; and the run calls nothing but the
browser launch, the login and the browser cancel: no `DownloadCSV` at all. -/
theorem Run_login_failure {σ : Type} (env : Env σ) (ctx : Context) (s : GCOScraper) (w : World σ)
    (h : s.IsRunning = false) (err : GoError) (hl : Run_loginOutcome env s w = some err) :
    ∃ r : ScraperResult, (Run env ctx s w).result = some r ∧
      (Run env ctx s w).err = some err ∧
      r.Files = [] ∧ r.Errors = ["Error en login: " ++ err.Error] ∧ r.Errors.length = 1 ∧
      r.Success = false ∧
      (Run env ctx s w).s.Status = .StatusFailed ∧
      (Run env ctx s w).s.LastError = some err ∧
      (Run env ctx s w).w.trace =
        w.trace ++ [Event.chromeStart (Run_handle env w), Event.login,
          Event.cancel (Run_handle env w)] ∧
      ∀ t : CSVType, Event.download t ∉ (Run env ctx s w).w.trace.drop w.trace.length := by
  obtain ⟨t1, hr⟩ := Run_login_failed_result env ctx s w h err hl
  obtain ⟨he, ⟨t2, hs⟩, htr⟩ := Run_login_failed_state env ctx s w h err hl
  refine ⟨_, hr, he, rfl, rfl, rfl, rfl, ?_, ?_, htr, ?_⟩
  · rw [hs]
  · rw [hs]
  · intro t
    rw [htr]
    simp

/-- Witness for C4: the portal rejects the credentials. -/
theorem Run_login_failure_witness :
    scraper0.IsRunning = false ∧
    Run_loginOutcome envNoLogin scraper0 script0 =
      some (GoError.errorf "error de login: credenciales") ∧
    ∃ r : ScraperResult, (Run envNoLogin Context.Background scraper0 script0).result = some r ∧
      (Run envNoLogin Context.Background scraper0 script0).err =
        some (GoError.errorf "error de login: credenciales") ∧
      r.Files = [] ∧
      r.Errors = ["Error en login: " ++
        (GoError.errorf "error de login: credenciales").Error] ∧
      r.Errors.length = 1 ∧
      r.Success = false ∧
      (Run envNoLogin Context.Background scraper0 script0).s.Status = .StatusFailed ∧
      (Run envNoLogin Context.Background scraper0 script0).s.LastError =
        some (GoError.errorf "error de login: credenciales") ∧
      (Run envNoLogin Context.Background scraper0 script0).w.trace =
        script0.trace ++ [Event.chromeStart (Run_handle envNoLogin script0), Event.login,
          Event.cancel (Run_handle envNoLogin script0)] ∧
      ∀ t : CSVType,
        Event.download t ∉
          (Run envNoLogin Context.Background scraper0 script0).w.trace.drop script0.trace.length :=
  ⟨by decide, by decide,
    Run_login_failure envNoLogin Context.Background scraper0 script0 (by decide) _ (by decide)⟩

/-- C5. After an admitted run whose login succeeded, the status of the
scraper is success exactly when the result holds at least one file, and
failed exactly when it holds none, whether or not `Errors` is empty. -/
theorem Run_status_by_files {σ : Type} (env : Env σ) (ctx : Context) (s : GCOScraper) (w : World σ)
    (h : s.IsRunning = false) (hl : Run_loginOutcome env s w = none) :
    ∃ r : ScraperResult, (Run env ctx s w).result = some r ∧
      ((Run env ctx s w).s.Status = .StatusSuccess ↔ r.Files ≠ []) ∧
      ((Run env ctx s w).s.Status = .StatusFailed ↔ r.Files = []) := by
  obtain ⟨t1, hr⟩ := Run_login_ok_result env ctx s w h hl
  obtain ⟨_, ⟨r, t2, tl, hr2, hs⟩, _⟩ := Run_login_ok_state env ctx s w h hl
  rw [hr] at hr2
  have hr3 := Option.some.inj hr2
  refine ⟨r, by rw [hr, hr2], ?_, ?_⟩
  · rw [hs, ← hr3]
    simp only [Run_finalStatus]
    cases hf : (downloadOutcomes env csvTypes (Run_exportWorld env s w)).filterMap outcomeFile
      <;> simp
  · rw [hs, ← hr3]
    simp only [Run_finalStatus]
    cases hf : (downloadOutcomes env csvTypes (Run_exportWorld env s w)).filterMap outcomeFile
      <;> simp

/-- Witness for C5: a partial success (2 files, 2 errors) ends with status
success, a run without any file with status failed. -/
theorem Run_status_by_files_witness :
    scraper0.IsRunning = false ∧ Run_loginOutcome envHalf scraper0 script0 = none ∧
    (∃ r : ScraperResult, (Run envHalf Context.Background scraper0 script0).result = some r ∧
      ((Run envHalf Context.Background scraper0 script0).s.Status = .StatusSuccess ↔ r.Files ≠ []) ∧
      ((Run envHalf Context.Background scraper0 script0).s.Status = .StatusFailed ↔ r.Files = [])) ∧
    (Run envHalf Context.Background scraper0 script0).s.Status = .StatusSuccess ∧
    (Run envHalf Context.Background scraper0 script0).result.map (fun r => (r.Files.length, r.Errors.length))
      = some (2, 2) ∧
    (Run envNoFile Context.Background scraper0 script0).s.Status = .StatusFailed ∧
    (Run envNoFile Context.Background scraper0 script0).result.map (fun r => (r.Files.length, r.Errors.length))
      = some (0, 4) :=
  ⟨by decide, by decide,
    Run_status_by_files envHalf Context.Background scraper0 script0 (by decide) (by decide),
    by decide, by decide, by decide, by decide⟩

/-- C6. Every admitted run, whichever way it ends (login failure, no file,
partial success, full success), returns with `IsRunning` false, so that
the next call of `Run` passes the guard and returns a result. -/
theorem Run_releases_lock {σ : Type} (env : Env σ) (ctx : Context) (s : GCOScraper) (w : World σ)
    (h : s.IsRunning = false) :
    (Run env ctx s w).s.IsRunning = false ∧
    (Run_guard (Run env ctx s w).s).isSome = true ∧
    ∀ w2 : World σ, (Run env ctx (Run env ctx s w).s w2).result ≠ none := by
  have hrun : (Run env ctx s w).s.IsRunning = false := by
    cases hl : Run_loginOutcome env s w with
    | some err =>
      obtain ⟨_, ⟨t2, hs⟩, _⟩ := Run_login_failed_state env ctx s w h err hl
      rw [hs]
    | none =>
      obtain ⟨_, ⟨r, t2, tl, _, hs⟩, _⟩ := Run_login_ok_state env ctx s w h hl
      rw [hs]
  refine ⟨hrun, by simp [Run_guard, hrun], ?_⟩
  intro w2
  obtain ⟨r, hr⟩ := Run_admitted_result env ctx (Run env ctx s w).s w2 hrun
  rw [hr]
  simp

/-- Witness for C6: the four ways an admitted run can end. -/
theorem Run_releases_lock_witness :
    scraper0.IsRunning = false ∧
    ((Run envNoLogin Context.Background scraper0 script0).s.IsRunning = false ∧
      (Run_guard (Run envNoLogin Context.Background scraper0 script0).s).isSome = true ∧
      ∀ w2 : World Script,
        (Run envNoLogin Context.Background (Run envNoLogin Context.Background scraper0 script0).s w2).result ≠ none) ∧
    (Run envNoFile Context.Background scraper0 script0).s.IsRunning = false ∧
    (Run envHalf Context.Background scraper0 script0).s.IsRunning = false ∧
    (Run envAllOk Context.Background scraper0 script0).s.IsRunning = false :=
  ⟨by decide, Run_releases_lock envNoLogin Context.Background scraper0 script0 (by decide),
    by decide, by decide, by decide⟩

/-- C7, as amended. `Stop` returns the "not running" error exactly when
`IsRunning` is false, and then leaves the scraper and the outside world as
they were. When `IsRunning` is true it returns nil and sets the status to
cancelled, changing no other field, and it calls the stored cancel function
when one is stored; when `cancelFunc` is nil it calls nothing. -/
theorem Stop_spec {σ : Type} (env : Env σ) (s : GCOScraper) (w : World σ) :
    ((Stop env s w).1 ≠ none ↔ s.IsRunning = false) ∧
    (s.IsRunning = false →
      (Stop env s w).1 = some (GoError.errorf "el scraper no está en ejecución") ∧
      (Stop env s w).2.1 = s ∧ (Stop env s w).2.2 = w) ∧
    (s.IsRunning = true →
      (Stop env s w).1 = none ∧
      (Stop env s w).2.1 = { s with Status := .StatusCancelled } ∧
      (∀ h : Nat, s.cancelFunc = some h →
        (Stop env s w).2.2.trace = w.trace ++ [Event.cancel h] ∧
        (Stop env s w).2.2.st = env.cancelChrome h w.st) ∧
      (s.cancelFunc = none → (Stop env s w).2.2 = w)) := by
  cases hr : s.IsRunning with
  | false => simp [Stop, hr]
  | true =>
    simp only [Stop, hr]
    refine ⟨by simp, by simp, fun _ => ⟨rfl, rfl, ?_, ?_⟩⟩
    · intro h hc
      simp [hc, callCancel]
    · intro hc
      simp [hc]

/-- Witness for C7 as amended: an idle scraper, and a scraper in a run whose
browser context has handle 7. -/
theorem Stop_spec_witness :
    ((Stop envAllOk scraper0 script0).1 ≠ none ↔ scraper0.IsRunning = false) ∧
    (Stop envAllOk scraper0 script0).1 =
      some (GoError.errorf "el scraper no está en ejecución") ∧
    (Stop envAllOk scraper0 script0).2.1 = scraper0 ∧
    (Stop envAllOk scraper0 script0).2.2 = script0 ∧
    (Stop envAllOk { scraperAdmitted with cancelFunc := some 7 } script0).1 = none ∧
    (Stop envAllOk { scraperAdmitted with cancelFunc := some 7 } script0).2.1.Status =
      .StatusCancelled ∧
    (Stop envAllOk { scraperAdmitted with cancelFunc := some 7 } script0).2.2.trace =
      [Event.cancel 7] :=
  ⟨(Stop_spec envAllOk scraper0 script0).1,
    ((Stop_spec envAllOk scraper0 script0).2.1 (by decide)).1,
    ((Stop_spec envAllOk scraper0 script0).2.1 (by decide)).2.1,
    ((Stop_spec envAllOk scraper0 script0).2.1 (by decide)).2.2,
    by decide, by decide, by decide⟩

/-- Counterexample to C7 as stated: the scraper that `Run` has just admitted
(`IsRunning` set, browser not yet launched, `cancelFunc` still nil) is
running, and `Stop` on it returns nil and sets the status to cancelled
without calling any cancel function: its trace stays empty. -/
theorem Stop_without_cancel :
    Run_guard scraper0 = some scraperAdmitted ∧
    scraperAdmitted.IsRunning = true ∧
    scraperAdmitted.cancelFunc = none ∧
    (Stop envAllOk scraperAdmitted script0).1 = none ∧
    (Stop envAllOk scraperAdmitted script0).2.1.Status = .StatusCancelled ∧
    script0.trace = [] ∧
    (Stop envAllOk scraperAdmitted script0).2.2.trace = [] := by
  decide


/-! ## Lemmas on the retry loop -/

theorem Run_nil_result_err {σ : Type} (env : Env σ) (ctx : Context) (s : GCOScraper) (w : World σ)
    (h : (Run env ctx s w).result = none) : (Run env ctx s w).err ≠ none := by
  cases hr : s.IsRunning with
  | true => rw [Run_rejected env ctx s w hr]; simp
  | false =>
    obtain ⟨r, hres⟩ := Run_admitted_result env ctx s w hr
    rw [hres] at h
    cases h

theorem Run_success_has_files {σ : Type} (env : Env σ) (ctx : Context)
    (s : GCOScraper) (w : World σ)
    (r : ScraperResult) (h : (Run env ctx s w).result = some r) (hs : r.Success = true) :
    r.Files ≠ [] := by
  cases hr : s.IsRunning with
  | true => rw [Run_rejected env ctx s w hr] at h; cases h
  | false =>
    cases hl : Run_loginOutcome env s w with
    | some err =>
      obtain ⟨t1, hres⟩ := Run_login_failed_result env ctx s w hr err hl
      rw [hres] at h
      rw [← Option.some.inj h] at hs
      cases hs
    | none =>
      obtain ⟨t1, hres⟩ := Run_login_ok_result env ctx s w hr hl
      rw [hres] at h
      rw [← Option.some.inj h] at hs ⊢
      simp only [Bool.and_eq_true, decide_eq_true_eq] at hs
      exact List.ne_nil_of_length_pos hs.2

/-- One turn of the loop whose attempt brings back a file: the loop returns
that attempt. -/
theorem loop_succ_files {σ : Type} (env : Env σ) (ctx : Context) (config : RetryConfig) (n : Nat)
    (attempt delay : Int) (lr : Option ScraperResult) (le : Option GoError)
    (s : GCOScraper) (w : World σ) (done : List (RunOutput σ))
    (h : attemptFiles
      (Run env ctx s (if attempt > 0 then timeSleep env delay w else w)) ≠ []) :
    RunWithRetry_loop env ctx config (n + 1) attempt delay lr le s w done =
      { result := (Run env ctx s (if attempt > 0 then timeSleep env delay w else w)).result,
        err := none,
        s := (Run env ctx s (if attempt > 0 then timeSleep env delay w else w)).s,
        w := (Run env ctx s (if attempt > 0 then timeSleep env delay w else w)).w,
        attempts := done ++ [Run env ctx s (if attempt > 0 then timeSleep env delay w else w)],
        nilDeref := false } := by
  unfold RunWithRetry_loop
  simp only
  generalize Run env ctx s (if attempt > 0 then timeSleep env delay w else w) = r at h ⊢
  cases hres : r.result with
  | none => simp [attemptFiles, hres] at h
  | some res =>
    simp only [attemptFiles, hres] at h
    have hpos : res.Files.length > 0 := List.length_pos.mpr h
    cases herr : r.err <;> simp [hpos]

/-- One turn of the loop whose attempt brings back no file: the loop goes on
with the next attempt. -/
theorem loop_succ_nofiles {σ : Type} (env : Env σ) (ctx : Context) (config : RetryConfig) (n : Nat)
    (attempt delay : Int) (lr : Option ScraperResult) (le : Option GoError)
    (s : GCOScraper) (w : World σ) (done : List (RunOutput σ))
    (h : attemptFiles
      (Run env ctx s (if attempt > 0 then timeSleep env delay w else w)) = []) :
    RunWithRetry_loop env ctx config (n + 1) attempt delay lr le s w done =
      RunWithRetry_loop env ctx config n (attempt + 1)
        (if attempt > 0 then nextDelay env config delay else delay)
        (Run env ctx s (if attempt > 0 then timeSleep env delay w else w)).result
        (Run env ctx s (if attempt > 0 then timeSleep env delay w else w)).err
        (Run env ctx s (if attempt > 0 then timeSleep env delay w else w)).s
        (Run env ctx s (if attempt > 0 then timeSleep env delay w else w)).w
        (done ++ [Run env ctx s (if attempt > 0 then timeSleep env delay w else w)]) := by
  have hnil := Run_nil_result_err env ctx s (if attempt > 0 then timeSleep env delay w else w)
  have hsucc := Run_success_has_files env ctx s (if attempt > 0 then timeSleep env delay w else w)
  conv_lhs => unfold RunWithRetry_loop
  simp only
  generalize Run env ctx s (if attempt > 0 then timeSleep env delay w else w) = r at h hnil hsucc ⊢
  cases hres : r.result with
  | none =>
    cases herr : r.err with
    | none => exact absurd herr (hnil hres)
    | some e => simp
  | some res =>
    simp only [attemptFiles, hres] at h
    have hs : res.Success = false := by
      cases hb : res.Success with
      | false => rfl
      | true => exact absurd h (hsucc res hres hb)
    cases herr : r.err <;> simp [hs, h]

/-- The loop only appends to the list of attempts, at most one per turn. -/
theorem loop_attempts_prefix {σ : Type} (env : Env σ) (ctx : Context)
    (config : RetryConfig) (n : Nat) :
    ∀ (attempt delay : Int) (lr : Option ScraperResult) (le : Option GoError)
      (s : GCOScraper) (w : World σ) (done : List (RunOutput σ)),
      ∃ new : List (RunOutput σ),
        (RunWithRetry_loop env ctx config n attempt delay lr le s w done).attempts = done ++ new ∧
        new.length ≤ n := by
  induction n with
  | zero =>
    intro attempt delay lr le s w done
    exact ⟨[], by simp [RunWithRetry_loop], by simp⟩
  | succ n ih =>
    intro attempt delay lr le s w done
    by_cases hf : attemptFiles
        (Run env ctx s (if attempt > 0 then timeSleep env delay w else w)) = []
    · rw [loop_succ_nofiles env ctx config n attempt delay lr le s w done hf]
      obtain ⟨new, hnew, hlen⟩ := ih (attempt + 1)
        (if attempt > 0 then nextDelay env config delay else delay)
        (Run env ctx s (if attempt > 0 then timeSleep env delay w else w)).result
        (Run env ctx s (if attempt > 0 then timeSleep env delay w else w)).err
        (Run env ctx s (if attempt > 0 then timeSleep env delay w else w)).s
        (Run env ctx s (if attempt > 0 then timeSleep env delay w else w)).w
        (done ++ [Run env ctx s (if attempt > 0 then timeSleep env delay w else w)])
      refine ⟨Run env ctx s (if attempt > 0 then timeSleep env delay w else w) :: new, ?_, ?_⟩
      · rw [hnew]; simp
      · simp; omega
    · rw [loop_succ_files env ctx config n attempt delay lr le s w done hf]
      exact ⟨[Run env ctx s (if attempt > 0 then timeSleep env delay w else w)], rfl, by simp⟩

/-- An attempt of the loop that brings back a file is the last one, and the
loop returns what it returned, with a nil error, leaving the scraper and the
world as that attempt left them. -/
theorem loop_first_file {σ : Type} (env : Env σ) (ctx : Context) (config : RetryConfig) (n : Nat) :
    ∀ (attempt delay : Int) (lr : Option ScraperResult) (le : Option GoError)
      (s : GCOScraper) (w : World σ) (done pre post : List (RunOutput σ)) (x : RunOutput σ),
      (RunWithRetry_loop env ctx config n attempt delay lr le s w done).attempts =
        done ++ (pre ++ x :: post) →
      attemptFiles x ≠ [] →
      post = [] ∧ (∀ y ∈ pre, attemptFiles y = []) ∧
      (RunWithRetry_loop env ctx config n attempt delay lr le s w done).result = x.result ∧
      (RunWithRetry_loop env ctx config n attempt delay lr le s w done).err = none ∧
      (RunWithRetry_loop env ctx config n attempt delay lr le s w done).s = x.s ∧
      (RunWithRetry_loop env ctx config n attempt delay lr le s w done).w = x.w ∧
      (RunWithRetry_loop env ctx config n attempt delay lr le s w done).nilDeref = false := by
  induction n with
  | zero =>
    intro attempt delay lr le s w done pre post x hsplit _
    simp [RunWithRetry_loop] at hsplit
  | succ n ih =>
    intro attempt delay lr le s w done pre post x hsplit hx
    by_cases hf : attemptFiles
        (Run env ctx s (if attempt > 0 then timeSleep env delay w else w)) = []
    · rw [loop_succ_nofiles env ctx config n attempt delay lr le s w done hf] at hsplit ⊢
      obtain ⟨new, hnew, _⟩ := loop_attempts_prefix env ctx config n (attempt + 1)
        (if attempt > 0 then nextDelay env config delay else delay)
        (Run env ctx s (if attempt > 0 then timeSleep env delay w else w)).result
        (Run env ctx s (if attempt > 0 then timeSleep env delay w else w)).err
        (Run env ctx s (if attempt > 0 then timeSleep env delay w else w)).s
        (Run env ctx s (if attempt > 0 then timeSleep env delay w else w)).w
        (done ++ [Run env ctx s (if attempt > 0 then timeSleep env delay w else w)])
      have hcmp := hsplit
      rw [hnew, List.append_assoc, List.append_cancel_left_eq] at hcmp
      cases pre with
      | nil =>
        simp only [List.nil_append, List.singleton_append, List.cons.injEq] at hcmp
        rw [← hcmp.1] at hx
        exact absurd hf hx
      | cons p pre =>
        simp only [List.cons_append, List.singleton_append, List.cons.injEq] at hcmp
        have hsplit2 : (RunWithRetry_loop env ctx config n (attempt + 1)
            (if attempt > 0 then nextDelay env config delay else delay)
            (Run env ctx s (if attempt > 0 then timeSleep env delay w else w)).result
            (Run env ctx s (if attempt > 0 then timeSleep env delay w else w)).err
            (Run env ctx s (if attempt > 0 then timeSleep env delay w else w)).s
            (Run env ctx s (if attempt > 0 then timeSleep env delay w else w)).w
            (done ++ [Run env ctx s (if attempt > 0 then timeSleep env delay w else w)])).attempts
            = (done ++ [Run env ctx s (if attempt > 0 then timeSleep env delay w else w)]) ++
              (pre ++ x :: post) := by
          rw [hsplit, hcmp.1]
          simp
        obtain ⟨h1, h2, h3⟩ := ih _ _ _ _ _ _ _ pre post x hsplit2 hx
        refine ⟨h1, ?_, h3⟩
        intro y hy
        rcases List.mem_cons.mp hy with hyp | hyp
        · rw [hyp, ← hcmp.1]; exact hf
        · exact h2 y hyp
    · rw [loop_succ_files env ctx config n attempt delay lr le s w done hf] at hsplit ⊢
      simp only [List.append_cancel_left_eq] at hsplit
      cases pre with
      | nil =>
        simp only [List.nil_append, List.cons.injEq] at hsplit
        obtain ⟨hx1, hpost⟩ := hsplit
        refine ⟨hpost.symm, by simp, ?_, rfl, ?_, ?_, rfl⟩ <;> rw [hx1]
      | cons p pre =>
        simp at hsplit

/-- When no attempt of the loop brings back a file, the loop makes all its
`n` turns and returns what the last attempt returned, its error wrapped. -/
theorem loop_exhausted {σ : Type} (env : Env σ) (ctx : Context) (config : RetryConfig) (n : Nat) :
    ∀ (attempt delay : Int) (lr : Option ScraperResult) (le : Option GoError)
      (s : GCOScraper) (w : World σ) (done : List (RunOutput σ)),
      0 < done.length + n →
      (∀ x : RunOutput σ, done.getLast? = some x →
        lr = x.result ∧ le = x.err ∧ s = x.s ∧ w = x.w) →
      (∀ y ∈ (RunWithRetry_loop env ctx config n attempt delay lr le s w done).attempts,
        attemptFiles y = []) →
      (RunWithRetry_loop env ctx config n attempt delay lr le s w done).attempts.length =
        done.length + n ∧
      ∃ last : RunOutput σ,
        (RunWithRetry_loop env ctx config n attempt delay lr le s w done).attempts.getLast? =
          some last ∧
        (RunWithRetry_loop env ctx config n attempt delay lr le s w done).result = last.result ∧
        (RunWithRetry_loop env ctx config n attempt delay lr le s w done).err =
          some (errorfWrap
            ("falló después de " ++ toString config.MaxRetries ++ " reintentos: ") last.err) ∧
        (RunWithRetry_loop env ctx config n attempt delay lr le s w done).s = last.s ∧
        (RunWithRetry_loop env ctx config n attempt delay lr le s w done).w = last.w ∧
        (RunWithRetry_loop env ctx config n attempt delay lr le s w done).nilDeref = false := by
  induction n with
  | zero =>
    intro attempt delay lr le s w done hpos hinv _
    have hne : done ≠ [] := by
      intro h0
      simp [h0] at hpos
    obtain ⟨x, hx⟩ : ∃ x, done.getLast? = some x :=
      ⟨done.getLast hne, List.getLast?_eq_getLast done hne⟩
    obtain ⟨h1, h2, h3, h4⟩ := hinv x hx
    refine ⟨by simp [RunWithRetry_loop], x, ?_⟩
    simp [RunWithRetry_loop, hx, h1, h2, h3, h4]
  | succ n ih =>
    intro attempt delay lr le s w done _ _ hno
    by_cases hf : attemptFiles
        (Run env ctx s (if attempt > 0 then timeSleep env delay w else w)) = []
    · rw [loop_succ_nofiles env ctx config n attempt delay lr le s w done hf] at hno ⊢
      have hstep := ih (attempt + 1)
        (if attempt > 0 then nextDelay env config delay else delay)
        (Run env ctx s (if attempt > 0 then timeSleep env delay w else w)).result
        (Run env ctx s (if attempt > 0 then timeSleep env delay w else w)).err
        (Run env ctx s (if attempt > 0 then timeSleep env delay w else w)).s
        (Run env ctx s (if attempt > 0 then timeSleep env delay w else w)).w
        (done ++ [Run env ctx s (if attempt > 0 then timeSleep env delay w else w)])
        (by simp)
        (by
          intro x hx
          simp at hx
          rw [← hx]
          exact ⟨rfl, rfl, rfl, rfl⟩)
        hno
      obtain ⟨hlen, hrest⟩ := hstep
      refine ⟨?_, hrest⟩
      rw [hlen]
      simp
      omega
    · exfalso
      rw [loop_succ_files env ctx config n attempt delay lr le s w done hf] at hno
      exact hf (hno _ (by simp))

theorem nextDelay_eq_min {σ : Type} (env : Env σ) (config : RetryConfig) (d : Int) :
    nextDelay env config d = min (scaleDelay env config d) config.MaxDelay := by
  unfold nextDelay
  split
  · next h => rw [min_eq_right (le_of_lt h)]
  · next h => rw [min_eq_left (not_lt.mp h)]

theorem sleepDurations_append (l1 l2 : List Event) :
    sleepDurations (l1 ++ l2) = sleepDurations l1 ++ sleepDurations l2 := by
  induction l1 with
  | nil => rfl
  | cons e l1 ih => cases e <;> simp [sleepDurations, ih]

theorem sleepDurations_downloads (ts : List CSVType) :
    sleepDurations (ts.map Event.download) = [] := by
  induction ts with
  | nil => rfl
  | cons t ts ih => simp [sleepDurations, ih]

/-- The run itself never sleeps. -/
theorem Run_sleeps {σ : Type} (env : Env σ) (ctx : Context) (s : GCOScraper) (w : World σ) :
    sleepDurations (Run env ctx s w).w.trace = sleepDurations w.trace := by
  cases hr : s.IsRunning with
  | true => rw [Run_rejected env ctx s w hr]
  | false =>
    cases hl : Run_loginOutcome env s w with
    | some err =>
      obtain ⟨_, _, htr⟩ := Run_login_failed_state env ctx s w hr err hl
      rw [htr, sleepDurations_append]
      simp [sleepDurations]
    | none =>
      obtain ⟨_, _, htr⟩ := Run_login_ok_state env ctx s w hr hl
      rw [htr]
      simp only [sleepDurations_append, sleepDurations_downloads]
      simp [sleepDurations]

/-- From the second turn on, the loop makes consecutive retries. -/
theorem loop_retries {σ : Type} (env : Env σ) (ctx : Context) (config : RetryConfig) (n : Nat) :
    ∀ (k : Nat) (attempt : Int) (lr : Option ScraperResult) (le : Option GoError)
      (s : GCOScraper) (w : World σ) (done : List (RunOutput σ)),
      attempt > 0 →
      ∃ new : List (RunOutput σ),
        (RunWithRetry_loop env ctx config n attempt (retryDelay env config k) lr le s w
          done).attempts = done ++ new ∧
        retriesFrom env ctx config k s w new := by
  induction n with
  | zero =>
    intro k attempt lr le s w done _
    exact ⟨[], by simp [RunWithRetry_loop], trivial⟩
  | succ n ih =>
    intro k attempt lr le s w done hpos
    have hnext : (if attempt > 0 then nextDelay env config (retryDelay env config k)
        else retryDelay env config k) = retryDelay env config (k + 1) := by
      rw [if_pos hpos, nextDelay_eq_min]
      rfl
    have hw : (if attempt > 0 then timeSleep env (retryDelay env config k) w else w) =
        timeSleep env (retryDelay env config k) w := if_pos hpos
    by_cases hf : attemptFiles (Run env ctx s
        (if attempt > 0 then timeSleep env (retryDelay env config k) w else w)) = []
    · rw [loop_succ_nofiles env ctx config n attempt _ lr le s w done hf, hnext]
      obtain ⟨new, hnew, hchain⟩ := ih (k + 1) (attempt + 1)
        (Run env ctx s (if attempt > 0 then timeSleep env (retryDelay env config k) w
          else w)).result
        (Run env ctx s (if attempt > 0 then timeSleep env (retryDelay env config k) w
          else w)).err
        (Run env ctx s (if attempt > 0 then timeSleep env (retryDelay env config k) w
          else w)).s
        (Run env ctx s (if attempt > 0 then timeSleep env (retryDelay env config k) w
          else w)).w
        (done ++ [Run env ctx s (if attempt > 0 then timeSleep env (retryDelay env config k) w
          else w)])
        (by omega)
      refine ⟨Run env ctx s (timeSleep env (retryDelay env config k) w) :: new, ?_, ?_⟩
      · rw [hnew, hw]; simp
      · rw [hw] at hchain
        exact ⟨rfl, hchain⟩
    · rw [loop_succ_files env ctx config n attempt _ lr le s w done hf, hw]
      exact ⟨[Run env ctx s (timeSleep env (retryDelay env config k) w)], rfl, rfl, trivial⟩

/-- The loop leaves the scraper and the world as its last attempt left
them. -/
theorem loop_final {σ : Type} (env : Env σ) (ctx : Context) (config : RetryConfig) (n : Nat) :
    ∀ (attempt delay : Int) (lr : Option ScraperResult) (le : Option GoError)
      (s : GCOScraper) (w : World σ) (done : List (RunOutput σ)),
      (∀ x : RunOutput σ, done.getLast? = some x → s = x.s ∧ w = x.w) →
      ∀ x : RunOutput σ,
        (RunWithRetry_loop env ctx config n attempt delay lr le s w done).attempts.getLast? =
          some x →
        (RunWithRetry_loop env ctx config n attempt delay lr le s w done).s = x.s ∧
        (RunWithRetry_loop env ctx config n attempt delay lr le s w done).w = x.w := by
  induction n with
  | zero =>
    intro attempt delay lr le s w done hinv x hx
    simp only [RunWithRetry_loop] at hx ⊢
    exact hinv x hx
  | succ n ih =>
    intro attempt delay lr le s w done _ x hx
    by_cases hf : attemptFiles
        (Run env ctx s (if attempt > 0 then timeSleep env delay w else w)) = []
    · rw [loop_succ_nofiles env ctx config n attempt delay lr le s w done hf] at hx ⊢
      refine ih _ _ _ _ _ _ _ ?_ x hx
      intro y hy
      simp at hy
      rw [← hy]
      exact ⟨rfl, rfl⟩
    · rw [loop_succ_files env ctx config n attempt delay lr le s w done hf] at hx ⊢
      simp at hx
      rw [← hx]
      exact ⟨rfl, rfl⟩

theorem map_range_shift (g : Nat → Int) (k m : Nat) :
    g k :: (List.range m).map (fun i => g (k + 1 + i)) =
      (List.range (m + 1)).map (fun i => g (k + i)) := by
  rw [List.range_succ_eq_map]
  simp only [List.map_cons, List.map_map, Nat.add_zero, List.cons.injEq, true_and]
  apply List.map_congr_left
  intro i _
  simp only [Function.comp_apply]
  congr 1
  omega

/-- The sleeps in the trace left by consecutive retries. -/
theorem retries_sleeps {σ : Type} (env : Env σ) (ctx : Context) (config : RetryConfig)
    (new : List (RunOutput σ)) :
    ∀ (k : Nat) (s : GCOScraper) (w : World σ),
      retriesFrom env ctx config k s w new →
      ∀ x : RunOutput σ, new.getLast? = some x →
        sleepDurations x.w.trace =
          sleepDurations w.trace ++
            (List.range new.length).map (fun i => retryDelay env config (k + i)) := by
  induction new with
  | nil =>
    intro k s w _ x hx
    cases hx
  | cons a rest ih =>
    intro k s w hchain x hx
    obtain ⟨ha, hrest⟩ := hchain
    have hsl : sleepDurations a.w.trace =
        sleepDurations w.trace ++ [retryDelay env config k] := by
      rw [ha, Run_sleeps]
      simp [timeSleep, sleepDurations_append, sleepDurations]
    cases rest with
    | nil =>
      simp at hx
      rw [← hx, hsl]
      rfl
    | cons b rest2 =>
      have hx2 : (b :: rest2).getLast? = some x := by
        rw [List.getLast?_cons_cons] at hx
        exact hx
      rw [ih (k + 1) a.s a.w hrest x hx2, hsl, List.append_assoc]
      congr 1
      exact map_range_shift (retryDelay env config) k (b :: rest2).length

/-! ## The retry policy -/

/-- C8. For every retry policy with `MaxRetries ≥ 0`: when none of the
attempts made brings back a file, `RunWithRetry` calls `Run` exactly
`MaxRetries + 1` times and then returns the result of the last attempt
together with a non-nil error built by `fmt.Errorf` with `%w` on the error
of the last attempt, leaving the scraper and the world as the last attempt
left them. When the last attempt returned an error, the error returned wraps
it: `errors.Unwrap` gives it back. When the last attempt returned a nil
error, which is what `Run` returns whenever it got past the login, the
error returned wraps nothing: `errors.Unwrap` gives nil and the text ends in
`%!w(<nil>)`. -/
theorem RunWithRetry_exhausts {σ : Type} (env : Env σ) (ctx : Context) (config : RetryConfig)
    (s : GCOScraper) (w : World σ) (hmax : 0 ≤ config.MaxRetries)
    (hno : ∀ a ∈ (RunWithRetry env ctx config s w).attempts, attemptFiles a = []) :
    ((RunWithRetry env ctx config s w).attempts.length : Int) = config.MaxRetries + 1 ∧
    ∃ last : RunOutput σ,
      (RunWithRetry env ctx config s w).attempts.getLast? = some last ∧
      (RunWithRetry env ctx config s w).result = last.result ∧
      (RunWithRetry env ctx config s w).err =
        some (errorfWrap
          ("falló después de " ++ toString config.MaxRetries ++ " reintentos: ") last.err) ∧
      (RunWithRetry env ctx config s w).err ≠ none ∧
      (∀ e : GoError, last.err = some e →
        (RunWithRetry env ctx config s w).err =
          some (.wrapf
            ("falló después de " ++ toString config.MaxRetries ++ " reintentos: ") e) ∧
        (RunWithRetry env ctx config s w).err.bind GoError.Unwrap = some e) ∧
      (last.err = none →
        (RunWithRetry env ctx config s w).err =
          some (.wrapNil
            ("falló después de " ++ toString config.MaxRetries ++ " reintentos: ")) ∧
        (RunWithRetry env ctx config s w).err.bind GoError.Unwrap = none ∧
        (RunWithRetry env ctx config s w).err.map GoError.Error =
          some ("falló después de " ++ toString config.MaxRetries ++ " reintentos: " ++
            "%!w(<nil>)")) ∧
      (RunWithRetry env ctx config s w).s = last.s ∧
      (RunWithRetry env ctx config s w).w = last.w ∧
      (RunWithRetry env ctx config s w).nilDeref = false := by
  have hpos : 0 < ([] : List (RunOutput σ)).length + (config.MaxRetries + 1).toNat := by
    simp only [List.length_nil, Nat.zero_add]
    omega
  obtain ⟨hlen, last, h1, h2, h3, h4, h5, h6⟩ :=
    loop_exhausted env ctx config (config.MaxRetries + 1).toNat 0 config.InitialDelay none none
      s w [] hpos (by intro x hx; cases hx) hno
  refine ⟨?_, last, h1, h2, h3, ?_, ?_, ?_, h4, h5, h6⟩
  · unfold RunWithRetry
    rw [hlen]
    simp only [List.length_nil, Nat.zero_add]
    omega
  · unfold RunWithRetry
    rw [h3]
    simp
  · intro e he
    unfold RunWithRetry
    rw [h3, he]
    exact ⟨rfl, rfl⟩
  · intro he
    unfold RunWithRetry
    rw [h3, he]
    exact ⟨rfl, rfl, rfl⟩

/-- Witness for C8: the default policy in a world where every login is
rejected; `Run` is called 4 times and the error returned wraps the error of
the fourth login. -/
theorem RunWithRetry_exhausts_witness :
    0 ≤ DefaultRetryConfig.MaxRetries ∧
    (∀ a ∈ (RunWithRetry envNoLogin Context.Background DefaultRetryConfig scraper0
        script0).attempts, attemptFiles a = []) ∧
    ((RunWithRetry envNoLogin Context.Background DefaultRetryConfig scraper0
        script0).attempts.length : Int) = DefaultRetryConfig.MaxRetries + 1 ∧
    (∃ last : RunOutput Script,
      (RunWithRetry envNoLogin Context.Background DefaultRetryConfig scraper0
        script0).attempts.getLast? = some last ∧
      (RunWithRetry envNoLogin Context.Background DefaultRetryConfig scraper0 script0).result =
        last.result ∧
      (RunWithRetry envNoLogin Context.Background DefaultRetryConfig scraper0 script0).err =
        some (errorfWrap
          ("falló después de " ++ toString DefaultRetryConfig.MaxRetries ++ " reintentos: ")
          last.err) ∧
      (RunWithRetry envNoLogin Context.Background DefaultRetryConfig scraper0 script0).err ≠
        none ∧
      (∀ e : GoError, last.err = some e →
        (RunWithRetry envNoLogin Context.Background DefaultRetryConfig scraper0 script0).err =
          some (.wrapf
            ("falló después de " ++ toString DefaultRetryConfig.MaxRetries ++ " reintentos: ")
            e) ∧
        (RunWithRetry envNoLogin Context.Background DefaultRetryConfig scraper0
          script0).err.bind GoError.Unwrap = some e) ∧
      (last.err = none →
        (RunWithRetry envNoLogin Context.Background DefaultRetryConfig scraper0 script0).err =
          some (.wrapNil
            ("falló después de " ++ toString DefaultRetryConfig.MaxRetries ++
              " reintentos: ")) ∧
        (RunWithRetry envNoLogin Context.Background DefaultRetryConfig scraper0
          script0).err.bind GoError.Unwrap = none ∧
        (RunWithRetry envNoLogin Context.Background DefaultRetryConfig scraper0
          script0).err.map GoError.Error =
          some ("falló después de " ++ toString DefaultRetryConfig.MaxRetries ++
            " reintentos: " ++ "%!w(<nil>)")) ∧
      (RunWithRetry envNoLogin Context.Background DefaultRetryConfig scraper0 script0).s =
        last.s ∧
      (RunWithRetry envNoLogin Context.Background DefaultRetryConfig scraper0 script0).w =
        last.w ∧
      (RunWithRetry envNoLogin Context.Background DefaultRetryConfig scraper0
        script0).nilDeref = false) ∧
    (RunWithRetry envNoLogin Context.Background DefaultRetryConfig scraper0
      script0).err.bind GoError.Unwrap =
      some (.errorf "error de login: credenciales") :=
  ⟨by decide, by decide,
    (RunWithRetry_exhausts envNoLogin Context.Background DefaultRetryConfig scraper0 script0
      (by decide) (by decide)).1,
    (RunWithRetry_exhausts envNoLogin Context.Background DefaultRetryConfig scraper0 script0
      (by decide) (by decide)).2,
    by decide⟩

set_option maxRecDepth 8000 in
/-- Divergence for C8. Under the default policy, in a world where every
login succeeds and every export fails, none of the four attempts brings back
a file and each returns its result with a nil error. `RunWithRetry` then
returns the result of the fourth attempt with an error that wraps no error:
`errors.Unwrap` gives nil, and the text of the error is
`falló después de 3 reintentos: %!w(<nil>)`. -/
theorem RunWithRetry_wraps_nothing :
    0 ≤ DefaultRetryConfig.MaxRetries ∧
    (∀ a ∈ (RunWithRetry envNoFile Context.Background DefaultRetryConfig scraper0
        script0).attempts, attemptFiles a = [] ∧ a.err = none ∧ a.result ≠ none) ∧
    (RunWithRetry envNoFile Context.Background DefaultRetryConfig scraper0
      script0).attempts.length = 4 ∧
    (RunWithRetry envNoFile Context.Background DefaultRetryConfig scraper0 script0).err =
      some (.wrapNil "falló después de 3 reintentos: ") ∧
    (RunWithRetry envNoFile Context.Background DefaultRetryConfig scraper0
      script0).err.bind GoError.Unwrap = none ∧
    (RunWithRetry envNoFile Context.Background DefaultRetryConfig scraper0
      script0).err.map GoError.Error = some "falló después de 3 reintentos: %!w(<nil>)" ∧
    ((RunWithRetry envNoFile Context.Background DefaultRetryConfig scraper0
      script0).attempts.getLast?.map (fun a => a.err)) = some none ∧
    ((RunWithRetry envNoFile Context.Background DefaultRetryConfig scraper0
      script0).attempts.getLast?.map (fun a => a.result)) =
      some (RunWithRetry envNoFile Context.Background DefaultRetryConfig scraper0
        script0).result := by
  decide

/-- C9. `RunWithRetry` stops at the first attempt that brings back at least
one file, be it a full or a partial success: that attempt is the last call
of `Run`, every earlier attempt brought back nothing, and `RunWithRetry`
returns exactly its result with a nil error and leaves the scraper and the
world, trace included, as that attempt left them (no further call, no
further sleep). -/
theorem RunWithRetry_stops_on_files {σ : Type} (env : Env σ) (ctx : Context) (config : RetryConfig)
    (s : GCOScraper) (w : World σ) (pre post : List (RunOutput σ)) (a : RunOutput σ)
    (hsplit : (RunWithRetry env ctx config s w).attempts = pre ++ a :: post)
    (hfiles : attemptFiles a ≠ []) :
    post = [] ∧
    (∀ y ∈ pre, attemptFiles y = []) ∧
    (RunWithRetry env ctx config s w).result = a.result ∧
    (RunWithRetry env ctx config s w).err = none ∧
    (RunWithRetry env ctx config s w).s = a.s ∧
    (RunWithRetry env ctx config s w).w = a.w := by
  obtain ⟨h1, h2, h3, h4, h5, h6, _⟩ :=
    loop_first_file env ctx config (config.MaxRetries + 1).toNat 0 config.InitialDelay none none
      s w [] pre post a (by simpa [RunWithRetry] using hsplit) hfiles
  exact ⟨h1, h2, h3, h4, h5, h6⟩

/-- Witness for C9: under the default policy the first attempt brings back
nothing and the second one two files out of four; the third and fourth
attempts are never made. -/
theorem RunWithRetry_stops_on_files_witness :
    (RunWithRetry envSecondTry Context.Background DefaultRetryConfig scraper0 script0).attempts =
      [Run envSecondTry Context.Background scraper0 script0] ++
        Run envSecondTry Context.Background (Run envSecondTry Context.Background scraper0 script0).s
          (timeSleep envSecondTry (5 * second) (Run envSecondTry Context.Background scraper0 script0).w) :: [] ∧
    attemptFiles (Run envSecondTry Context.Background (Run envSecondTry Context.Background scraper0 script0).s
      (timeSleep envSecondTry (5 * second) (Run envSecondTry Context.Background scraper0 script0).w)) ≠ [] ∧
    (attemptFiles (Run envSecondTry Context.Background (Run envSecondTry Context.Background scraper0 script0).s
      (timeSleep envSecondTry (5 * second)
        (Run envSecondTry Context.Background scraper0 script0).w))).length = 2 ∧
    (RunWithRetry envSecondTry Context.Background DefaultRetryConfig scraper0 script0).result =
      (Run envSecondTry Context.Background (Run envSecondTry Context.Background scraper0 script0).s
        (timeSleep envSecondTry (5 * second) (Run envSecondTry Context.Background scraper0 script0).w)).result ∧
    (RunWithRetry envSecondTry Context.Background DefaultRetryConfig scraper0 script0).err = none ∧
    (RunWithRetry envSecondTry Context.Background DefaultRetryConfig scraper0 script0).w =
      (Run envSecondTry Context.Background (Run envSecondTry Context.Background scraper0 script0).s
        (timeSleep envSecondTry (5 * second) (Run envSecondTry Context.Background scraper0 script0).w)).w :=
  ⟨rfl, by decide, by decide,
    (RunWithRetry_stops_on_files envSecondTry Context.Background DefaultRetryConfig scraper0 script0
      [Run envSecondTry Context.Background scraper0 script0] []
      (Run envSecondTry Context.Background (Run envSecondTry Context.Background scraper0 script0).s
        (timeSleep envSecondTry (5 * second) (Run envSecondTry Context.Background scraper0 script0).w))
      rfl (by decide)).2.2.1,
    (RunWithRetry_stops_on_files envSecondTry Context.Background DefaultRetryConfig scraper0 script0
      [Run envSecondTry Context.Background scraper0 script0] []
      (Run envSecondTry Context.Background (Run envSecondTry Context.Background scraper0 script0).s
        (timeSleep envSecondTry (5 * second) (Run envSecondTry Context.Background scraper0 script0).w))
      rfl (by decide)).2.2.2.1,
    (RunWithRetry_stops_on_files envSecondTry Context.Background DefaultRetryConfig scraper0 script0
      [Run envSecondTry Context.Background scraper0 script0] []
      (Run envSecondTry Context.Background (Run envSecondTry Context.Background scraper0 script0).s
        (timeSleep envSecondTry (5 * second) (Run envSecondTry Context.Background scraper0 script0).w))
      rfl (by decide)).2.2.2.2.2⟩

/-- The attempts of `RunWithRetry`: the first is `Run` on the scraper and
world as given, with no sleep before it, and the others are consecutive
retries. -/
theorem RunWithRetry_attempts {σ : Type} (env : Env σ) (ctx : Context) (config : RetryConfig)
    (s : GCOScraper) (w : World σ) :
    ((RunWithRetry env ctx config s w).attempts = [] ∧ (RunWithRetry env ctx config s w).w = w) ∨
    ∃ rest : List (RunOutput σ),
      (RunWithRetry env ctx config s w).attempts = Run env ctx s w :: rest ∧
      retriesFrom env ctx config 0 (Run env ctx s w).s (Run env ctx s w).w rest := by
  unfold RunWithRetry
  cases (config.MaxRetries + 1).toNat with
  | zero => exact Or.inl ⟨rfl, rfl⟩
  | succ n =>
    right
    have hw : (if (0 : Int) > 0 then timeSleep env config.InitialDelay w else w) = w :=
      if_neg (by decide)
    by_cases hf : attemptFiles
        (Run env ctx s (if (0 : Int) > 0 then timeSleep env config.InitialDelay w else w)) = []
    · rw [loop_succ_nofiles env ctx config n 0 config.InitialDelay none none s w [] hf]
      rw [hw, if_neg (by decide : ¬ (0 : Int) > 0)]
      obtain ⟨new, hnew, hchain⟩ := loop_retries env ctx config n 0 (0 + 1)
        (Run env ctx s w).result (Run env ctx s w).err (Run env ctx s w).s (Run env ctx s w).w
        ([] ++ [Run env ctx s w]) (by decide)
      refine ⟨new, ?_, hchain⟩
      have hnew2 : (RunWithRetry_loop env ctx config n (0 + 1) config.InitialDelay
          (Run env ctx s w).result (Run env ctx s w).err (Run env ctx s w).s (Run env ctx s w).w
          ([] ++ [Run env ctx s w])).attempts = [] ++ [Run env ctx s w] ++ new := hnew
      rw [hnew2]
      rfl
    · rw [loop_succ_files env ctx config n 0 config.InitialDelay none none s w [] hf, hw]
      exact ⟨[], rfl, trivial⟩

/-- The sleeps of `RunWithRetry`: one before each attempt after the first,
of the durations `retryDelay 0`, `retryDelay 1`, and so on. -/
theorem RunWithRetry_sleeps {σ : Type} (env : Env σ) (ctx : Context) (config : RetryConfig)
    (s : GCOScraper) (w : World σ) :
    sleepDurations (RunWithRetry env ctx config s w).w.trace =
      sleepDurations w.trace ++
        (List.range ((RunWithRetry env ctx config s w).attempts.length - 1)).map
          (retryDelay env config) := by
  rcases RunWithRetry_attempts env ctx config s w with ⟨h0, hw0⟩ | ⟨rest, hatt, hchain⟩
  · rw [h0, hw0]
    simp
  · rw [hatt]
    have hfin := loop_final env ctx config (config.MaxRetries + 1).toNat 0 config.InitialDelay
      none none s w [] (by intro x hx; cases hx)
    cases hrest : rest.getLast? with
    | none =>
      have hnil : rest = [] := List.getLast?_eq_none_iff.mp hrest
      have hlast : (RunWithRetry env ctx config s w).attempts.getLast? = some (Run env ctx s w) := by
        rw [hatt, hnil]
        rfl
      obtain ⟨_, hwl⟩ := hfin (Run env ctx s w) hlast
      have hwl2 : (RunWithRetry env ctx config s w).w = (Run env ctx s w).w := hwl
      rw [hwl2, Run_sleeps, hnil]
      simp
    | some x =>
      have hne : rest ≠ [] := by
        intro hnil
        rw [hnil] at hrest
        cases hrest
      have hlast : (RunWithRetry env ctx config s w).attempts.getLast? = some x := by
        rw [hatt]
        cases rest with
        | nil => exact absurd rfl hne
        | cons b rest2 => rw [List.getLast?_cons_cons]; exact hrest
      obtain ⟨_, hwl⟩ := hfin x hlast
      have hwl2 : (RunWithRetry env ctx config s w).w = x.w := hwl
      rw [hwl2, retries_sleeps env ctx config rest 0 _ _ hchain x hrest, Run_sleeps]
      simp

/-- Multiplying by the default backoff factor is exact doubling for every
delay below 2^53 ns (some 104 days). -/
theorem scaleDelay_default {σ : Type} (env : Env σ) (d : Int) (h0 : 0 ≤ d)
    (h1 : d < 2 ^ 53) : scaleDelay env DefaultRetryConfig d = 2 * d := by
  obtain ⟨n, rfl⟩ := Int.eq_ofNat_of_zero_le h0
  have hn : n < 2 ^ 53 := by exact_mod_cast h1
  have hneg : ¬ ((n : Int) < 0) := by omega
  simp only [scaleDelay, roundFloat64, Int.natAbs_ofNat, hn, if_true, DefaultRetryConfig,
    Int.natAbs_one, Nat.mul_one, float64ToInt64, minInt64, maxInt64]
  simp [hneg]
  omega

/-- C10. The first attempt of `RunWithRetry` is made at once, with no sleep
before it, and before each later attempt the code sleeps: `InitialDelay`
before the first retry and, before retry `k + 1`, the delay slept before
retry `k` times the backoff factor, capped at `MaxDelay`; these are the only
sleeps. With the default policy (3 retries, 5 s, factor 2, cap 60 s), where
the product is exact doubling, and every attempt failing, `Run` is called 4
times and the sleeps before attempts 2, 3 and 4 are 5 s, 10 s and 20 s. -/
theorem RunWithRetry_backoff {σ : Type} (env : Env σ) (ctx : Context) :
    (∀ (config : RetryConfig) (s : GCOScraper) (w : World σ),
      retryDelay env config 0 = config.InitialDelay ∧
      (∀ k : Nat, retryDelay env config (k + 1) =
        min (scaleDelay env config (retryDelay env config k)) config.MaxDelay) ∧
      (((RunWithRetry env ctx config s w).attempts = [] ∧ (RunWithRetry env ctx config s w).w = w) ∨
        ∃ rest : List (RunOutput σ),
          (RunWithRetry env ctx config s w).attempts = Run env ctx s w :: rest ∧
          retriesFrom env ctx config 0 (Run env ctx s w).s (Run env ctx s w).w rest) ∧
      sleepDurations (RunWithRetry env ctx config s w).w.trace =
        sleepDurations w.trace ++
          (List.range ((RunWithRetry env ctx config s w).attempts.length - 1)).map
            (retryDelay env config)) ∧
    (∀ d : Int, 0 ≤ d → d < 2 ^ 53 → scaleDelay env DefaultRetryConfig d = 2 * d) ∧
    retryDelay env DefaultRetryConfig 0 = 5 * second ∧
    retryDelay env DefaultRetryConfig 1 = 10 * second ∧
    retryDelay env DefaultRetryConfig 2 = 20 * second ∧
    (∀ (s : GCOScraper) (w : World σ),
      (∀ a ∈ (RunWithRetry env ctx DefaultRetryConfig s w).attempts, attemptFiles a = []) →
      (RunWithRetry env ctx DefaultRetryConfig s w).attempts.length = 4 ∧
      (RunWithRetry env ctx DefaultRetryConfig s w).attempts.head? = some (Run env ctx s w) ∧
      sleepDurations (RunWithRetry env ctx DefaultRetryConfig s w).w.trace =
        sleepDurations w.trace ++ [5 * second, 10 * second, 20 * second]) := by
  have hd0 : retryDelay env DefaultRetryConfig 0 = 5 * second := rfl
  have hd1 : retryDelay env DefaultRetryConfig 1 = 10 * second := by
    show min (scaleDelay env DefaultRetryConfig (retryDelay env DefaultRetryConfig 0)) _ = _
    rw [hd0, scaleDelay_default env _ (by decide) (by decide)]
    decide
  have hd2 : retryDelay env DefaultRetryConfig 2 = 20 * second := by
    show min (scaleDelay env DefaultRetryConfig (retryDelay env DefaultRetryConfig 1)) _ = _
    rw [hd1, scaleDelay_default env _ (by decide) (by decide)]
    decide
  refine ⟨?_, scaleDelay_default env, hd0, hd1, hd2, ?_⟩
  · intro config s w
    exact ⟨rfl, fun _ => rfl, RunWithRetry_attempts env ctx config s w,
      RunWithRetry_sleeps env ctx config s w⟩
  · intro s w hno
    have h4 : (DefaultRetryConfig.MaxRetries + 1).toNat = 4 := by decide
    have hlen : (RunWithRetry env ctx DefaultRetryConfig s w).attempts.length = 4 := by
      have hex := (loop_exhausted env ctx DefaultRetryConfig
        (DefaultRetryConfig.MaxRetries + 1).toNat 0
        DefaultRetryConfig.InitialDelay none none s w []
        (by rw [h4]; simp)
        (by intro x hx; cases hx) hno).1
      rw [h4] at hex
      exact hex
    refine ⟨hlen, ?_, ?_⟩
    · rcases RunWithRetry_attempts env ctx DefaultRetryConfig s w with ⟨h0, _⟩ | ⟨rest, hatt, _⟩
      · rw [h0] at hlen
        cases hlen
      · rw [hatt]
        rfl
    · rw [RunWithRetry_sleeps env ctx DefaultRetryConfig s w, hlen]
      show _ ++ [retryDelay env DefaultRetryConfig 0, retryDelay env DefaultRetryConfig 1,
        retryDelay env DefaultRetryConfig 2] = _
      rw [hd0, hd1, hd2]

/-- Witness for C10: the default policy in the world where every export
fails; the trace holds exactly the sleeps of 5 s, 10 s and 20 s. -/
theorem RunWithRetry_backoff_witness :
    (∀ a ∈ (RunWithRetry envNoFile Context.Background DefaultRetryConfig scraper0 script0).attempts,
      attemptFiles a = []) ∧
    ((RunWithRetry envNoFile Context.Background DefaultRetryConfig scraper0 script0).attempts.length = 4 ∧
      (RunWithRetry envNoFile Context.Background DefaultRetryConfig scraper0 script0).attempts.head? =
        some (Run envNoFile Context.Background scraper0 script0) ∧
      sleepDurations (RunWithRetry envNoFile Context.Background DefaultRetryConfig scraper0 script0).w.trace =
        sleepDurations script0.trace ++ [5 * second, 10 * second, 20 * second]) ∧
    (RunWithRetry envNoFile Context.Background DefaultRetryConfig scraper0 script0).w.trace =
      [.chromeStart 0, .login, .download .CSVClientes, .download .CSVPolizas,
        .download .CSVRecibos, .download .CSVSiniestros, .logout, .cancel 0,
        .sleep 5000000000,
        .chromeStart 1, .login, .download .CSVClientes, .download .CSVPolizas,
        .download .CSVRecibos, .download .CSVSiniestros, .logout, .cancel 1,
        .sleep 10000000000,
        .chromeStart 2, .login, .download .CSVClientes, .download .CSVPolizas,
        .download .CSVRecibos, .download .CSVSiniestros, .logout, .cancel 2,
        .sleep 20000000000,
        .chromeStart 3, .login, .download .CSVClientes, .download .CSVPolizas,
        .download .CSVRecibos, .download .CSVSiniestros, .logout, .cancel 3] :=
  ⟨by decide,
    (RunWithRetry_backoff envNoFile Context.Background).2.2.2.2.2 scraper0 script0 (by decide),
    by decide⟩


/-! ## Callers turned away while a run is in flight -/

theorem sleepDurations_map_sleep (ds : List Int) :
    sleepDurations (ds.map Event.sleep) = ds := by
  induction ds with
  | nil => rfl
  | cons d ds ih => simp [sleepDurations, ih]

/-- While the scraper stays marked as running, every turn of the loop has
its call of `Run` turned away, leaves the scraper as it is and adds nothing
but sleeps to the trace. -/
theorem loop_while_running {σ : Type} (env : Env σ) (ctx : Context) (config : RetryConfig)
    (s : GCOScraper) (hrun : s.IsRunning = true) (n : Nat) :
    ∀ (attempt delay : Int) (lr : Option ScraperResult) (le : Option GoError)
      (w : World σ) (done : List (RunOutput σ)),
      (RunWithRetry_loop env ctx config n attempt delay lr le s w done).s = s ∧
      (∀ y ∈ (RunWithRetry_loop env ctx config n attempt delay lr le s w done).attempts,
        y ∈ done ∨ (y.result = none ∧ y.err = some errAlreadyRunning ∧ y.s = s)) ∧
      ∃ ds : List Int,
        (RunWithRetry_loop env ctx config n attempt delay lr le s w done).w.trace =
          w.trace ++ ds.map Event.sleep := by
  induction n with
  | zero =>
    intro attempt delay lr le w done
    refine ⟨rfl, fun y hy => Or.inl hy, [], ?_⟩
    simp [RunWithRetry_loop]
  | succ n ih =>
    intro attempt delay lr le w done
    have hr := Run_rejected env ctx s (if attempt > 0 then timeSleep env delay w else w) hrun
    have hf : attemptFiles
        (Run env ctx s (if attempt > 0 then timeSleep env delay w else w)) = [] := by
      rw [hr]
      rfl
    rw [loop_succ_nofiles env ctx config n attempt delay lr le s w done hf]
    rw [hr]
    obtain ⟨h1, h2, ds, h3⟩ := ih (attempt + 1)
      (if attempt > 0 then nextDelay env config delay else delay) none
      (some (GoError.errorf "el scraper ya está en ejecución"))
      (if attempt > 0 then timeSleep env delay w else w)
      (done ++ [{ result := none,
                  err := some (GoError.errorf "el scraper ya está en ejecución"),
                  s := s, w := if attempt > 0 then timeSleep env delay w else w }])
    refine ⟨h1, ?_, ?_⟩
    · intro y hy
      rcases h2 y hy with hd | hn
      · rcases List.mem_append.mp hd with hd1 | hd2
        · exact Or.inl hd1
        · right
          rw [List.mem_singleton.mp hd2]
          exact ⟨rfl, rfl, rfl⟩
      · exact Or.inr hn
    · by_cases hpos : attempt > 0
      · refine ⟨delay :: ds, ?_⟩
        rw [h3, if_pos hpos]
        simp [timeSleep]
      · refine ⟨ds, ?_⟩
        rw [h3, if_neg hpos]

/-- C11, as amended. A caller that reaches the scraper through
`RunWithRetry` while a run is in flight has every call of `Run` turned away
at once, with a nil result, the "already running" error and no change to
the scraper; but `RunWithRetry` takes that answer for a failed attempt like
any other: while the run stays in flight it sleeps the backoff delay and
calls `Run` again, `MaxRetries + 1` calls in all, and only then returns a
nil result and an error that wraps "already running". Apart from those
sleeps it calls nothing. -/
theorem RunWithRetry_while_running {σ : Type} (env : Env σ) (ctx : Context)
    (config : RetryConfig) (s : GCOScraper) (w : World σ)
    (hrun : s.IsRunning = true) (hmax : 0 ≤ config.MaxRetries) :
    ((RunWithRetry env ctx config s w).attempts.length : Int) = config.MaxRetries + 1 ∧
    (∀ a ∈ (RunWithRetry env ctx config s w).attempts,
      a.result = none ∧ a.err = some errAlreadyRunning ∧ a.s = s) ∧
    (RunWithRetry env ctx config s w).result = none ∧
    (RunWithRetry env ctx config s w).err =
      some (GoError.wrapf
        ("falló después de " ++ toString config.MaxRetries ++ " reintentos: ")
        errAlreadyRunning) ∧
    (RunWithRetry env ctx config s w).s = s ∧
    (RunWithRetry env ctx config s w).w.trace =
      w.trace ++
        (List.range config.MaxRetries.toNat).map
          (fun k => Event.sleep (retryDelay env config k)) := by
  obtain ⟨hs, hall, ds, htr⟩ := loop_while_running env ctx config s hrun
    (config.MaxRetries + 1).toNat 0 config.InitialDelay none none w []
  have hall2 : ∀ a ∈ (RunWithRetry env ctx config s w).attempts,
      a.result = none ∧ a.err = some errAlreadyRunning ∧ a.s = s := by
    intro a ha
    rcases hall a ha with hd | hn
    · cases hd
    · exact hn
  have hno : ∀ a ∈ (RunWithRetry env ctx config s w).attempts, attemptFiles a = [] := by
    intro a ha
    simp [attemptFiles, (hall2 a ha).1]
  have hpos : 0 < ([] : List (RunOutput σ)).length + (config.MaxRetries + 1).toNat := by
    simp only [List.length_nil, Nat.zero_add]
    omega
  obtain ⟨hlen, last, hl1, hl2, hl3, _⟩ :=
    loop_exhausted env ctx config (config.MaxRetries + 1).toNat 0 config.InitialDelay
      none none s w [] hpos (by intro x hx; cases hx) hno
  have hlen2 : (RunWithRetry env ctx config s w).attempts.length =
      (config.MaxRetries + 1).toNat := by
    unfold RunWithRetry
    rw [hlen]
    simp
  have hlast := hall2 last (List.mem_of_getLast?_eq_some hl1)
  have hsl := RunWithRetry_sleeps env ctx config s w
  have htr2 : (RunWithRetry env ctx config s w).w.trace = w.trace ++ ds.map Event.sleep :=
    htr
  rw [htr2, sleepDurations_append, sleepDurations_map_sleep, hlen2] at hsl
  have hds := List.append_cancel_left hsl
  refine ⟨by rw [hlen2]; omega, hall2, ?_, ?_, hs, ?_⟩
  · unfold RunWithRetry
    rw [hl2, hlast.1]
  · unfold RunWithRetry
    rw [hl3, hlast.2.1]
    rfl
  · rw [htr2, hds, List.map_map]
    have hn : (config.MaxRetries + 1).toNat - 1 = config.MaxRetries.toNat := by omega
    rw [hn]
    rfl

/-- Witness for C11 as amended: the default policy on a scraper with a run
in flight. -/
theorem RunWithRetry_while_running_witness :
    scraperAdmitted.IsRunning = true ∧ 0 ≤ DefaultRetryConfig.MaxRetries ∧
    ((RunWithRetry envAllOk Context.Background DefaultRetryConfig scraperAdmitted
      script0).attempts.length : Int) = DefaultRetryConfig.MaxRetries + 1 ∧
    (RunWithRetry envAllOk Context.Background DefaultRetryConfig scraperAdmitted
      script0).result = none ∧
    (RunWithRetry envAllOk Context.Background DefaultRetryConfig scraperAdmitted
      script0).err =
      some (GoError.wrapf
        ("falló después de " ++ toString DefaultRetryConfig.MaxRetries ++ " reintentos: ")
        errAlreadyRunning) ∧
    (RunWithRetry envAllOk Context.Background DefaultRetryConfig scraperAdmitted
      script0).s = scraperAdmitted :=
  ⟨by decide, by decide,
    (RunWithRetry_while_running envAllOk Context.Background DefaultRetryConfig
      scraperAdmitted script0 (by decide) (by decide)).1,
    (RunWithRetry_while_running envAllOk Context.Background DefaultRetryConfig
      scraperAdmitted script0 (by decide) (by decide)).2.2.1,
    (RunWithRetry_while_running envAllOk Context.Background DefaultRetryConfig
      scraperAdmitted script0 (by decide) (by decide)).2.2.2.1,
    (RunWithRetry_while_running envAllOk Context.Background DefaultRetryConfig
      scraperAdmitted script0 (by decide) (by decide)).2.2.2.2.1⟩

/-- Counterexample to C11 as stated: the scheduled task fires while a run is
in flight. The first call of `Run` is turned away as already running, and
yet `RunWithRetry` goes on: it sleeps 5 s, 10 s and 20 s and calls `Run`
four times in all before the task sends its error notification. -/
theorem runTask_retries_while_running :
    schedulerBusy.Scraper.IsRunning = true ∧
    (runTask envAllOk schedulerBusy script0).retry.attempts.head?.map
      (fun a => (a.result, a.err)) = some (none, some errAlreadyRunning) ∧
    (runTask envAllOk schedulerBusy script0).retry.attempts.length = 4 ∧
    (runTask envAllOk schedulerBusy script0).w.trace =
      [Event.sleep 5000000000, Event.sleep 10000000000, Event.sleep 20000000000] ∧
    (runTask envAllOk schedulerBusy script0).notifications =
      [Notification.error (GoError.wrapf "falló después de 3 reintentos: "
        errAlreadyRunning)] := by
  decide

/-- C12, as amended. A call of `Run` is turned away exactly when
`IsRunning` is true; the value of `Status` plays no part. Whenever
`IsRunning` is false, whatever the status, the call is admitted, sets
`IsRunning` and sets the status to running, and returns a result. -/
theorem Run_rejected_iff_IsRunning {σ : Type} (env : Env σ) (ctx : Context)
    (s : GCOScraper) (w : World σ) :
    (Run_guard s = none ↔ s.IsRunning = true) ∧
    (((Run env ctx s w).result = none ∧ (Run env ctx s w).err = some errAlreadyRunning) ↔
      s.IsRunning = true) ∧
    (s.IsRunning = false →
      ∃ s1 : GCOScraper, Run_guard s = some s1 ∧ s1.Status = .StatusRunning ∧
        s1.IsRunning = true ∧ ∃ r : ScraperResult, (Run env ctx s w).result = some r) ∧
    (∀ st : ScraperStatus, (Run_guard { s with Status := st } = none ↔ Run_guard s = none)) := by
  cases hr : s.IsRunning with
  | true =>
    refine ⟨by simp [Run_guard, hr], ?_, by simp, by simp [Run_guard, hr]⟩
    rw [Run_rejected env ctx s w hr]
    simp [errAlreadyRunning]
  | false =>
    obtain ⟨r, hres⟩ := Run_admitted_result env ctx s w hr
    refine ⟨by simp [Run_guard, hr], ?_, ?_, by simp [Run_guard, hr]⟩
    · rw [hres]
      simp
    · intro _
      refine ⟨{ s with IsRunning := true, Status := .StatusRunning }, ?_, rfl, rfl, r, hres⟩
      simp [Run_guard, hr]

/-- Witness for C12 as amended: an idle scraper is admitted; the same
scraper marked as running with status failed is turned away. -/
theorem Run_rejected_iff_IsRunning_witness :
    scraper0.IsRunning = false ∧
    (∃ s1 : GCOScraper, Run_guard scraper0 = some s1 ∧ s1.Status = .StatusRunning ∧
      s1.IsRunning = true ∧
      ∃ r : ScraperResult, (Run envAllOk Context.Background scraper0 script0).result = some r) ∧
    (Run_guard { scraper0 with IsRunning := true, Status := .StatusFailed } = none ↔
      ({ scraper0 with IsRunning := true, Status := .StatusFailed } : GCOScraper).IsRunning
        = true) :=
  ⟨by decide,
    (Run_rejected_iff_IsRunning envAllOk Context.Background scraper0 script0).2.2.1
      (by decide),
    (Run_rejected_iff_IsRunning envAllOk Context.Background
      { scraper0 with IsRunning := true, Status := .StatusFailed } script0).1⟩

/-- Counterexample to C12 as stated: a fresh scraper is admitted by `Run`
and, while that run is in flight, `Stop` is called. The status is now
cancelled, not running, and a call of `Run` is still turned away. -/
theorem Run_rejects_cancelled :
    Run_guard scraper0 = some scraperAdmitted ∧
    (Stop envAllOk scraperAdmitted script0).1 = none ∧
    (Stop envAllOk scraperAdmitted script0).2.1.Status = .StatusCancelled ∧
    (Stop envAllOk scraperAdmitted script0).2.1.Status ≠ .StatusRunning ∧
    (Run envAllOk Context.Background (Stop envAllOk scraperAdmitted script0).2.1
      script0).result = none ∧
    (Run envAllOk Context.Background (Stop envAllOk scraperAdmitted script0).2.1
      script0).err = some errAlreadyRunning := by
  decide

/-! ## The metrics recorder -/

theorem wrapInt64_of_isInt64 (x : Int) (h : isInt64 x) : wrapInt64 x = x := by
  unfold isInt64 minInt64 maxInt64 at h
  unfold wrapInt64
  omega

theorem wrapInt64_isInt64 (x : Int) : isInt64 (wrapInt64 x) := by
  unfold isInt64 minInt64 maxInt64 wrapInt64
  omega

theorem wrapInt64_add_left (a b : Int) : wrapInt64 (wrapInt64 a + b) = wrapInt64 (a + b) := by
  unfold wrapInt64
  omega

theorem timeSub_of_isInt64 (t u : Int) (h : isInt64 (t - u)) : timeSub t u = t - u := by
  unfold isInt64 minInt64 maxInt64 at h
  unfold timeSub minInt64 maxInt64
  split
  · omega
  · split <;> omega

/-- The loop over the files touches only the two totals. -/
theorem RecordRun_files_frame (files : List DownloadedFile) (m : ScraperMetrics) :
    (RecordRun_files files m).TotalRuns = m.TotalRuns ∧
    (RecordRun_files files m).SuccessfulRuns = m.SuccessfulRuns ∧
    (RecordRun_files files m).FailedRuns = m.FailedRuns ∧
    (RecordRun_files files m).LastRunTime = m.LastRunTime ∧
    (RecordRun_files files m).LastRunDuration = m.LastRunDuration ∧
    (RecordRun_files files m).LastRunStatus = m.LastRunStatus ∧
    (RecordRun_files files m).AverageRunDuration = m.AverageRunDuration := by
  induction files generalizing m with
  | nil => exact ⟨rfl, rfl, rfl, rfl, rfl, rfl, rfl⟩
  | cons f rest ih =>
    simp only [RecordRun_files]
    exact ih _

/-- The loop over the files adds their number and the sum of their sizes to
the two totals, in `int64` arithmetic. -/
theorem RecordRun_files_totals (files : List DownloadedFile) (m : ScraperMetrics)
    (hf : isInt64 m.TotalFilesDownloaded) (hb : isInt64 m.TotalBytesDownloaded) :
    (RecordRun_files files m).TotalFilesDownloaded =
      wrapInt64 (m.TotalFilesDownloaded + files.length) ∧
    (RecordRun_files files m).TotalBytesDownloaded =
      wrapInt64 (m.TotalBytesDownloaded + sumSizes files) := by
  induction files generalizing m with
  | nil =>
    simp only [RecordRun_files, sumSizes, List.length_nil, List.map_nil, List.sum_nil,
      Nat.cast_zero, add_zero]
    exact ⟨(wrapInt64_of_isInt64 _ hf).symm, (wrapInt64_of_isInt64 _ hb).symm⟩
  | cons f rest ih =>
    simp only [RecordRun_files]
    obtain ⟨h1, h2⟩ := ih
      { m with
        TotalFilesDownloaded := wrapInt64 (m.TotalFilesDownloaded + 1),
        TotalBytesDownloaded := wrapInt64 (m.TotalBytesDownloaded + f.Size) }
      (wrapInt64_isInt64 _) (wrapInt64_isInt64 _)
    rw [h1, h2]
    simp only [wrapInt64_add_left, sumSizes, List.map_cons, List.sum_cons, List.length_cons]
    constructor
    · congr 1
      push_cast
      ring
    · congr 1
      ring

/-- The run counters after `RecordRun`, in `int64` arithmetic. -/
theorem RecordRun_runs (m : ScraperMetrics) (result : ScraperResult) :
    (RecordRun m result).TotalRuns = wrapInt64 (m.TotalRuns + 1) ∧
    (RecordRun m result).SuccessfulRuns =
      (if result.Success then wrapInt64 (m.SuccessfulRuns + 1) else m.SuccessfulRuns) ∧
    (RecordRun m result).FailedRuns =
      (if result.Success then m.FailedRuns else wrapInt64 (m.FailedRuns + 1)) ∧
    (RecordRun m result).LastRunTime = result.StartTime ∧
    (RecordRun m result).LastRunDuration = timeSub result.EndTime result.StartTime := by
  unfold RecordRun
  simp only
  split <;> split <;> simp [RecordRun_files_frame]

/-- The two totals after `RecordRun`, in `int64` arithmetic. -/
theorem RecordRun_totals (m : ScraperMetrics) (result : ScraperResult)
    (hf : isInt64 m.TotalFilesDownloaded) (hb : isInt64 m.TotalBytesDownloaded) :
    (RecordRun m result).TotalFilesDownloaded =
      wrapInt64 (m.TotalFilesDownloaded + result.Files.length) ∧
    (RecordRun m result).TotalBytesDownloaded =
      wrapInt64 (m.TotalBytesDownloaded + sumSizes result.Files) := by
  unfold RecordRun
  simp only
  split <;> split <;> exact RecordRun_files_totals result.Files _ hf hb

/-- The running average after `RecordRun`, in `int64` arithmetic. -/
theorem RecordRun_average_eq (m : ScraperMetrics) (result : ScraperResult) :
    (RecordRun m result).AverageRunDuration =
      (if wrapInt64 (m.TotalRuns + 1) > 0 then
        Int.tdiv
          (wrapInt64 (wrapInt64 (m.AverageRunDuration *
            wrapInt64 (wrapInt64 (m.TotalRuns + 1) - 1)) +
            timeSub result.EndTime result.StartTime))
          (wrapInt64 (m.TotalRuns + 1))
      else m.AverageRunDuration) := by
  unfold RecordRun
  simp only
  split <;> split <;> rename_i hs hn <;>
    simp only [RecordRun_files_frame] at hn ⊢ <;> simp only [gt_iff_lt] at hn ⊢ <;>
    simp [hn]

theorem recordAll_snoc (rs : List ScraperResult) (r : ScraperResult) :
    recordAll (rs ++ [r]) = RecordRun (recordAll rs) r := by
  simp [recordAll, List.foldl_append]

theorem count_partition (rs : List ScraperResult) :
    countSuccess rs + countFailed rs = rs.length := by
  induction rs with
  | nil => rfl
  | cons r rs ih =>
    cases h : r.Success <;> simp [countSuccess, countFailed, List.filter_cons, h] at ih ⊢ <;>
      omega

/-- The run counters after any sequence of calls from the zero value, in
`int64` arithmetic. -/
theorem recordAll_counts (rs : List ScraperResult) :
    (recordAll rs).TotalRuns = wrapInt64 rs.length ∧
    (recordAll rs).SuccessfulRuns = wrapInt64 (countSuccess rs) ∧
    (recordAll rs).FailedRuns = wrapInt64 (countFailed rs) := by
  induction rs using List.reverseRecOn with
  | nil => exact ⟨by decide, by decide, by decide⟩
  | append_singleton rs r ih =>
    obtain ⟨h1, h2, h3⟩ := ih
    obtain ⟨g1, g2, g3, _⟩ := RecordRun_runs (recordAll rs) r
    rw [recordAll_snoc, g1, g2, g3, h1, h2, h3]
    simp only [wrapInt64_add_left, List.length_append, List.length_singleton]
    refine ⟨by push_cast; rfl, ?_, ?_⟩
    · cases h : r.Success
      · simp [countSuccess, List.filter_append, h]
      · simp [countSuccess, List.filter_append, h]
    · cases h : r.Success
      · simp [countFailed, List.filter_append, h]
      · simp [countFailed, List.filter_append, h]

/-- C13. For every metrics state (of `int64` fields) and every result,
`RecordRun` adds 1 to `TotalRuns`, adds 1 to `SuccessfulRuns` when the
result is a success and to `FailedRuns` otherwise, leaving the other one as
it is, adds the number of files to `TotalFilesDownloaded` and the sum of
their sizes to `TotalBytesDownloaded`, and sets `LastRunTime` to the start
time and `LastRunDuration` to end time minus start time. The sums are those
of Go, in `int64` (first part); they are the exact integers whenever these
fit in `int64` (second part). From the zero value, after any sequence of
calls, `TotalRuns` is the number of calls and equals
`SuccessfulRuns + FailedRuns` (third part; in `int64` arithmetic for
sequences of any length, fourth part). -/
theorem RecordRun_counters :
    (∀ (m : ScraperMetrics) (result : ScraperResult), m.int64Fields →
      (RecordRun m result).TotalRuns = wrapInt64 (m.TotalRuns + 1) ∧
      (result.Success = true →
        (RecordRun m result).SuccessfulRuns = wrapInt64 (m.SuccessfulRuns + 1) ∧
        (RecordRun m result).FailedRuns = m.FailedRuns) ∧
      (result.Success = false →
        (RecordRun m result).FailedRuns = wrapInt64 (m.FailedRuns + 1) ∧
        (RecordRun m result).SuccessfulRuns = m.SuccessfulRuns) ∧
      (RecordRun m result).TotalFilesDownloaded =
        wrapInt64 (m.TotalFilesDownloaded + result.Files.length) ∧
      (RecordRun m result).TotalBytesDownloaded =
        wrapInt64 (m.TotalBytesDownloaded + sumSizes result.Files) ∧
      (RecordRun m result).LastRunTime = result.StartTime ∧
      (RecordRun m result).LastRunDuration = timeSub result.EndTime result.StartTime) ∧
    (∀ (m : ScraperMetrics) (result : ScraperResult), m.int64Fields →
      RecordRun_fits m result →
      (RecordRun m result).TotalRuns = m.TotalRuns + 1 ∧
      (result.Success = true →
        (RecordRun m result).SuccessfulRuns = m.SuccessfulRuns + 1 ∧
        (RecordRun m result).FailedRuns = m.FailedRuns) ∧
      (result.Success = false →
        (RecordRun m result).FailedRuns = m.FailedRuns + 1 ∧
        (RecordRun m result).SuccessfulRuns = m.SuccessfulRuns) ∧
      (RecordRun m result).TotalFilesDownloaded =
        m.TotalFilesDownloaded + result.Files.length ∧
      (RecordRun m result).TotalBytesDownloaded =
        m.TotalBytesDownloaded + sumSizes result.Files ∧
      (RecordRun m result).LastRunTime = result.StartTime ∧
      (RecordRun m result).LastRunDuration = result.EndTime - result.StartTime) ∧
    (∀ rs : List ScraperResult, (rs.length : Int) ≤ maxInt64 →
      (recordAll rs).TotalRuns = rs.length ∧
      (recordAll rs).SuccessfulRuns = countSuccess rs ∧
      (recordAll rs).FailedRuns = countFailed rs ∧
      (recordAll rs).TotalRuns = (recordAll rs).SuccessfulRuns + (recordAll rs).FailedRuns) ∧
    (∀ rs : List ScraperResult,
      (recordAll rs).TotalRuns =
        wrapInt64 ((recordAll rs).SuccessfulRuns + (recordAll rs).FailedRuns)) := by
  have hmachine : ∀ (m : ScraperMetrics) (result : ScraperResult), m.int64Fields →
      (RecordRun m result).TotalRuns = wrapInt64 (m.TotalRuns + 1) ∧
      (result.Success = true →
        (RecordRun m result).SuccessfulRuns = wrapInt64 (m.SuccessfulRuns + 1) ∧
        (RecordRun m result).FailedRuns = m.FailedRuns) ∧
      (result.Success = false →
        (RecordRun m result).FailedRuns = wrapInt64 (m.FailedRuns + 1) ∧
        (RecordRun m result).SuccessfulRuns = m.SuccessfulRuns) ∧
      (RecordRun m result).TotalFilesDownloaded =
        wrapInt64 (m.TotalFilesDownloaded + result.Files.length) ∧
      (RecordRun m result).TotalBytesDownloaded =
        wrapInt64 (m.TotalBytesDownloaded + sumSizes result.Files) ∧
      (RecordRun m result).LastRunTime = result.StartTime ∧
      (RecordRun m result).LastRunDuration = timeSub result.EndTime result.StartTime := by
    intro m result hm
    obtain ⟨_, _, _, hf, hb, _, _⟩ := hm
    obtain ⟨g1, g2, g3, g4, g5⟩ := RecordRun_runs m result
    obtain ⟨t1, t2⟩ := RecordRun_totals m result hf hb
    refine ⟨g1, ?_, ?_, t1, t2, g4, g5⟩
    · intro hs
      rw [g2, g3]
      simp [hs]
    · intro hs
      rw [g2, g3]
      simp [hs]
  refine ⟨hmachine, ?_, ?_, ?_⟩
  · intro m result hm hfit
    obtain ⟨h1, h2, h3, h4, h5, h6, h7⟩ := hmachine m result hm
    obtain ⟨f1, f2, f3, f4, f5, f6⟩ := hfit
    refine ⟨?_, ?_, ?_, ?_, ?_, h6, ?_⟩
    · rw [h1, wrapInt64_of_isInt64 _ f1]
    · intro hs
      obtain ⟨a, b⟩ := h2 hs
      exact ⟨by rw [a, wrapInt64_of_isInt64 _ (f2 hs)], b⟩
    · intro hs
      obtain ⟨a, b⟩ := h3 hs
      exact ⟨by rw [a, wrapInt64_of_isInt64 _ (f3 hs)], b⟩
    · rw [h4, wrapInt64_of_isInt64 _ f4]
    · rw [h5, wrapInt64_of_isInt64 _ f5]
    · rw [h7, timeSub_of_isInt64 _ _ f6]
  · intro rs hlen
    obtain ⟨h1, h2, h3⟩ := recordAll_counts rs
    have hp := count_partition rs
    have e1 : wrapInt64 (rs.length : Int) = rs.length :=
      wrapInt64_of_isInt64 _ ⟨by unfold minInt64; omega, hlen⟩
    have e2 : wrapInt64 (countSuccess rs : Int) = countSuccess rs :=
      wrapInt64_of_isInt64 _ ⟨by unfold minInt64; omega, by omega⟩
    have e3 : wrapInt64 (countFailed rs : Int) = countFailed rs :=
      wrapInt64_of_isInt64 _ ⟨by unfold minInt64; omega, by omega⟩
    rw [h1, h2, h3, e1, e2, e3]
    refine ⟨rfl, rfl, rfl, ?_⟩
    omega
  · intro rs
    obtain ⟨h1, h2, h3⟩ := recordAll_counts rs
    have hp := count_partition rs
    rw [h1, h2, h3, wrapInt64_add_left, add_comm, wrapInt64_add_left]
    congr 1
    omega

/-- Witness for C13: from the zero value, a successful run that brought
back files of 100 and 200 bytes and lasted 10 s. -/
theorem RecordRun_counters_witness :
    ScraperMetrics.zero.int64Fields ∧
    RecordRun_fits ScraperMetrics.zero
      (resultOfDuration (10 * second)
        [fileOfSize .CSVClientes 100, fileOfSize .CSVPolizas 200] true) ∧
    ((RecordRun ScraperMetrics.zero (resultOfDuration (10 * second)
        [fileOfSize .CSVClientes 100, fileOfSize .CSVPolizas 200] true)).TotalRuns,
      (RecordRun ScraperMetrics.zero (resultOfDuration (10 * second)
        [fileOfSize .CSVClientes 100, fileOfSize .CSVPolizas 200] true)).SuccessfulRuns,
      (RecordRun ScraperMetrics.zero (resultOfDuration (10 * second)
        [fileOfSize .CSVClientes 100, fileOfSize .CSVPolizas 200] true)).FailedRuns,
      (RecordRun ScraperMetrics.zero (resultOfDuration (10 * second)
        [fileOfSize .CSVClientes 100, fileOfSize .CSVPolizas 200] true)).TotalFilesDownloaded,
      (RecordRun ScraperMetrics.zero (resultOfDuration (10 * second)
        [fileOfSize .CSVClientes 100, fileOfSize .CSVPolizas 200] true)).TotalBytesDownloaded,
      (RecordRun ScraperMetrics.zero (resultOfDuration (10 * second)
        [fileOfSize .CSVClientes 100, fileOfSize .CSVPolizas 200] true)).LastRunDuration)
      = (1, 1, 0, 2, 300, 10 * second) ∧
    (RecordRun ScraperMetrics.zero (resultOfDuration (10 * second)
      [fileOfSize .CSVClientes 100, fileOfSize .CSVPolizas 200] true)).TotalRuns =
      ScraperMetrics.zero.TotalRuns + 1 :=
  ⟨by decide, by decide, by decide,
    (RecordRun_counters.2.1 ScraperMetrics.zero
      (resultOfDuration (10 * second)
        [fileOfSize .CSVClientes 100, fileOfSize .CSVPolizas 200] true)
      (by decide) (by decide)).1⟩

theorem timeSub_eq (t u d : Int) (h : t - u = d) (hd : isInt64 d) : timeSub t u = d := by
  rw [← h] at hd
  rw [timeSub_of_isInt64 t u hd, h]

/-- C14. Whenever `TotalRuns` after the increment, `n`, is positive,
`RecordRun` sets the running average to
`(avg * (n - 1) + lastDuration) / n`, computed on `int64` nanoseconds with
the truncating division of Go (first part); the value is that of exact
integer arithmetic whenever the product and the sum fit in `int64` (second
part). From the zero metrics, recording runs that lasted 10 s, 20 s and
30 s, in that order, gives `TotalRuns = 3` and an average of 20 s (third
part). -/
theorem RecordRun_average :
    (∀ (m : ScraperMetrics) (result : ScraperResult),
      0 < (RecordRun m result).TotalRuns →
      (RecordRun m result).AverageRunDuration =
        Int.tdiv
          (wrapInt64 (wrapInt64 (m.AverageRunDuration * ((RecordRun m result).TotalRuns - 1))
            + (RecordRun m result).LastRunDuration))
          (RecordRun m result).TotalRuns) ∧
    (∀ (m : ScraperMetrics) (result : ScraperResult),
      0 ≤ m.TotalRuns → m.TotalRuns < maxInt64 →
      isInt64 (result.EndTime - result.StartTime) →
      isInt64 (m.AverageRunDuration * m.TotalRuns) →
      isInt64 (m.AverageRunDuration * m.TotalRuns + (result.EndTime - result.StartTime)) →
      (RecordRun m result).TotalRuns = m.TotalRuns + 1 ∧
      (RecordRun m result).AverageRunDuration =
        Int.tdiv
          (m.AverageRunDuration * ((m.TotalRuns + 1) - 1) +
            (result.EndTime - result.StartTime))
          (m.TotalRuns + 1)) ∧
    (∀ r1 r2 r3 : ScraperResult,
      r1.EndTime - r1.StartTime = 10 * second →
      r2.EndTime - r2.StartTime = 20 * second →
      r3.EndTime - r3.StartTime = 30 * second →
      (recordAll [r1, r2, r3]).TotalRuns = 3 ∧
      (recordAll [r1, r2, r3]).AverageRunDuration = 20 * second) := by
  refine ⟨?_, ?_, ?_⟩
  · intro m result hpos
    obtain ⟨g1, _, _, _, g5⟩ := RecordRun_runs m result
    rw [RecordRun_average_eq, g5]
    rw [g1] at hpos ⊢
    rw [if_pos hpos]
    have hn := wrapInt64_isInt64 (m.TotalRuns + 1)
    have hw : wrapInt64 (wrapInt64 (m.TotalRuns + 1) - 1) = wrapInt64 (m.TotalRuns + 1) - 1 := by
      apply wrapInt64_of_isInt64
      unfold isInt64 minInt64 maxInt64 at hn ⊢
      omega
    rw [hw]
  · intro m result h0 hmax hd hp hsum
    obtain ⟨g1, _, _, _, _⟩ := RecordRun_runs m result
    have hT : wrapInt64 (m.TotalRuns + 1) = m.TotalRuns + 1 := by
      apply wrapInt64_of_isInt64
      unfold isInt64 minInt64 maxInt64 at *
      omega
    have hT1 : wrapInt64 (m.TotalRuns + 1 - 1) = m.TotalRuns := by
      rw [add_sub_cancel_right]
      apply wrapInt64_of_isInt64
      unfold isInt64 minInt64 maxInt64 at *
      omega
    refine ⟨by rw [g1, hT], ?_⟩
    rw [RecordRun_average_eq, hT, if_pos (by omega), hT1, wrapInt64_of_isInt64 _ hp,
      timeSub_of_isInt64 _ _ hd, wrapInt64_of_isInt64 _ hsum, add_sub_cancel_right]
  · intro r1 r2 r3 h1 h2 h3
    have d1 := timeSub_eq _ _ _ h1 (by decide)
    have d2 := timeSub_eq _ _ _ h2 (by decide)
    have d3 := timeSub_eq _ _ _ h3 (by decide)
    have T1 : (RecordRun ScraperMetrics.zero r1).TotalRuns = 1 := by
      rw [(RecordRun_runs _ r1).1]
      decide
    have A1 : (RecordRun ScraperMetrics.zero r1).AverageRunDuration = 10 * second := by
      rw [RecordRun_average_eq, d1]
      decide
    have T2 : (RecordRun (RecordRun ScraperMetrics.zero r1) r2).TotalRuns = 2 := by
      rw [(RecordRun_runs _ r2).1, T1]
      decide
    have A2 : (RecordRun (RecordRun ScraperMetrics.zero r1) r2).AverageRunDuration =
        15 * second := by
      rw [RecordRun_average_eq, d2, T1, A1]
      decide
    have T3 : (RecordRun (RecordRun (RecordRun ScraperMetrics.zero r1) r2) r3).TotalRuns
        = 3 := by
      rw [(RecordRun_runs _ r3).1, T2]
      decide
    have A3 : (RecordRun (RecordRun (RecordRun ScraperMetrics.zero r1) r2)
        r3).AverageRunDuration = 20 * second := by
      rw [RecordRun_average_eq, d3, T2, A2]
      decide
    exact ⟨T3, A3⟩

/-- Witness for C14: the three runs of 10 s, 20 s and 30 s, with their
intermediate averages of 10 s and 15 s. -/
theorem RecordRun_average_witness :
    (resultOfDuration (10 * second) [] false).EndTime -
      (resultOfDuration (10 * second) [] false).StartTime = 10 * second ∧
    ((recordAll [resultOfDuration (10 * second) [] false,
        resultOfDuration (20 * second) [fileOfSize .CSVClientes 100] false,
        resultOfDuration (30 * second) [] true]).TotalRuns = 3 ∧
      (recordAll [resultOfDuration (10 * second) [] false,
        resultOfDuration (20 * second) [fileOfSize .CSVClientes 100] false,
        resultOfDuration (30 * second) [] true]).AverageRunDuration = 20 * second) ∧
    (recordAll [resultOfDuration (10 * second) [] false]).AverageRunDuration = 10 * second ∧
    (recordAll [resultOfDuration (10 * second) [] false,
      resultOfDuration (20 * second) [fileOfSize .CSVClientes 100]
        false]).AverageRunDuration = 15 * second :=
  ⟨by decide,
    RecordRun_average.2.2 _ _ _ (by decide) (by decide) (by decide),
    by decide, by decide⟩

/-! ## The session authenticator -/

theorem timeSub_lt_iff (n t : Int) : timeSub n t < 30 * minute ↔ n - t < 30 * minute := by
  unfold timeSub minInt64 maxInt64 minute second
  split
  · omega
  · split <;> omega

theorem LoginOn_run {σ : Type} (env : Env σ) (p : LoginPortal) (am : AuthManager)
    (w : World σ) : (am.LoginOn env p w).1 = Login_dialogue p am := by
  unfold AuthManager.LoginOn
  split <;> rfl

theorem LoginOn_success {σ : Type} (env : Env σ) (p : LoginPortal) (am : AuthManager)
    (w : World σ) (h : (Login_dialogue p am).err = none) :
    (am.LoginOn env p w).2.1 =
      { am with IsLoggedIn := true, LastLogin := (env.now w.st).1 } := by
  unfold AuthManager.LoginOn
  rw [h]
  rfl

theorem LoginOn_failure {σ : Type} (env : Env σ) (p : LoginPortal) (am : AuthManager)
    (w : World σ) (e : GoError) (h : (Login_dialogue p am).err = some e) :
    (am.LoginOn env p w).2.1 = am ∧ (am.LoginOn env p w).2.2 = w := by
  unfold AuthManager.LoginOn
  rw [h]
  exact ⟨rfl, rfl⟩

/-- C15. `IsSessionValid` returns true exactly when `IsLoggedIn` is true and
the clock reads less than 30 minutes past `LastLogin`; at 30 minutes or
more it returns false. It hands the manager back as it was and calls
nothing but the clock. After a successful `Login` it returns true as long
as the clock reads less than 30 minutes past the stamp of that login, in
particular while the clock still reads the stamp. -/
theorem IsSessionValid_iff {σ : Type} (env : Env σ) (am : AuthManager) (w : World σ) :
    ((am.IsSessionValid env w).1 = true ↔
      (am.IsLoggedIn = true ∧ (env.now w.st).1 - am.LastLogin < 30 * minute)) ∧
    ((env.now w.st).1 - am.LastLogin ≥ 30 * minute → (am.IsSessionValid env w).1 = false) ∧
    (am.IsSessionValid env w).2.1 = am ∧
    (am.IsSessionValid env w).2.2.trace = w.trace ∧
    (∀ (p : LoginPortal) (w0 : World σ), (am.LoginOn env p w0).1.err = none →
      ((env.now w.st).1 - (am.LoginOn env p w0).2.1.LastLogin < 30 * minute →
        ((am.LoginOn env p w0).2.1.IsSessionValid env w).1 = true) ∧
      ((env.now w.st).1 = (am.LoginOn env p w0).2.1.LastLogin →
        ((am.LoginOn env p w0).2.1.IsSessionValid env w).1 = true)) := by
  have key : ∀ a : AuthManager, ((a.IsSessionValid env w).1 = true ↔
      (a.IsLoggedIn = true ∧ (env.now w.st).1 - a.LastLogin < 30 * minute)) := by
    intro a
    unfold AuthManager.IsSessionValid
    cases hl : a.IsLoggedIn
    · simp
    · simp [timeSince, timeNow, timeSub_lt_iff]
  refine ⟨key am, ?_, ?_, ?_, ?_⟩
  · intro hge
    cases hv : (am.IsSessionValid env w).1
    · rfl
    · exact absurd ((key am).mp hv).2 (not_lt.mpr hge)
  · unfold AuthManager.IsSessionValid
    split <;> rfl
  · unfold AuthManager.IsSessionValid
    split
    · rfl
    · simp [timeSince, timeNow]
  · intro p w0 hok
    rw [LoginOn_run] at hok
    have hlog : (am.LoginOn env p w0).2.1.IsLoggedIn = true := by
      rw [LoginOn_success env p am w0 hok]
    refine ⟨fun hlt => (key _).mpr ⟨hlog, hlt⟩, fun heq => (key _).mpr ⟨hlog, ?_⟩⟩
    rw [heq, sub_self]
    decide

/-- Witness for C15: a login at clock reading 1000; the session is valid at
that reading and one nanosecond short of 30 minutes later, and no longer
valid at exactly 30 minutes and beyond. -/
theorem IsSessionValid_iff_witness :
    (manager0.LoginOn envAllOk portalOk (scriptAt 1000)).1.err = none ∧
    (manager0.LoginOn envAllOk portalOk (scriptAt 1000)).2.1.LastLogin = 1000 ∧
    ((manager0.LoginOn envAllOk portalOk (scriptAt 1000)).2.1.IsSessionValid envAllOk
      (scriptAt 1000)).1 = true ∧
    ((manager0.LoginOn envAllOk portalOk (scriptAt 1000)).2.1.IsSessionValid envAllOk
      (scriptAt (1000 + 30 * minute - 1))).1 = true ∧
    ((manager0.LoginOn envAllOk portalOk (scriptAt 1000)).2.1.IsSessionValid envAllOk
      (scriptAt (1000 + 30 * minute))).1 = false ∧
    ((manager0.LoginOn envAllOk portalOk (scriptAt 1000)).2.1.IsSessionValid envAllOk
      (scriptAt (1000 + 31 * minute))).1 = false ∧
    (manager0.IsSessionValid envAllOk (scriptAt 1000)).1 = false :=
  ⟨by decide, by decide,
    ((IsSessionValid_iff envAllOk manager0 (scriptAt 1000)).2.2.2.2 portalOk (scriptAt 1000)
      (by decide)).2 (by decide),
    by decide,
    (IsSessionValid_iff envAllOk
      (manager0.LoginOn envAllOk portalOk (scriptAt 1000)).2.1
      (scriptAt (1000 + 30 * minute))).2.1 (by decide),
    by decide, by decide⟩

theorem anyMatch_iff (m : String → Bool) (l : List String) :
    anyMatch m l = true ↔ ∃ sel ∈ l, m sel = true := by
  induction l with
  | nil => simp [anyMatch]
  | cons s rest ih =>
    unfold anyMatch
    cases hs : m s
    · simp [ih, hs]
    · simp [hs]

theorem firstErrorText_none_iff (f : String → Option String) (l : List String) :
    firstErrorText f l = none ↔ ∀ sel ∈ l, f sel = none ∨ f sel = some "" := by
  induction l with
  | nil => simp [firstErrorText]
  | cons s rest ih =>
    unfold firstErrorText
    cases hs : f s with
    | none => simp [ih, hs]
    | some t =>
      by_cases ht : t = ""
      · simp [ht, ih, hs]
      · simp [ht, hs]

theorem firstErrorText_some (f : String → Option String) (l : List String) (t : String)
    (h : firstErrorText f l = some t) : t ≠ "" ∧ ∃ sel ∈ l, f sel = some t := by
  induction l with
  | nil => simp [firstErrorText] at h
  | cons s rest ih =>
    unfold firstErrorText at h
    cases hs : f s with
    | none =>
      rw [hs] at h
      obtain ⟨h1, sel, hsel, h2⟩ := ih h
      exact ⟨h1, sel, List.mem_cons_of_mem _ hsel, h2⟩
    | some t2 =>
      rw [hs] at h
      by_cases ht : t2 = ""
      · simp only [ht, ne_eq, not_true_eq_false, if_false] at h
        obtain ⟨h1, sel, hsel, h2⟩ := ih h
        exact ⟨h1, sel, List.mem_cons_of_mem _ hsel, h2⟩
      · simp only [ne_eq, ht, not_false_eq_true, if_true, Option.some.injEq] at h
        rw [← h]
        exact ⟨ht, s, List.mem_cons_self _ _, hs⟩

/-- Once the dialogue reaches the verdict, it is the verdict. -/
theorem Login_dialogue_verdict (p : LoginPortal) (am : AuthManager) (h : reachesVerdict p) :
    Login_dialogue p am =
      Login_verify p am (firstMatch p.pageMatches usernameSelectors)
        (firstMatch p.pageMatches passwordSelectors)
        (firstMatch p.pageMatches submitSelectors) := by
  obtain ⟨h1, h2, h3, h4, h5, h6⟩ := h
  unfold Login_dialogue
  simp only [h1, h2, h3, h4, h5, h6, if_false]

/-- The exits short of the verdict. -/
theorem Login_dialogue_early (p : LoginPortal) (am : AuthManager) (h : ¬ reachesVerdict p) :
    (Login_dialogue p am).err ≠ none ∧
    ((Login_dialogue p am).exit = .navigation ∨
      (Login_dialogue p am).exit = .usernameNotFound ∨
      (Login_dialogue p am).exit = .passwordNotFound ∨
      (Login_dialogue p am).exit = .submitNotFound ∨
      (Login_dialogue p am).exit = .fillFailed ∨
      (Login_dialogue p am).exit = .waitFailed) := by
  unfold reachesVerdict at h
  unfold Login_dialogue
  cases h1 : p.navigate with
  | some e => simp
  | none =>
    simp only
    by_cases h2 : firstMatch p.pageMatches usernameSelectors = ""
    · simp [h2]
    · by_cases h3 : firstMatch p.pageMatches passwordSelectors = ""
      · simp [h2, h3]
      · by_cases h4 : firstMatch p.pageMatches submitSelectors = ""
        · simp [h2, h3, h4]
        · cases h5 : p.submit (firstMatch p.pageMatches usernameSelectors)
              (firstMatch p.pageMatches passwordSelectors)
              (firstMatch p.pageMatches submitSelectors) with
          | some e => simp [h2, h3, h4, h5]
          | none =>
            cases h6 : p.wait with
            | some e => simp [h2, h3, h4, h5, h6]
            | none => exact absurd ⟨h1, h2, h3, h4, h5, h6⟩ h

/-- The three ways the verdict can go. -/
theorem Login_verify_cases (p : LoginPortal) (am : AuthManager) (u pw sb : String) :
    (∃ t : String, firstErrorText p.afterText errorSelectors = some t ∧
      (Login_verify p am u pw sb).exit = .rejected ∧
      (Login_verify p am u pw sb).err = some (.errorf ("error de login: " ++ t)) ∧
      (Login_verify p am u pw sb).actions = []) ∨
    (firstErrorText p.afterText errorSelectors = none ∧
      anyMatch p.afterMatches dashboardSelectors = false ∧
      (p.currentURL = am.BaseURL ∨ p.currentURL = am.BaseURL ++ "/") ∧
      (Login_verify p am u pw sb).exit = .unverified ∧
      (Login_verify p am u pw sb).err =
        some (.errorf "no se pudo verificar el login exitoso") ∧
      (Login_verify p am u pw sb).actions =
        screenshotTo "/opt/soriano/logs/scraper/after_login.png" p.screenshotAfter
          ++ [.outerHTML, .logHTML (truncateHTML p.html)]) ∨
    (firstErrorText p.afterText errorSelectors = none ∧
      (anyMatch p.afterMatches dashboardSelectors = true ∨
        (p.currentURL ≠ am.BaseURL ∧ p.currentURL ≠ am.BaseURL ++ "/")) ∧
      (Login_verify p am u pw sb).exit = .success ∧
      (Login_verify p am u pw sb).err = none ∧
      (Login_verify p am u pw sb).actions = []) := by
  unfold Login_verify
  cases he : firstErrorText p.afterText errorSelectors with
  | some t => exact Or.inl ⟨t, rfl, rfl, rfl, rfl⟩
  | none =>
    right
    simp only
    by_cases hurl : p.currentURL ≠ am.BaseURL ∧ p.currentURL ≠ am.BaseURL ++ "/"
    · right
      simp [hurl]
    · cases hd : anyMatch p.afterMatches dashboardSelectors
      · left
        have hurl2 : p.currentURL = am.BaseURL ∨ p.currentURL = am.BaseURL ++ "/" := by
          by_contra hc
          push_neg at hc
          exact hurl hc
        simp [hurl, hurl2]
      · right
        simp [hurl]

/-- C16. `Login` returns nil only when a dashboard indicator was resolved on
the page shown after the form was sent, or the string that
`chromedp.Location` left in `currentURL` differs from the base URL with and
without a trailing slash (first part); when the dialogue gets that far, no
indicator is resolved, that string is the base URL with or without a
trailing slash and no error text is read, `Login` returns the "could not
verify" error (second part); and whenever it returns an error it leaves the
manager as it was, `IsLoggedIn` and `LastLogin` included, and does not read
the clock (third part). But the string in `currentURL` is not always an
address that was observed: the error of `chromedp.Location` is dropped, and
when the call fails the string is empty. So when the dialogue gets as far as
the verdict and then every query of the page fails (no indicator resolved,
no error text read, no address observed), `Login` returns nil for every
base URL that is not empty, sets `IsLoggedIn` and stamps `LastLogin`: it
takes the login as successful although no signal fired (fourth part). -/
theorem Login_success_needs_signal {σ : Type} (env : Env σ) (p : LoginPortal)
    (am : AuthManager) (w : World σ) :
    ((am.LoginOn env p w).1.err = none →
      ((∃ sel ∈ dashboardSelectors, p.afterMatches sel = true) ∨
        (p.currentURL ≠ am.BaseURL ∧ p.currentURL ≠ am.BaseURL ++ "/")) ∧
      (am.LoginOn env p w).2.1.IsLoggedIn = true ∧
      (am.LoginOn env p w).2.1.LastLogin = (env.now w.st).1) ∧
    (reachesVerdict p →
      (∀ sel ∈ dashboardSelectors, p.afterMatches sel = false) →
      (p.currentURL = am.BaseURL ∨ p.currentURL = am.BaseURL ++ "/") →
      (∀ sel ∈ errorSelectors, p.afterText sel = none ∨ p.afterText sel = some "") →
      (am.LoginOn env p w).1.err =
        some (GoError.errorf "no se pudo verificar el login exitoso") ∧
      (am.LoginOn env p w).1.exit = .unverified ∧
      (am.LoginOn env p w).2.1 = am ∧
      (am.LoginOn env p w).2.2 = w) ∧
    (∀ e : GoError, (am.LoginOn env p w).1.err = some e →
      (am.LoginOn env p w).2.1 = am ∧ (am.LoginOn env p w).2.2 = w) ∧
    (reachesVerdict p →
      (∀ sel ∈ dashboardSelectors, p.afterMatches sel = false) →
      (∀ sel ∈ errorSelectors, p.afterText sel = none) →
      p.currentURL = "" → am.BaseURL ≠ "" →
      (am.LoginOn env p w).1.err = none ∧
      (am.LoginOn env p w).1.exit = .success ∧
      (am.LoginOn env p w).1.loginSuccess = true ∧
      (am.LoginOn env p w).1.actions = [] ∧
      (am.LoginOn env p w).2.1 =
        { am with IsLoggedIn := true, LastLogin := (env.now w.st).1 }) := by
  have hrun := LoginOn_run env p am w
  refine ⟨?_, ?_, ?_, ?_⟩
  · rw [hrun]
    intro hok
    refine ⟨?_, by rw [LoginOn_success env p am w hok], by rw [LoginOn_success env p am w hok]⟩
    by_cases hr : reachesVerdict p
    · rw [Login_dialogue_verdict p am hr] at hok
      rcases Login_verify_cases p am (firstMatch p.pageMatches usernameSelectors)
        (firstMatch p.pageMatches passwordSelectors)
        (firstMatch p.pageMatches submitSelectors) with
        ⟨t, _, _, he, _⟩ | ⟨_, _, _, _, he, _⟩ | ⟨_, hsig, _, _, _⟩
      · rw [he] at hok
        cases hok
      · rw [he] at hok
        cases hok
      · rcases hsig with hd | hu
        · exact Or.inl ((anyMatch_iff _ _).mp hd)
        · exact Or.inr hu
    · exact absurd hok (Login_dialogue_early p am hr).1
  · rw [hrun]
    intro hr hnod hurl hnoerr
    rw [Login_dialogue_verdict p am hr]
    have hne := (firstErrorText_none_iff p.afterText errorSelectors).mpr hnoerr
    have hnd : anyMatch p.afterMatches dashboardSelectors = false := by
      cases hd : anyMatch p.afterMatches dashboardSelectors
      · rfl
      · obtain ⟨sel, hsel, hm⟩ := (anyMatch_iff _ _).mp hd
        rw [hnod sel hsel] at hm
        cases hm
    rcases Login_verify_cases p am (firstMatch p.pageMatches usernameSelectors)
      (firstMatch p.pageMatches passwordSelectors)
      (firstMatch p.pageMatches submitSelectors) with
      ⟨t, ht, _⟩ | ⟨_, _, _, hx, he, _⟩ | ⟨_, hsig, _, _, _⟩
    · rw [hne] at ht
      cases ht
    · have hfail := LoginOn_failure env p am w _
        (by rw [Login_dialogue_verdict p am hr]; exact he)
      exact ⟨he, hx, hfail.1, hfail.2⟩
    · rcases hsig with hd | hu
      · rw [hnd] at hd
        cases hd
      · rcases hurl with h1 | h2
        · exact absurd h1 hu.1
        · exact absurd h2 hu.2
  · rw [hrun]
    intro e he
    exact LoginOn_failure env p am w e he
  · intro hr hnod hnoerr hurl hbase
    have hne := (firstErrorText_none_iff p.afterText errorSelectors).mpr
      (fun sel hsel => Or.inl (hnoerr sel hsel))
    have h1 : p.currentURL ≠ am.BaseURL := by
      rw [hurl]
      exact fun h => hbase h.symm
    have h2 : p.currentURL ≠ am.BaseURL ++ "/" := by
      rw [hurl]
      intro h
      have hl := congrArg String.length h
      have hone : "/".length = 1 := rfl
      rw [String.length_append, hone] at hl
      simp at hl
    have hv : Login_dialogue p am =
        { err := none, exit := .success, actions := [],
          usernameSelector := firstMatch p.pageMatches usernameSelectors,
          passwordSelector := firstMatch p.pageMatches passwordSelectors,
          submitSelector := firstMatch p.pageMatches submitSelectors,
          loginSuccess := true } := by
      rw [Login_dialogue_verdict p am hr]
      unfold Login_verify
      simp [hne, h1, h2]
    have herr : (Login_dialogue p am).err = none := by rw [hv]
    rw [hrun, hv]
    exact ⟨rfl, rfl, rfl, rfl, LoginOn_success env p am w herr⟩

/-- Witness for C16: the portal shows the login page again at the login
address and says nothing, and the login is not taken as successful; but
when every query of the page fails after the form was sent, it is. -/
theorem Login_success_needs_signal_witness :
    reachesVerdict portalSilent ∧
    (∀ sel ∈ dashboardSelectors, portalSilent.afterMatches sel = false) ∧
    (portalSilent.currentURL = manager0.BaseURL ∨
      portalSilent.currentURL = manager0.BaseURL ++ "/") ∧
    (∀ sel ∈ errorSelectors,
      portalSilent.afterText sel = none ∨ portalSilent.afterText sel = some "") ∧
    ((manager0.LoginOn envAllOk portalSilent script0).1.err =
        some (GoError.errorf "no se pudo verificar el login exitoso") ∧
      (manager0.LoginOn envAllOk portalSilent script0).1.exit = .unverified ∧
      (manager0.LoginOn envAllOk portalSilent script0).2.1 = manager0 ∧
      (manager0.LoginOn envAllOk portalSilent script0).2.2 = script0) ∧
    (manager0.LoginOn envAllOk portalOk script0).1.err = none ∧
    (manager0.LoginOn envAllOk portalOk script0).2.1.IsLoggedIn = true ∧
    (reachesVerdict portalDead ∧
      (∀ sel ∈ dashboardSelectors, portalDead.afterMatches sel = false) ∧
      (∀ sel ∈ errorSelectors, portalDead.afterText sel = none) ∧
      portalDead.currentURL = "" ∧ manager0.BaseURL ≠ "") ∧
    ((manager0.LoginOn envAllOk portalDead script0).1.err = none ∧
      (manager0.LoginOn envAllOk portalDead script0).1.exit = .success ∧
      (manager0.LoginOn envAllOk portalDead script0).1.loginSuccess = true ∧
      (manager0.LoginOn envAllOk portalDead script0).1.actions = [] ∧
      (manager0.LoginOn envAllOk portalDead script0).2.1 =
        { manager0 with IsLoggedIn := true, LastLogin := (envAllOk.now script0.st).1 }) :=
  ⟨by decide, by decide, by decide, by decide,
    (Login_success_needs_signal envAllOk portalSilent manager0 script0).2.1
      (by decide) (by decide) (by decide) (by decide),
    by decide, by decide,
    ⟨by decide, by decide, by decide, by decide, by decide⟩,
    (Login_success_needs_signal envAllOk portalDead manager0 script0).2.2.2
      (by decide) (by decide) (by decide) (by decide) (by decide)⟩

/-- Divergence for C16. The manager is configured for `https://gco.example`;
the form is sent and the three-second wait passes, and then the browser
context is cancelled, so that every query of the page fails: none of the
ten dashboard selectors is resolved, none of the six error texts is read,
and `chromedp.Location` leaves `currentURL` empty. `Login` returns nil
through its last `return`, with `IsLoggedIn` set and `LastLogin` stamped,
without having taken the screenshot or the HTML of the page. -/
theorem Login_success_without_signal :
    reachesVerdict portalDead ∧
    (∀ sel ∈ dashboardSelectors, portalDead.afterMatches sel = false) ∧
    (∀ sel ∈ errorSelectors, portalDead.afterText sel = none) ∧
    portalDead.currentURL = "" ∧
    manager0.BaseURL = "https://gco.example" ∧
    (manager0.LoginOn envAllOk portalDead script0).1.err = none ∧
    (manager0.LoginOn envAllOk portalDead script0).1.exit = .success ∧
    (manager0.LoginOn envAllOk portalDead script0).1.actions = [] ∧
    (manager0.LoginOn envAllOk portalDead script0).2.1.IsLoggedIn = true ∧
    (manager0.LoginOn envAllOk portalDead script0).2.1.LastLogin =
      (envAllOk.now script0.st).1 ∧
    manager0.IsLoggedIn = false := by
  decide

/-- C17, as amended. Once the dialogue reaches the verdict: whenever a
dashboard indicator resolves and no error text is read, the outcome is
success, with a nil error, `IsLoggedIn` set and `LastLogin` stamped;
whenever a non-empty error text is read for one of the error candidates,
`Login` returns the "login rejected" error carrying the first such text,
whether or not a dashboard indicator resolved; and that error is returned
on no other occasion. -/
theorem Login_dashboard_or_rejected {σ : Type} (env : Env σ) (p : LoginPortal)
    (am : AuthManager) (w : World σ) :
    (reachesVerdict p →
      (∃ sel ∈ dashboardSelectors, p.afterMatches sel = true) →
      (∀ sel ∈ errorSelectors, p.afterText sel = none ∨ p.afterText sel = some "") →
      (am.LoginOn env p w).1.err = none ∧
      (am.LoginOn env p w).1.exit = .success ∧
      (am.LoginOn env p w).2.1.IsLoggedIn = true ∧
      (am.LoginOn env p w).2.1.LastLogin = (env.now w.st).1) ∧
    (reachesVerdict p →
      ∀ t : String, firstErrorText p.afterText errorSelectors = some t →
      (am.LoginOn env p w).1.exit = .rejected ∧
      (am.LoginOn env p w).1.err = some (GoError.errorf ("error de login: " ++ t)) ∧
      (am.LoginOn env p w).2.1 = am) ∧
    ((am.LoginOn env p w).1.exit = .rejected →
      reachesVerdict p ∧
      ∃ t : String, t ≠ "" ∧ (∃ sel ∈ errorSelectors, p.afterText sel = some t) ∧
        firstErrorText p.afterText errorSelectors = some t ∧
        (am.LoginOn env p w).1.err = some (GoError.errorf ("error de login: " ++ t))) := by
  rw [LoginOn_run]
  refine ⟨?_, ?_, ?_⟩
  · intro hr hdash hnoerr
    have hne := (firstErrorText_none_iff p.afterText errorSelectors).mpr hnoerr
    have hd := (anyMatch_iff p.afterMatches dashboardSelectors).mpr hdash
    have hv := Login_dialogue_verdict p am hr
    rcases Login_verify_cases p am (firstMatch p.pageMatches usernameSelectors)
      (firstMatch p.pageMatches passwordSelectors)
      (firstMatch p.pageMatches submitSelectors) with
      ⟨t, ht, _⟩ | ⟨_, hnd, _⟩ | ⟨_, _, hx, he, _⟩
    · rw [hne] at ht
      cases ht
    · rw [hd] at hnd
      cases hnd
    · rw [← hv] at hx he
      exact ⟨he, hx, by rw [LoginOn_success env p am w he],
        by rw [LoginOn_success env p am w he]⟩
  · intro hr t ht
    have hv := Login_dialogue_verdict p am hr
    rcases Login_verify_cases p am (firstMatch p.pageMatches usernameSelectors)
      (firstMatch p.pageMatches passwordSelectors)
      (firstMatch p.pageMatches submitSelectors) with
      ⟨t2, ht2, hx, he, _⟩ | ⟨hn, _⟩ | ⟨hn, _⟩
    · rw [ht] at ht2
      rw [← Option.some.inj ht2] at he
      rw [← hv] at hx he
      exact ⟨hx, he, (LoginOn_failure env p am w _ he).1⟩
    · rw [ht] at hn
      cases hn
    · rw [ht] at hn
      cases hn
  · intro hx
    by_cases hr : reachesVerdict p
    · refine ⟨hr, ?_⟩
      rw [Login_dialogue_verdict p am hr] at hx ⊢
      rcases Login_verify_cases p am (firstMatch p.pageMatches usernameSelectors)
        (firstMatch p.pageMatches passwordSelectors)
        (firstMatch p.pageMatches submitSelectors) with
        ⟨t, ht, _, he, _⟩ | ⟨_, _, _, hx2, _⟩ | ⟨_, _, hx2, _⟩
      · obtain ⟨hne, hsel⟩ := firstErrorText_some _ _ t ht
        exact ⟨t, hne, hsel, ht, he⟩
      · rw [hx2] at hx
        cases hx
      · rw [hx2] at hx
        cases hx
    · rcases (Login_dialogue_early p am hr).2 with h | h | h | h | h | h <;>
        rw [h] at hx <;> cases hx

/-- Witness for C17 as amended: the dashboard without any error text is a
success; the dashboard with an error text is a rejection. -/
theorem Login_dashboard_or_rejected_witness :
    reachesVerdict portalOk ∧
    (∃ sel ∈ dashboardSelectors, portalOk.afterMatches sel = true) ∧
    (∀ sel ∈ errorSelectors,
      portalOk.afterText sel = none ∨ portalOk.afterText sel = some "") ∧
    ((manager0.LoginOn envAllOk portalOk script0).1.err = none ∧
      (manager0.LoginOn envAllOk portalOk script0).1.exit = .success ∧
      (manager0.LoginOn envAllOk portalOk script0).2.1.IsLoggedIn = true ∧
      (manager0.LoginOn envAllOk portalOk script0).2.1.LastLogin =
        (envAllOk.now script0.st).1) ∧
    reachesVerdict portalDashboardAndError ∧
    firstErrorText portalDashboardAndError.afterText errorSelectors =
      some "Aviso: 2 recibos rechazados" ∧
    ((manager0.LoginOn envAllOk portalDashboardAndError script0).1.exit = .rejected ∧
      (manager0.LoginOn envAllOk portalDashboardAndError script0).1.err =
        some (GoError.errorf ("error de login: " ++ "Aviso: 2 recibos rechazados")) ∧
      (manager0.LoginOn envAllOk portalDashboardAndError script0).2.1 = manager0) :=
  ⟨by decide, by decide, by decide,
    (Login_dashboard_or_rejected envAllOk portalOk manager0 script0).1
      (by decide) (by decide) (by decide),
    by decide, by decide,
    (Login_dashboard_or_rejected envAllOk portalDashboardAndError manager0 script0).2.1
      (by decide) _ (by decide)⟩

/-- Counterexample to C17 as stated: after the form is sent the portal shows
the dashboard (the candidate `.dashboard` resolves, at an address other
than the login one) and on it an element of class `error` with a text.
`Login` returns the "login rejected" error and does not set `IsLoggedIn`. -/
theorem Login_rejected_despite_dashboard :
    reachesVerdict portalDashboardAndError ∧
    portalDashboardAndError.afterMatches ".dashboard" = true ∧
    ".dashboard" ∈ dashboardSelectors ∧
    (Login_dialogue portalDashboardAndError manager0).loginSuccess = true ∧
    (manager0.LoginOn envAllOk portalDashboardAndError script0).1.err =
      some (GoError.errorf "error de login: Aviso: 2 recibos rechazados") ∧
    (manager0.LoginOn envAllOk portalDashboardAndError script0).2.1.IsLoggedIn = false := by
  decide

/-- The diagnostics `Login` takes are those that go with its exit. -/
theorem Login_dialogue_actions (p : LoginPortal) (am : AuthManager) :
    (Login_dialogue p am).actions = diagnosticsOf p (Login_dialogue p am).exit := by
  by_cases hr : reachesVerdict p
  · rw [Login_dialogue_verdict p am hr]
    rcases Login_verify_cases p am (firstMatch p.pageMatches usernameSelectors)
      (firstMatch p.pageMatches passwordSelectors)
      (firstMatch p.pageMatches submitSelectors) with
      ⟨t, _, hx, _, ha⟩ | ⟨_, _, _, hx, _, ha⟩ | ⟨_, _, hx, _, ha⟩ <;>
      rw [hx, ha] <;> rfl
  · unfold reachesVerdict at hr
    unfold Login_dialogue
    cases h1 : p.navigate with
    | some e => rfl
    | none =>
      simp only
      by_cases h2 : firstMatch p.pageMatches usernameSelectors = ""
      · simp [h2, diagnosticsOf]
      · by_cases h3 : firstMatch p.pageMatches passwordSelectors = ""
        · simp [h2, h3, diagnosticsOf]
        · by_cases h4 : firstMatch p.pageMatches submitSelectors = ""
          · simp [h2, h3, h4, diagnosticsOf]
          · cases h5 : p.submit (firstMatch p.pageMatches usernameSelectors)
                (firstMatch p.pageMatches passwordSelectors)
                (firstMatch p.pageMatches submitSelectors) with
            | some e => simp [h2, h3, h4, h5, diagnosticsOf]
            | none =>
              cases h6 : p.wait with
              | some e => simp [h2, h3, h4, h5, h6, diagnosticsOf]
              | none => exact absurd ⟨h1, h2, h3, h4, h5, h6⟩ hr

theorem screenshotTo_capture (path : String) (bytes : List Nat) :
    AuthAction.captureScreenshot ∈ screenshotTo path bytes ∧
    AuthAction.outerHTML ∉ screenshotTo path bytes := by
  unfold screenshotTo
  split <;> simp

/-- C18, as amended. `Login` captures a diagnostic screenshot on two of its
failure returns only: when no username control is found, and when the
login cannot be verified; on the latter alone it also takes a snapshot of
the DOM, of which it keeps the first 500 bytes followed by `"..."` when
there are more (503 bytes at most). On its other failure returns
(navigation failure, password or submit control not found, form submission
or wait failure, rejected credentials) it takes no diagnostics. -/
theorem Login_diagnostics {σ : Type} (env : Env σ) (p : LoginPortal) (am : AuthManager)
    (w : World σ) :
    ((am.LoginOn env p w).1.exit = .usernameNotFound →
      (am.LoginOn env p w).1.actions =
        screenshotTo "/opt/soriano/logs/scraper/login_page.png" p.screenshotLogin) ∧
    ((am.LoginOn env p w).1.exit = .unverified →
      (am.LoginOn env p w).1.actions =
        screenshotTo "/opt/soriano/logs/scraper/after_login.png" p.screenshotAfter
          ++ [.outerHTML, .logHTML (truncateHTML p.html)]) ∧
    ((am.LoginOn env p w).1.exit ≠ .usernameNotFound →
      (am.LoginOn env p w).1.exit ≠ .unverified →
      (am.LoginOn env p w).1.actions = []) ∧
    (AuthAction.captureScreenshot ∈ (am.LoginOn env p w).1.actions ↔
      ((am.LoginOn env p w).1.exit = .usernameNotFound ∨
        (am.LoginOn env p w).1.exit = .unverified)) ∧
    (AuthAction.outerHTML ∈ (am.LoginOn env p w).1.actions ↔
      (am.LoginOn env p w).1.exit = .unverified) ∧
    (truncateHTML p.html).length ≤ 503 ∧
    (truncateHTML p.html).take 500 = p.html.take 500 ∧
    (p.html.length ≤ 500 → truncateHTML p.html = p.html) ∧
    (p.html.length > 500 → (truncateHTML p.html).length = 503) := by
  rw [LoginOn_run, Login_dialogue_actions]
  have hs1 := screenshotTo_capture "/opt/soriano/logs/scraper/login_page.png" p.screenshotLogin
  have hs2 := screenshotTo_capture "/opt/soriano/logs/scraper/after_login.png"
    p.screenshotAfter
  refine ⟨?_, ?_, ?_, ?_, ?_, ?_, ?_, ?_, ?_⟩
  · intro h
    rw [h]
    rfl
  · intro h
    rw [h]
    rfl
  · intro h1 h2
    cases hx : (Login_dialogue p am).exit <;> simp_all [diagnosticsOf]
  · cases hx : (Login_dialogue p am).exit <;> simp [diagnosticsOf, hs1.1, hs2.1]
  · cases hx : (Login_dialogue p am).exit <;> simp [diagnosticsOf, hs1.2, hs2.2]
  · unfold truncateHTML ellipsis
    split
    · simp
    · omega
  · unfold truncateHTML
    split
    · next h => simp [List.take_append_of_le_length, h.le]
    · rfl
  · intro h
    unfold truncateHTML
    rw [if_neg (by omega)]
  · intro h
    unfold truncateHTML ellipsis
    rw [if_pos h]
    simp
    omega

set_option maxRecDepth 8000 in
/-- Witness for C18 as amended: a login that cannot be verified, on a page
of 600 bytes; the screenshot is captured and written, the snapshot taken
and 503 bytes of it logged. -/
theorem Login_diagnostics_witness :
    (manager0.LoginOn envAllOk portalSilent script0).1.exit = .unverified ∧
    (manager0.LoginOn envAllOk portalSilent script0).1.actions =
      screenshotTo "/opt/soriano/logs/scraper/after_login.png" portalSilent.screenshotAfter
        ++ [.outerHTML, .logHTML (truncateHTML portalSilent.html)] ∧
    portalSilent.html.length > 500 ∧
    (truncateHTML portalSilent.html).length = 503 ∧
    (manager0.LoginOn envAllOk portalSilent script0).1.actions =
      [.captureScreenshot,
        .writeFile "/opt/soriano/logs/scraper/after_login.png" [137, 80, 78, 71],
        .outerHTML, .logHTML (List.replicate 500 60 ++ [46, 46, 46])] :=
  ⟨by decide,
    (Login_diagnostics envAllOk portalSilent manager0 script0).2.1 (by decide),
    by decide,
    (Login_diagnostics envAllOk portalSilent manager0 script0).2.2.2.2.2.2.2.2 (by decide),
    by decide⟩

/-- Counterexample to C18 as stated: the login page has a username field but
no password field that any candidate matches. `Login` returns the
"password field not found" error and takes no screenshot and no snapshot of
the DOM. -/
theorem Login_failure_without_diagnostics :
    (manager0.LoginOn envAllOk portalNoPassword script0).1.err =
      some (GoError.errorf "no se encontró campo de password en la página") ∧
    (manager0.LoginOn envAllOk portalNoPassword script0).1.exit = .passwordNotFound ∧
    (manager0.LoginOn envAllOk portalNoPassword script0).1.actions = [] := by
  decide

theorem firstMatch_eq_empty_iff (m : String → Bool) (l : List String) (hl : "" ∉ l) :
    firstMatch m l = "" ↔ ∀ s ∈ l, m s = false := by
  induction l with
  | nil => simp [firstMatch]
  | cons a rest ih =>
    have ha : a ≠ "" := fun h => hl (h ▸ List.mem_cons_self _ _)
    have hrest : "" ∉ rest := fun h => hl (List.mem_cons_of_mem _ h)
    unfold firstMatch
    cases hm : m a
    · simp [ih hrest, hm]
    · simp [ha, hm]

theorem firstMatch_earliest (m : String → Bool) (l : List String)
    (h : firstMatch m l ≠ "") :
    ∃ pre post : List String, l = pre ++ firstMatch m l :: post ∧
      m (firstMatch m l) = true ∧ ∀ x ∈ pre, m x = false := by
  induction l with
  | nil => exact absurd rfl h
  | cons a rest ih =>
    unfold firstMatch at h ⊢
    cases hm : m a
    · rw [hm] at h
      simp only [Bool.false_eq_true, if_false] at h ⊢
      obtain ⟨pre, post, h1, h2, h3⟩ := ih h
      refine ⟨a :: pre, post, ?_, h2, ?_⟩
      · rw [List.cons_append, ← h1]
      · intro x hx
        rcases List.mem_cons.mp hx with hxa | hxp
        · rw [hxa]; exact hm
        · exact h3 x hxp
    · simp only [if_true]
      exact ⟨[], rest, rfl, hm, by simp⟩

theorem Login_verify_selectors (p : LoginPortal) (am : AuthManager) (u pw sb : String) :
    (Login_verify p am u pw sb).usernameSelector = u ∧
    (Login_verify p am u pw sb).passwordSelector = pw ∧
    (Login_verify p am u pw sb).submitSelector = sb := by
  unfold Login_verify
  cases he : firstErrorText p.afterText errorSelectors with
  | some t => exact ⟨rfl, rfl, rfl⟩
  | none =>
    simp only
    split
    · exact ⟨rfl, rfl, rfl⟩
    · split <;> exact ⟨rfl, rfl, rfl⟩

/-- C19. Each selector loop of `Login` picks the earliest candidate of its
list that the page matches, and comes back empty-handed exactly when the
page matches none (first part, for any list without an empty candidate, as
the three lists of `Login` are: second part). Once the portal has loaded,
`Login` returns "username field not found" exactly when no username
candidate matches, and otherwise goes on with the earliest one that does;
likewise for the password field and then for the submit control (third
part). A page that matches the third of five candidates and none of the
first two resolves to the third (fourth part). -/
theorem Login_selector_resolution :
    (∀ (m : String → Bool) (l : List String), "" ∉ l →
      (firstMatch m l = "" ↔ ∀ s ∈ l, m s = false) ∧
      (firstMatch m l ≠ "" →
        ∃ pre post : List String, l = pre ++ firstMatch m l :: post ∧
          m (firstMatch m l) = true ∧ ∀ x ∈ pre, m x = false)) ∧
    ("" ∉ usernameSelectors ∧ "" ∉ passwordSelectors ∧ "" ∉ submitSelectors) ∧
    (∀ (p : LoginPortal) (am : AuthManager), p.navigate = none →
      ((Login_dialogue p am).exit = .usernameNotFound ↔
        ∀ s ∈ usernameSelectors, p.pageMatches s = false) ∧
      (Login_dialogue p am).usernameSelector = firstMatch p.pageMatches usernameSelectors ∧
      ((∃ s ∈ usernameSelectors, p.pageMatches s = true) →
        ((Login_dialogue p am).exit = .passwordNotFound ↔
          ∀ s ∈ passwordSelectors, p.pageMatches s = false) ∧
        (Login_dialogue p am).passwordSelector =
          firstMatch p.pageMatches passwordSelectors ∧
        ((∃ s ∈ passwordSelectors, p.pageMatches s = true) →
          ((Login_dialogue p am).exit = .submitNotFound ↔
            ∀ s ∈ submitSelectors, p.pageMatches s = false) ∧
          (Login_dialogue p am).submitSelector =
            firstMatch p.pageMatches submitSelectors))) ∧
    (∀ (m : String → Bool) (c1 c2 c3 c4 c5 : String),
      m c1 = false → m c2 = false → m c3 = true →
      firstMatch m [c1, c2, c3, c4, c5] = c3) := by
  have hu : "" ∉ usernameSelectors := by decide
  have hp : "" ∉ passwordSelectors := by decide
  have hs : "" ∉ submitSelectors := by decide
  refine ⟨fun m l hl => ⟨firstMatch_eq_empty_iff m l hl, firstMatch_earliest m l⟩,
    ⟨hu, hp, hs⟩, ?_, ?_⟩
  · intro p am hnav
    have eu := firstMatch_eq_empty_iff p.pageMatches usernameSelectors hu
    have ep := firstMatch_eq_empty_iff p.pageMatches passwordSelectors hp
    have es := firstMatch_eq_empty_iff p.pageMatches submitSelectors hs
    by_cases h2 : firstMatch p.pageMatches usernameSelectors = ""
    · have hd : Login_dialogue p am =
          { err := some (.errorf "no se encontró campo de usuario en la página"),
            exit := .usernameNotFound,
            actions := screenshotTo "/opt/soriano/logs/scraper/login_page.png"
              p.screenshotLogin,
            usernameSelector := "", passwordSelector := "", submitSelector := "",
            loginSuccess := false } := by
        unfold Login_dialogue
        simp [hnav, h2]
      rw [hd]
      refine ⟨iff_of_true rfl (eu.mp h2), h2.symm, ?_⟩
      intro ⟨s, hs1, hs2⟩
      rw [eu.mp h2 s hs1] at hs2
      cases hs2
    · have hnu : ¬ ∀ s ∈ usernameSelectors, p.pageMatches s = false := fun h => h2 (eu.mpr h)
      by_cases h3 : firstMatch p.pageMatches passwordSelectors = ""
      · have hd : Login_dialogue p am =
            { err := some (.errorf "no se encontró campo de password en la página"),
              exit := .passwordNotFound, actions := [],
              usernameSelector := firstMatch p.pageMatches usernameSelectors,
              passwordSelector := "", submitSelector := "", loginSuccess := false } := by
          unfold Login_dialogue
          simp [hnav, h2, h3]
        rw [hd]
        refine ⟨by simp [hnu], rfl, fun _ => ⟨iff_of_true rfl (ep.mp h3), h3.symm, ?_⟩⟩
        intro ⟨s, hs1, hs2⟩
        rw [ep.mp h3 s hs1] at hs2
        cases hs2
      · have hnp : ¬ ∀ s ∈ passwordSelectors, p.pageMatches s = false :=
          fun h => h3 (ep.mpr h)
        by_cases h4 : firstMatch p.pageMatches submitSelectors = ""
        · have hd : Login_dialogue p am =
              { err := some (.errorf "no se encontró botón de submit en la página"),
                exit := .submitNotFound, actions := [],
                usernameSelector := firstMatch p.pageMatches usernameSelectors,
                passwordSelector := firstMatch p.pageMatches passwordSelectors,
                submitSelector := "", loginSuccess := false } := by
            unfold Login_dialogue
            simp [hnav, h2, h3, h4]
          rw [hd]
          exact ⟨by simp [hnu], rfl, fun _ => ⟨by simp [hnp], rfl,
            fun _ => ⟨iff_of_true rfl (es.mp h4), h4.symm⟩⟩⟩
        · have hns : ¬ ∀ s ∈ submitSelectors, p.pageMatches s = false :=
            fun h => h4 (es.mpr h)
          have hlate : (Login_dialogue p am).exit ≠ .usernameNotFound ∧
              (Login_dialogue p am).exit ≠ .passwordNotFound ∧
              (Login_dialogue p am).exit ≠ .submitNotFound ∧
              (Login_dialogue p am).usernameSelector =
                firstMatch p.pageMatches usernameSelectors ∧
              (Login_dialogue p am).passwordSelector =
                firstMatch p.pageMatches passwordSelectors ∧
              (Login_dialogue p am).submitSelector =
                firstMatch p.pageMatches submitSelectors := by
            cases h5 : p.submit (firstMatch p.pageMatches usernameSelectors)
                (firstMatch p.pageMatches passwordSelectors)
                (firstMatch p.pageMatches submitSelectors) with
            | some e =>
              unfold Login_dialogue
              simp [hnav, h2, h3, h4, h5]
            | none =>
              cases h6 : p.wait with
              | some e =>
                unfold Login_dialogue
                simp [hnav, h2, h3, h4, h5, h6]
              | none =>
                rw [Login_dialogue_verdict p am ⟨hnav, h2, h3, h4, h5, h6⟩]
                obtain ⟨s1, s2, s3⟩ := Login_verify_selectors p am
                  (firstMatch p.pageMatches usernameSelectors)
                  (firstMatch p.pageMatches passwordSelectors)
                  (firstMatch p.pageMatches submitSelectors)
                rcases Login_verify_cases p am (firstMatch p.pageMatches usernameSelectors)
                  (firstMatch p.pageMatches passwordSelectors)
                  (firstMatch p.pageMatches submitSelectors) with
                  ⟨t, _, hx, _⟩ | ⟨_, _, _, hx, _⟩ | ⟨_, _, hx, _⟩ <;>
                  rw [hx] <;> exact ⟨by simp, by simp, by simp, s1, s2, s3⟩
          obtain ⟨l1, l2, l3, l4, l5, l6⟩ := hlate
          exact ⟨by simp [l1, hnu], l4, fun _ => ⟨by simp [l2, hnp], l5,
            fun _ => ⟨by simp [l3, hns], l6⟩⟩⟩
  · intro m c1 c2 c3 c4 c5 h1 h2 h3
    simp [firstMatch, h1, h2, h3]

/-- Witness for C19: of five username candidates the page matches the third
only, and that one is chosen; on the login page of `portalOk` the username
control resolves to `#username`, the ninth candidate. -/
theorem Login_selector_resolution_witness :
    firstMatch (fun sel => sel == "input[name=\"login\"]")
      [ "input[name=\"username\"]", "input[name=\"user\"]", "input[name=\"login\"]",
        "input[name=\"Usuario\"]", "input[id=\"username\"]" ] = "input[name=\"login\"]" ∧
    portalOk.navigate = none ∧
    (Login_dialogue portalOk manager0).usernameSelector = "#username" ∧
    (Login_dialogue portalOk manager0).usernameSelector =
      firstMatch portalOk.pageMatches usernameSelectors :=
  ⟨Login_selector_resolution.2.2.2 _ _ _ _ _ _ (by decide) (by decide) (by decide),
    by decide, by decide,
    (Login_selector_resolution.2.2.1 portalOk manager0 (by decide)).2.1⟩

/-! ## Waiting for the download -/

theorem stabilityInv_next (obs : List Int) (ls : Int) (c : Nat) (cur : Int)
    (h : stabilityInv obs ls c) :
    (cur = ls ∧ cur > 0 → c + 1 ≥ 3 →
      ∃ pre : List Int, obs ++ [cur] = pre ++ [cur, cur, cur, cur]) ∧
    (cur = ls ∧ cur > 0 → ¬ (c + 1 ≥ 3) → stabilityInv (obs ++ [cur]) ls (c + 1)) ∧
    (¬ (cur = ls ∧ cur > 0) → stabilityInv (obs ++ [cur]) cur 0) := by
  refine ⟨?_, ?_, ?_⟩
  · intro ⟨heq, hpos⟩ hc
    rcases h with ⟨_, hls, hc0⟩ | ⟨pre, x, hobs, hx, hle, _⟩
    · omega
    · have hc2 : c = 2 := by omega
      refine ⟨pre, ?_⟩
      rw [hobs, hc2, heq, hx]
      simp [List.replicate]
  · intro ⟨heq, hpos⟩ hc
    rcases h with ⟨_, hls, hc0⟩ | ⟨pre, x, hobs, hx, hle, _⟩
    · omega
    · right
      refine ⟨pre, x, ?_, hx, by omega, fun _ => by rw [← hx, ← heq]; exact hpos⟩
      rw [hobs, heq, hx, List.append_assoc]
      congr 1
      exact (List.replicate_succ' (c + 1) x).symm
  · intro _
    right
    exact ⟨obs, cur, rfl, rfl, by omega, fun h => by omega⟩

/-- The stability check keeps what the two variables know, and fires only
on the fourth observation in a row of one positive size. -/
theorem check_inv (obs : List Int) (ls : Int) (c : Nat) (e : Option Int)
    (h : stabilityInv obs ls c) :
    ((waitForDownload_check ls c e).1 = true →
      ∃ (pre : List Int) (x : Int), observe obs e = pre ++ [x, x, x, x] ∧ x > 0) ∧
    ((waitForDownload_check ls c e).1 = false →
      stabilityInv (observe obs e) (waitForDownload_check ls c e).2.1
        (waitForDownload_check ls c e).2.2) := by
  cases e with
  | none =>
    constructor
    · intro hf
      cases hf
    · intro _
      exact h
  | some cur =>
    obtain ⟨n1, n2, n3⟩ := stabilityInv_next obs ls c cur h
    by_cases hcond : cur = ls ∧ cur > 0
    · have hchk : waitForDownload_check ls c (some cur) =
          (decide (c + 1 ≥ 3), ls, c + 1) := by
        simp only [waitForDownload_check]
        rw [if_pos hcond]
      rw [hchk]
      by_cases hc : c + 1 ≥ 3
      · constructor
        · intro _
          obtain ⟨pre, hpre⟩ := n1 hcond hc
          exact ⟨pre, cur, hpre, hcond.2⟩
        · intro hf
          simp only [decide_eq_false_iff_not] at hf
          exact absurd hc hf
      · constructor
        · intro ht
          simp only [decide_eq_true_eq] at ht
          exact absurd ht hc
        · intro _
          exact n2 hcond hc
    · have hchk : waitForDownload_check ls c (some cur) = (false, cur, 0) := by
        simp only [waitForDownload_check]
        rw [if_neg hcond]
      rw [hchk]
      constructor
      · intro hf
        cases hf
      · intro _
        exact n3 hcond

/-- When the loop leaves through the stability count, the last four sizes
observed of the expected file are one and the same positive size. -/
theorem loop_stable (ep fn : String) (polls : List Poll) :
    ∀ (ls : Int) (c n : Nat) (acts : List FsAction) (obs : List Int),
      stabilityInv obs ls c →
      (waitForDownload_loop ep fn polls ls c n acts obs).exit = .stable →
      (waitForDownload_loop ep fn polls ls c n acts obs).path = ep ∧
      (waitForDownload_loop ep fn polls ls c n acts obs).err = none ∧
      ∃ (pre : List Int) (x : Int),
        (waitForDownload_loop ep fn polls ls c n acts obs).observed =
          pre ++ [x, x, x, x] ∧ x > 0 := by
  induction polls with
  | nil =>
    intro ls c n acts obs _ hx
    simp [waitForDownload_loop] at hx
  | cons poll rest ih =>
    intro ls c n acts obs hinv hx
    obtain ⟨k1, k2⟩ := check_inv obs ls c poll.expected hinv
    unfold waitForDownload_loop at hx ⊢
    cases hchk : (waitForDownload_check ls c poll.expected).1 with
    | true =>
      simp only [hchk, if_true]
      exact ⟨trivial, trivial, k1 hchk⟩
    | false =>
      simp only [hchk, Bool.false_eq_true, if_false] at hx ⊢
      cases hcsv : (waitForDownload_csv ep poll.csv).1 with
      | some file =>
        simp [hcsv] at hx
      | none =>
        simp only [hcsv] at hx ⊢
        cases hxl : waitForDownload_xlsx poll.xlsx with
        | some file =>
          simp [hxl] at hx
        | none =>
          simp only [hxl] at hx ⊢
          exact ih _ _ _ _ _ (k2 hchk) hx

/-- A file that the scan for `*.csv` returns is the expected path, and stands
for an entry modified within the last two minutes whose positive size was
found again at the single re-check. -/
theorem csv_scan_some (ep : String) (l : List ScanEntry) (file : String)
    (h : (waitForDownload_csv ep l).1 = some file) :
    file = ep ∧
    ∃ e ∈ l, ∃ info : FileStat, e.info = some info ∧ info.recent = true ∧ info.size > 0 ∧
      e.final = some info.size := by
  induction l with
  | nil => simp [waitForDownload_csv] at h
  | cons e rest ih =>
    unfold waitForDownload_csv at h
    cases hi : e.info with
    | none =>
      simp only [hi] at h
      obtain ⟨h1, e2, he2, h2⟩ := ih h
      exact ⟨h1, e2, List.mem_cons_of_mem _ he2, h2⟩
    | some info =>
      simp only [hi] at h
      by_cases hc : info.recent = true ∧ info.size > 0
      · rw [if_pos hc] at h
        by_cases hf : e.final = some info.size
        · rw [if_pos hf] at h
          refine ⟨?_, e, List.mem_cons_self _ _, info, hi, hc.1, hc.2, hf⟩
          simp only [Option.some.injEq] at h
          rw [← h]
          by_cases hp : e.path = ep
          · simp [hp]
          · simp [hp]
        · rw [if_neg hf] at h
          obtain ⟨h1, e2, he2, h2⟩ := ih h
          exact ⟨h1, e2, List.mem_cons_of_mem _ he2, h2⟩
      · rw [if_neg hc] at h
        obtain ⟨h1, e2, he2, h2⟩ := ih h
        exact ⟨h1, e2, List.mem_cons_of_mem _ he2, h2⟩

/-- When the loop leaves through the scan for `*.csv`, it returns the
expected path on the strength of one entry of one poll. -/
theorem loop_csvScan (ep fn : String) (polls : List Poll) :
    ∀ (ls : Int) (c n : Nat) (acts : List FsAction) (obs : List Int),
      (waitForDownload_loop ep fn polls ls c n acts obs).exit = .csvScan →
      (waitForDownload_loop ep fn polls ls c n acts obs).path = ep ∧
      (waitForDownload_loop ep fn polls ls c n acts obs).err = none ∧
      ∃ poll ∈ polls, ∃ e ∈ poll.csv, ∃ info : FileStat, e.info = some info ∧
        info.recent = true ∧ info.size > 0 ∧ e.final = some info.size := by
  induction polls with
  | nil =>
    intro ls c n acts obs hx
    simp [waitForDownload_loop] at hx
  | cons poll rest ih =>
    intro ls c n acts obs hx
    unfold waitForDownload_loop at hx ⊢
    cases hchk : (waitForDownload_check ls c poll.expected).1 with
    | true => simp [hchk] at hx
    | false =>
      simp only [hchk, Bool.false_eq_true, if_false] at hx ⊢
      cases hcsv : (waitForDownload_csv ep poll.csv).1 with
      | some file =>
        simp only [hcsv]
        obtain ⟨h1, e, he, h2⟩ := csv_scan_some ep poll.csv file hcsv
        exact ⟨h1, trivial, poll, List.mem_cons_self _ _, e, he, h2⟩
      | none =>
        simp only [hcsv] at hx ⊢
        cases hxl : waitForDownload_xlsx poll.xlsx with
        | some file => simp [hxl] at hx
        | none =>
          simp only [hxl] at hx ⊢
          obtain ⟨h1, h2, p2, hp2, h3⟩ := ih _ _ _ _ _ hx
          exact ⟨h1, h2, p2, List.mem_cons_of_mem _ hp2, h3⟩

/-- The observations recorded are the sizes that `os.Stat` gave of the
expected file at the polls begun, and no more polls are begun than there
are. -/
theorem loop_observed (ep fn : String) (polls : List Poll) :
    ∀ (ls : Int) (c n : Nat) (acts : List FsAction) (obs : List Int),
      n ≤ (waitForDownload_loop ep fn polls ls c n acts obs).polls ∧
      (waitForDownload_loop ep fn polls ls c n acts obs).polls ≤ n + polls.length ∧
      (waitForDownload_loop ep fn polls ls c n acts obs).observed =
        obs ++ (polls.take ((waitForDownload_loop ep fn polls ls c n acts obs).polls - n)).filterMap
          (fun poll => poll.expected) := by
  induction polls with
  | nil =>
    intro ls c n acts obs
    simp [waitForDownload_loop]
  | cons poll rest ih =>
    intro ls c n acts obs
    have hobs : observe obs poll.expected =
        obs ++ [poll].filterMap (fun poll => poll.expected) := by
      cases he : poll.expected <;> simp [observe, he]
    unfold waitForDownload_loop
    cases hchk : (waitForDownload_check ls c poll.expected).1 with
    | true =>
      simp only [if_true, List.length_cons]
      refine ⟨by omega, by omega, ?_⟩
      rw [hobs, Nat.add_sub_cancel_left]
      rfl
    | false =>
      simp only [Bool.false_eq_true, if_false]
      cases hcsv : (waitForDownload_csv ep poll.csv).1 with
      | some file =>
        simp only [List.length_cons]
        refine ⟨by omega, by omega, ?_⟩
        rw [hobs, Nat.add_sub_cancel_left]
        rfl
      | none =>
        simp only
        cases hxl : waitForDownload_xlsx poll.xlsx with
        | some file =>
          simp only [List.length_cons]
          refine ⟨by omega, by omega, ?_⟩
          rw [hobs, Nat.add_sub_cancel_left]
          rfl
        | none =>
          simp only
          obtain ⟨h1, h2, h3⟩ := ih (waitForDownload_check ls c poll.expected).2.1
            (waitForDownload_check ls c poll.expected).2.2 (n + 1)
            (acts ++ (waitForDownload_csv ep poll.csv).2 ++ [.sleep second])
            (observe obs poll.expected)
          refine ⟨by omega, by simp only [List.length_cons]; omega, ?_⟩
          rw [h3]
          generalize (waitForDownload_loop ep fn rest
            (waitForDownload_check ls c poll.expected).2.1
            (waitForDownload_check ls c poll.expected).2.2 (n + 1)
            (acts ++ (waitForDownload_csv ep poll.csv).2 ++ [.sleep second])
            (observe obs poll.expected)).polls = k at h1 h2 ⊢
          obtain ⟨j, rfl⟩ : ∃ j, k = n + 1 + j := ⟨k - (n + 1), by omega⟩
          have e1 : n + 1 + j - (n + 1) = j := by omega
          have e2 : n + 1 + j - n = j + 1 := by omega
          rw [e1, e2, hobs, List.append_assoc, List.take_succ_cons]
          congr 1
          cases he : poll.expected <;> simp [he]

/-- The scan for `*.csv` returns the expected path as soon as one of the
listed files is settled. -/
theorem csv_scan_forward (ep : String) (l : List ScanEntry) (h : ∃ e ∈ l, e.settled) :
    (waitForDownload_csv ep l).1 = some ep := by
  induction l with
  | nil =>
    obtain ⟨e, he, _⟩ := h
    cases he
  | cons e rest ih =>
    have hrest : ¬ e.settled → (waitForDownload_csv ep rest).1 = some ep := by
      intro hne
      apply ih
      obtain ⟨e2, he2, hs2⟩ := h
      rcases List.mem_cons.mp he2 with h1 | h1
      · rw [h1] at hs2
        exact absurd hs2 hne
      · exact ⟨e2, h1, hs2⟩
    unfold waitForDownload_csv
    cases hi : e.info with
    | none =>
      simp only
      apply hrest
      rintro ⟨info, hinfo, _⟩
      rw [hi] at hinfo
      cases hinfo
    | some info =>
      simp only
      by_cases hc : info.recent = true ∧ info.size > 0
      · rw [if_pos hc]
        by_cases hf : e.final = some info.size
        · rw [if_pos hf]
          by_cases hp : e.path = ep
          · simp [hp]
          · simp [hp]
        · rw [if_neg hf]
          simp only
          apply hrest
          rintro ⟨info2, hinfo, _, _, hfin⟩
          rw [hi] at hinfo
          cases hinfo
          exact hf hfin
      · rw [if_neg hc]
        apply hrest
        rintro ⟨info2, hinfo, hr, hs, _⟩
        rw [hi] at hinfo
        cases hinfo
        exact hc ⟨hr, hs⟩

/-- The scan for `*.csv` returns nothing when none of the listed files is
settled. -/
theorem csv_scan_nothing (ep : String) (l : List ScanEntry) (h : ∀ e ∈ l, ¬ e.settled) :
    (waitForDownload_csv ep l).1 = none := by
  cases hc : (waitForDownload_csv ep l).1 with
  | none => rfl
  | some file =>
    obtain ⟨_, e, he, info, h1, h2, h3, h4⟩ := csv_scan_some ep l file hc
    exact absurd ⟨info, h1, h2, h3, h4⟩ (h e he)

/-- The scan for `*.csv` renames every fresh file it comes to whose path is
not the expected one: the first settled file and the fresh files listed
before it. -/
theorem csv_scan_tried (ep : String) (cpre : List ScanEntry) (e : ScanEntry)
    (cpost : List ScanEntry) (hf : e.fresh) (hpre : ∀ e2 ∈ cpre, ¬ e2.settled) :
    e.path ≠ ep → FsAction.rename e.path ep ∈ (waitForDownload_csv ep (cpre ++ e :: cpost)).2 := by
  intro hp
  obtain ⟨info, hi, hr, hsz⟩ := hf
  induction cpre with
  | nil =>
    simp only [List.nil_append]
    unfold waitForDownload_csv
    by_cases hfin : e.final = some info.size
    · simp [hi, hr, hsz, hfin, hp]
    · simp [hi, hr, hsz, hfin, hp]
  | cons a cpre ih =>
    have ih2 := ih (fun e2 he2 => hpre e2 (List.mem_cons_of_mem _ he2))
    have ha : ¬ a.settled := hpre a (List.mem_cons_self _ _)
    simp only [List.cons_append]
    unfold waitForDownload_csv
    cases hia : a.info with
    | none => exact ih2
    | some ainfo =>
      simp only
      by_cases hc : ainfo.recent = true ∧ ainfo.size > 0
      · rw [if_pos hc]
        by_cases hfa : a.final = some ainfo.size
        · exact absurd ⟨ainfo, hia, hc.1, hc.2, hfa⟩ ha
        · rw [if_neg hfa]
          exact List.mem_append_right _ ih2
      · rw [if_neg hc]
        exact ih2

/-- The scan for `*.xlsx` returns the path of the first fresh file. -/
theorem xlsx_scan_forward (xpre : List ScanEntry) (e : ScanEntry) (xpost : List ScanEntry)
    (hf : e.fresh) (hpre : ∀ e2 ∈ xpre, ¬ e2.fresh) :
    waitForDownload_xlsx (xpre ++ e :: xpost) = some e.path := by
  obtain ⟨info, hi, hr, hs⟩ := hf
  induction xpre with
  | nil =>
    simp only [List.nil_append]
    unfold waitForDownload_xlsx
    simp [hi, hr, hs]
  | cons a xpre ih =>
    have ih2 := ih (fun e2 he2 => hpre e2 (List.mem_cons_of_mem _ he2))
    have ha : ¬ a.fresh := hpre a (List.mem_cons_self _ _)
    simp only [List.cons_append]
    unfold waitForDownload_xlsx
    cases hia : a.info with
    | none => exact ih2
    | some ainfo =>
      simp only
      by_cases hc : ainfo.recent = true ∧ ainfo.size > 0
      · exact absurd ⟨ainfo, hia, hc.1, hc.2⟩ ha
      · rw [if_neg hc]
        exact ih2

/-- A loop that runs through the polls `pre` without returning goes on with
the polls that follow, having begun `pre.length` polls more. -/
theorem loop_append (ep fn : String) (pre : List Poll) :
    ∀ (ls : Int) (c n : Nat) (acts : List FsAction) (obs : List Int),
      (waitForDownload_loop ep fn pre ls c n acts obs).exit = .timeout →
      ∃ (ls2 : Int) (c2 : Nat) (acts2 : List FsAction) (obs2 : List Int),
        ∀ rest : List Poll,
          waitForDownload_loop ep fn (pre ++ rest) ls c n acts obs =
            waitForDownload_loop ep fn rest ls2 c2 (n + pre.length) acts2 obs2 := by
  induction pre with
  | nil =>
    intro ls c n acts obs _
    exact ⟨ls, c, acts, obs, fun rest => rfl⟩
  | cons poll pre ih =>
    intro ls c n acts obs hx
    unfold waitForDownload_loop at hx
    cases hchk : (waitForDownload_check ls c poll.expected).1 with
    | true => simp [hchk] at hx
    | false =>
      simp only [hchk, Bool.false_eq_true, if_false] at hx
      cases hcsv : (waitForDownload_csv ep poll.csv).1 with
      | some file => simp [hcsv] at hx
      | none =>
        simp only [hcsv] at hx
        cases hxl : waitForDownload_xlsx poll.xlsx with
        | some file => simp [hxl] at hx
        | none =>
          simp only [hxl] at hx
          obtain ⟨ls2, c2, acts2, obs2, h2⟩ := ih _ _ _ _ _ hx
          refine ⟨ls2, c2, acts2, obs2, ?_⟩
          intro rest
          rw [List.cons_append, waitForDownload_loop]
          simp only [hchk, Bool.false_eq_true, if_false, hcsv, hxl]
          rw [h2 rest]
          congr 1
          simp only [List.length_cons]
          omega

/-- What the loop does at a poll that it reaches, by what that poll shows:
with a settled `*.csv` file listed, it returns the expected path at that
poll; with none, and a fresh `*.xlsx` file listed, it returns at that poll,
the expected path through the stability count or else the path of the first
fresh `*.xlsx` file. -/
theorem loop_scan_forward (ep fn : String) (pre : List Poll) (poll : Poll) (post : List Poll)
    (ls : Int) (c n : Nat) (acts : List FsAction) (obs : List Int)
    (hpre : (waitForDownload_loop ep fn pre ls c n acts obs).exit = .timeout) :
    ((∃ e ∈ poll.csv, e.settled) →
      (waitForDownload_loop ep fn (pre ++ poll :: post) ls c n acts obs).polls
        = n + pre.length + 1 ∧
      (waitForDownload_loop ep fn (pre ++ poll :: post) ls c n acts obs).path = ep ∧
      (waitForDownload_loop ep fn (pre ++ poll :: post) ls c n acts obs).err = none ∧
      ((waitForDownload_loop ep fn (pre ++ poll :: post) ls c n acts obs).exit = .stable ∨
        (waitForDownload_loop ep fn (pre ++ poll :: post) ls c n acts obs).exit = .csvScan) ∧
      (poll.expected = none →
        (waitForDownload_loop ep fn (pre ++ poll :: post) ls c n acts obs).exit = .csvScan) ∧
      (∀ (cpre : List ScanEntry) (e : ScanEntry) (cpost : List ScanEntry),
        poll.csv = cpre ++ e :: cpost → e.fresh → (∀ e2 ∈ cpre, ¬ e2.settled) →
        (waitForDownload_loop ep fn (pre ++ poll :: post) ls c n acts obs).exit = .csvScan →
        e.path ≠ ep →
        FsAction.rename e.path ep ∈
          (waitForDownload_loop ep fn (pre ++ poll :: post) ls c n acts obs).actions)) ∧
    ((∀ e ∈ poll.csv, ¬ e.settled) →
      ∀ (xpre : List ScanEntry) (e : ScanEntry) (xpost : List ScanEntry),
        poll.xlsx = xpre ++ e :: xpost → e.fresh → (∀ e2 ∈ xpre, ¬ e2.fresh) →
        (waitForDownload_loop ep fn (pre ++ poll :: post) ls c n acts obs).polls
          = n + pre.length + 1 ∧
        (waitForDownload_loop ep fn (pre ++ poll :: post) ls c n acts obs).err = none ∧
        (((waitForDownload_loop ep fn (pre ++ poll :: post) ls c n acts obs).exit = .stable ∧
            (waitForDownload_loop ep fn (pre ++ poll :: post) ls c n acts obs).path = ep) ∨
          ((waitForDownload_loop ep fn (pre ++ poll :: post) ls c n acts obs).exit
              = .xlsxScan ∧
            (waitForDownload_loop ep fn (pre ++ poll :: post) ls c n acts obs).path
              = e.path)) ∧
        (poll.expected = none →
          (waitForDownload_loop ep fn (pre ++ poll :: post) ls c n acts obs).exit
            = .xlsxScan ∧
          (waitForDownload_loop ep fn (pre ++ poll :: post) ls c n acts obs).path = e.path)) := by
  obtain ⟨ls2, c2, acts2, obs2, happ⟩ := loop_append ep fn pre ls c n acts obs hpre
  rw [happ (poll :: post)]
  have hnone : poll.expected = none → (waitForDownload_check ls2 c2 poll.expected).1 = false := by
    intro h
    rw [h]
    rfl
  have hstable : (waitForDownload_check ls2 c2 poll.expected).1 = true →
      waitForDownload_loop ep fn (poll :: post) ls2 c2 (n + pre.length) acts2 obs2 =
        { path := ep, err := none, exit := .stable, polls := n + pre.length + 1,
          actions := acts2, observed := observe obs2 poll.expected } := by
    intro hchk
    rw [waitForDownload_loop]
    simp [hchk]
  have hcsvx : (waitForDownload_check ls2 c2 poll.expected).1 = false →
      (waitForDownload_csv ep poll.csv).1 = some ep →
      waitForDownload_loop ep fn (poll :: post) ls2 c2 (n + pre.length) acts2 obs2 =
        { path := ep, err := none, exit := .csvScan, polls := n + pre.length + 1,
          actions := acts2 ++ (waitForDownload_csv ep poll.csv).2,
          observed := observe obs2 poll.expected } := by
    intro hchk hcsv
    rw [waitForDownload_loop]
    simp [hchk, hcsv]
  have hxlx : ∀ file : String, (waitForDownload_check ls2 c2 poll.expected).1 = false →
      (waitForDownload_csv ep poll.csv).1 = none →
      waitForDownload_xlsx poll.xlsx = some file →
      waitForDownload_loop ep fn (poll :: post) ls2 c2 (n + pre.length) acts2 obs2 =
        { path := file, err := none, exit := .xlsxScan, polls := n + pre.length + 1,
          actions := acts2 ++ (waitForDownload_csv ep poll.csv).2,
          observed := observe obs2 poll.expected } := by
    intro file hchk hcsv hxl
    rw [waitForDownload_loop]
    simp [hchk, hcsv, hxl]
  refine ⟨?_, ?_⟩
  · intro hset
    have hcsv := csv_scan_forward ep poll.csv hset
    cases hchk : (waitForDownload_check ls2 c2 poll.expected).1 with
    | true =>
      rw [hstable hchk]
      refine ⟨rfl, rfl, rfl, Or.inl rfl, ?_, ?_⟩
      · intro h
        rw [hnone h] at hchk
        cases hchk
      · intro _ _ _ _ _ _ hx
        cases hx
    | false =>
      rw [hcsvx hchk hcsv]
      refine ⟨rfl, rfl, rfl, Or.inr rfl, fun _ => rfl, ?_⟩
      intro cpre e cpost hsplit hs hno _ hp
      rw [hsplit]
      exact List.mem_append_right _ (csv_scan_tried ep cpre e cpost hs hno hp)
  · intro hno xpre e xpost hsplit hf hxno
    have hcsv := csv_scan_nothing ep poll.csv hno
    have hxl : waitForDownload_xlsx poll.xlsx = some e.path := by
      rw [hsplit]
      exact xlsx_scan_forward xpre e xpost hf hxno
    cases hchk : (waitForDownload_check ls2 c2 poll.expected).1 with
    | true =>
      rw [hstable hchk]
      refine ⟨rfl, rfl, Or.inl ⟨rfl, rfl⟩, ?_⟩
      intro h
      rw [hnone h] at hchk
      cases hchk
    | false =>
      rw [hxlx e.path hchk hcsv hxl]
      exact ⟨rfl, rfl, Or.inr ⟨rfl, rfl⟩, fun _ => ⟨rfl, rfl⟩⟩

/-- C20, as amended. When `waitForDownload` reports the expected file
complete through its stability count, the last four sizes that `os.Stat`
gave of the file are one and the same positive size (first and second
parts); a size that differs from the one observed before restarts the count
at zero, and a poll at which `os.Stat` fails leaves the count and the last
size as they were, so the four observations need not come from polls in a
row (third and fourth parts). From the start, four polls in a row that show
one positive size, with nothing for the scans to find, complete at the
fourth and three do not; with two polls in between at which `os.Stat`
fails, the same four observations complete at the sixth (last part). But
the count is not the only way out: at every poll that the loop reaches, a
`*.csv` file listed in the directory, the expected file included, that was
modified within the last two minutes and whose positive size is found again
at a single re-check two seconds later makes the loop return the expected
path at that poll, whatever the sizes observed before (fifth and sixth
parts). -/
theorem waitForDownload_stability (d : Downloader) (fn : String) (polls : List Poll) :
    ((d.waitForDownload fn polls).exit = .stable →
      (d.waitForDownload fn polls).path = filepathJoin d.DownloadDir fn ∧
      (d.waitForDownload fn polls).err = none ∧
      ∃ (pre : List Int) (x : Int),
        (d.waitForDownload fn polls).observed = pre ++ [x, x, x, x] ∧ x > 0) ∧
    (d.waitForDownload fn polls).observed =
      (polls.take (d.waitForDownload fn polls).polls).filterMap (fun poll => poll.expected) ∧
    (∀ (lastSize : Int) (stableCount : Nat) (currentSize : Int), currentSize ≠ lastSize →
      waitForDownload_check lastSize stableCount (some currentSize) =
        (false, currentSize, 0)) ∧
    (∀ (lastSize : Int) (stableCount : Nat),
      waitForDownload_check lastSize stableCount none = (false, lastSize, stableCount)) ∧
    ((d.waitForDownload fn polls).exit = .csvScan →
      (d.waitForDownload fn polls).path = filepathJoin d.DownloadDir fn ∧
      (d.waitForDownload fn polls).err = none ∧
      ∃ poll ∈ polls, ∃ e ∈ poll.csv, ∃ info : FileStat, e.info = some info ∧
        info.recent = true ∧ info.size > 0 ∧ e.final = some info.size) ∧
    (∀ (poll : Poll) (post : List Poll),
      (d.waitForDownload fn polls).exit = .timeout → (∃ e ∈ poll.csv, e.settled) →
      (d.waitForDownload fn (polls ++ poll :: post)).polls = polls.length + 1 ∧
      (d.waitForDownload fn (polls ++ poll :: post)).path = filepathJoin d.DownloadDir fn ∧
      (d.waitForDownload fn (polls ++ poll :: post)).err = none ∧
      ((d.waitForDownload fn (polls ++ poll :: post)).exit = .stable ∨
        (d.waitForDownload fn (polls ++ poll :: post)).exit = .csvScan)) ∧
    (∀ (x : Int) (rest : List Poll), x > 0 →
      (d.waitForDownload fn
        (pollOnly x :: pollOnly x :: pollOnly x :: pollOnly x :: rest)).exit = .stable ∧
      (d.waitForDownload fn
        (pollOnly x :: pollOnly x :: pollOnly x :: pollOnly x :: rest)).polls = 4 ∧
      (d.waitForDownload fn [pollOnly x, pollOnly x, pollOnly x]).exit = .timeout ∧
      (d.waitForDownload fn
        (pollOnly x :: pollGone :: pollOnly x :: pollOnly x :: pollGone :: pollOnly x ::
          rest)).exit = .stable ∧
      (d.waitForDownload fn
        (pollOnly x :: pollGone :: pollOnly x :: pollOnly x :: pollGone :: pollOnly x ::
          rest)).polls = 6) := by
  refine ⟨?_, ?_, ?_, ?_, ?_, ?_, ?_⟩
  · intro hx
    exact loop_stable _ _ polls (-1) 0 0 [] [] (Or.inl ⟨rfl, rfl, rfl⟩) hx
  · have h := (loop_observed (filepathJoin d.DownloadDir fn) fn polls (-1) 0 0 [] []).2.2
    simpa [Downloader.waitForDownload] using h
  · intro ls c cur hne
    simp only [waitForDownload_check]
    rw [if_neg (fun h => hne h.1)]
  · intro ls c
    rfl
  · intro hx
    exact loop_csvScan _ _ polls (-1) 0 0 [] [] hx
  · intro poll post hpre hset
    obtain ⟨h1, h2, h3, h4, _⟩ :=
      (loop_scan_forward (filepathJoin d.DownloadDir fn) fn polls poll post (-1) 0 0 [] []
        hpre).1 hset
    refine ⟨?_, h2, h3, h4⟩
    unfold Downloader.waitForDownload
    rw [h1]
    omega
  · intro x rest hx
    have hne : ¬ (x = -1) := by omega
    simp [Downloader.waitForDownload, waitForDownload_loop, waitForDownload_check, pollOnly,
      pollGone, waitForDownload_csv, waitForDownload_xlsx, hx, hne]

/-- Witness for C20 as amended: the file shows 1024 bytes, then 2048 bytes
at four polls in a row, and is complete at the fifth poll; after a poll that
showed 1024 bytes, a poll at which the directory lists the file with 9000
bytes, unchanged two seconds later, returns it; and a download directory
given with a slash at its end makes no difference to the expected path. -/
theorem waitForDownload_stability_witness :
    (downloader0.waitForDownload "CLIENTES.csv"
      [pollOnly 1024, pollOnly 2048, pollOnly 2048, pollOnly 2048, pollOnly 2048]).exit
      = .stable ∧
    ((downloader0.waitForDownload "CLIENTES.csv"
        [pollOnly 1024, pollOnly 2048, pollOnly 2048, pollOnly 2048, pollOnly 2048]).path
        = filepathJoin downloader0.DownloadDir "CLIENTES.csv" ∧
      (downloader0.waitForDownload "CLIENTES.csv"
        [pollOnly 1024, pollOnly 2048, pollOnly 2048, pollOnly 2048, pollOnly 2048]).err
        = none ∧
      ∃ (pre : List Int) (x : Int),
        (downloader0.waitForDownload "CLIENTES.csv"
          [pollOnly 1024, pollOnly 2048, pollOnly 2048, pollOnly 2048,
            pollOnly 2048]).observed = pre ++ [x, x, x, x] ∧ x > 0) ∧
    (downloader0.waitForDownload "CLIENTES.csv"
      [pollOnly 1024, pollOnly 2048, pollOnly 2048, pollOnly 2048, pollOnly 2048]).polls = 5 ∧
    (downloader0.waitForDownload "CLIENTES.csv"
      [pollOnly 1024, pollOnly 2048, pollOnly 2048, pollOnly 2048]).exit = .timeout ∧
    ((downloader0.waitForDownload "CLIENTES.csv" [pollOnly 1024]).exit = .timeout ∧
      (∃ e ∈ (pollGrowing 9000 9000).csv, e.settled)) ∧
    ((downloader0.waitForDownload "CLIENTES.csv"
        ([pollOnly 1024] ++ pollGrowing 9000 9000 :: [])).polls = [pollOnly 1024].length + 1 ∧
      (downloader0.waitForDownload "CLIENTES.csv"
        ([pollOnly 1024] ++ pollGrowing 9000 9000 :: [])).path =
          filepathJoin downloader0.DownloadDir "CLIENTES.csv" ∧
      (downloader0.waitForDownload "CLIENTES.csv"
        ([pollOnly 1024] ++ pollGrowing 9000 9000 :: [])).err = none ∧
      ((downloader0.waitForDownload "CLIENTES.csv"
          ([pollOnly 1024] ++ pollGrowing 9000 9000 :: [])).exit = .stable ∨
        (downloader0.waitForDownload "CLIENTES.csv"
          ([pollOnly 1024] ++ pollGrowing 9000 9000 :: [])).exit = .csvScan)) ∧
    filepathJoin downloaderSlash.DownloadDir "CLIENTES.csv" =
      "/opt/soriano/backend/CSV/scraped/CLIENTES.csv" ∧
    (downloaderSlash.waitForDownload "CLIENTES.csv" [pollGrowing 9000 9000]).actions =
      [FsAction.sleep (2 * second)] :=
  ⟨by decide,
    (waitForDownload_stability downloader0 "CLIENTES.csv"
      [pollOnly 1024, pollOnly 2048, pollOnly 2048, pollOnly 2048, pollOnly 2048]).1
      (by decide),
    by decide, by decide,
    ⟨by decide, ⟨_, List.mem_cons_self _ _, ⟨_, rfl, rfl, by decide, rfl⟩⟩⟩,
    (waitForDownload_stability downloader0 "CLIENTES.csv" [pollOnly 1024]).2.2.2.2.2.1
      (pollGrowing 9000 9000) [] (by decide)
      ⟨_, List.mem_cons_self _ _, ⟨_, rfl, rfl, by decide, rfl⟩⟩,
    by decide, by decide⟩

/-- Counterexample to C20 as stated: `CLIENTES.csv` is still being written.
At the first poll it has 1000 bytes, and 5000 two seconds later; at the
second poll it has 9000 bytes, a size that differs from the one of the poll
before, and still 9000 two seconds later. The scan for `*.csv`, which lists
the expected file like any other, returns it as complete at that second
poll: no size was observed unchanged across three polls. -/
theorem waitForDownload_returns_changed_size :
    filepathJoin downloader0.DownloadDir "CLIENTES.csv" =
      "/opt/soriano/backend/CSV/scraped/CLIENTES.csv" ∧
    (downloader0.waitForDownload "CLIENTES.csv"
      [pollGrowing 1000 5000, pollGrowing 9000 9000]).err = none ∧
    (downloader0.waitForDownload "CLIENTES.csv"
      [pollGrowing 1000 5000, pollGrowing 9000 9000]).path =
      "/opt/soriano/backend/CSV/scraped/CLIENTES.csv" ∧
    (downloader0.waitForDownload "CLIENTES.csv"
      [pollGrowing 1000 5000, pollGrowing 9000 9000]).exit = .csvScan ∧
    (downloader0.waitForDownload "CLIENTES.csv"
      [pollGrowing 1000 5000, pollGrowing 9000 9000]).polls = 2 ∧
    (downloader0.waitForDownload "CLIENTES.csv"
      [pollGrowing 1000 5000, pollGrowing 9000 9000]).observed = [1000, 9000] := by
  decide

/-! ## The scheduled task and its notification -/

/-- What the retry loop can return, whatever its length and its policy: it
never reads through a nil result; a nil error comes with a result that holds
a file; an error comes with no result or with one that is no success and
holds no file. -/
theorem loop_outcome {σ : Type} (env : Env σ) (ctx : Context) (config : RetryConfig) (n : Nat) :
    ∀ (attempt delay : Int) (lr : Option ScraperResult) (le : Option GoError)
      (s : GCOScraper) (w : World σ) (done : List (RunOutput σ)),
      (∀ r : ScraperResult, lr = some r → r.Success = false ∧ r.Files = []) →
      (RunWithRetry_loop env ctx config n attempt delay lr le s w done).nilDeref = false ∧
      ((RunWithRetry_loop env ctx config n attempt delay lr le s w done).err = none →
        ∃ r : ScraperResult,
          (RunWithRetry_loop env ctx config n attempt delay lr le s w done).result = some r ∧
          r.Files.length > 0) ∧
      ((RunWithRetry_loop env ctx config n attempt delay lr le s w done).err ≠ none →
        ∀ r : ScraperResult,
          (RunWithRetry_loop env ctx config n attempt delay lr le s w done).result = some r →
          r.Success = false ∧ r.Files = []) := by
  induction n with
  | zero =>
    intro attempt delay lr le s w done hlr
    refine ⟨by simp [RunWithRetry_loop], by simp [RunWithRetry_loop], ?_⟩
    intro _ r hr
    simp only [RunWithRetry_loop] at hr
    exact hlr r hr
  | succ n ih =>
    intro attempt delay lr le s w done _
    by_cases hf : attemptFiles
        (Run env ctx s (if attempt > 0 then timeSleep env delay w else w)) = []
    · rw [loop_succ_nofiles env ctx config n attempt delay lr le s w done hf]
      apply ih
      intro r hr
      have hfiles : r.Files = [] := by simpa [attemptFiles, hr] using hf
      refine ⟨?_, hfiles⟩
      cases hb : r.Success with
      | false => rfl
      | true => exact absurd hfiles (Run_success_has_files env ctx s _ r hr hb)
    · rw [loop_succ_files env ctx config n attempt delay lr le s w done hf]
      refine ⟨rfl, ?_, by simp⟩
      intro _
      cases hr : (Run env ctx s (if attempt > 0 then timeSleep env delay w else w)).result with
      | none => simp [attemptFiles, hr] at hf
      | some r =>
        simp only [attemptFiles, hr] at hf
        exact ⟨r, rfl, List.length_pos.mpr hf⟩

/-- The three facts of `loop_outcome` for `RunWithRetry`. -/
theorem RunWithRetry_outcome {σ : Type} (env : Env σ) (ctx : Context) (config : RetryConfig)
    (s : GCOScraper) (w : World σ) :
    (RunWithRetry env ctx config s w).nilDeref = false ∧
    ((RunWithRetry env ctx config s w).err = none →
      ∃ r : ScraperResult, (RunWithRetry env ctx config s w).result = some r ∧
        r.Files.length > 0) ∧
    ((RunWithRetry env ctx config s w).err ≠ none →
      ∀ r : ScraperResult, (RunWithRetry env ctx config s w).result = some r →
        r.Success = false ∧ r.Files = []) :=
  loop_outcome env ctx config _ 0 config.InitialDelay none none s w [] (by simp)

/-- The context that `runTask` builds in world `w`. -/
theorem runTask_retry {σ : Type} (env : Env σ) (ss : ScraperScheduler) (w : World σ) :
    (runTask env ss w).retry =
      RunWithRetry env { isDone := false, deadline := some ((timeNow env w).1 + 20 * 60 * second) }
        DefaultRetryConfig ss.Scraper (timeNow env w).2 := by
  unfold runTask
  simp only
  split
  · rfl
  · split <;> try rfl
    split
    · rfl
    · split <;> rfl

/-- The notification that `runTask` sends, by the outcome of its call of
`RunWithRetry`. -/
theorem runTask_sends {σ : Type} (env : Env σ) (ss : ScraperScheduler) (w : World σ) :
    (runTask env ss w).nilDeref = false ∧
    (∀ e : GoError, (runTask env ss w).retry.err = some e →
      (runTask env ss w).notifications = [.error e]) ∧
    (∀ r : ScraperResult, (runTask env ss w).retry.err = none →
      (runTask env ss w).retry.result = some r →
      (runTask env ss w).notifications =
        [if r.Success then .success r
         else if r.Files.length > 0 then .partialSuccess r
         else .error (.errorf "no se descargaron archivos")]) := by
  have hret := runTask_retry env ss w
  obtain ⟨hnd, hnil, _⟩ := RunWithRetry_outcome env
    { isDone := false, deadline := some ((timeNow env w).1 + 20 * 60 * second) }
    DefaultRetryConfig ss.Scraper (timeNow env w).2
  rw [hret]
  unfold runTask
  simp only
  generalize RunWithRetry env
    { isDone := false, deadline := some ((timeNow env w).1 + 20 * 60 * second) }
    DefaultRetryConfig ss.Scraper (timeNow env w).2 = R at hnd hnil ⊢
  simp only [hnd, Bool.false_eq_true, if_false]
  cases herr : R.err with
  | some e => simp
  | none =>
    obtain ⟨r, hr, _⟩ := hnil herr
    rw [hr]
    refine ⟨?_, by simp, ?_⟩
    · by_cases hs : r.Success = true <;> by_cases hf : r.Files.length > 0 <;> simp [hs, hf]
    · intro r2 _ h2
      cases h2
      by_cases hs : r.Success = true <;> by_cases hf : r.Files.length > 0 <;> simp [hs, hf]

/-- C23. On each trigger the scheduled task sends exactly one notification
and never reads through a nil result; the notification is chosen from what
its call of `RunWithRetry` (default policy, a context of 20 minutes) returned:
the success notification, with the result, when `Success` is true; the
partial-success notification, with the result, when `Success` is false and
the result holds at least one file; the error notification otherwise, which
is every case in which `RunWithRetry` returned an error, carrying that
error. -/
theorem runTask_notification {σ : Type} (env : Env σ) (ss : ScraperScheduler) (w : World σ) :
    (runTask env ss w).retry =
      RunWithRetry env { isDone := false, deadline := some ((timeNow env w).1 + 20 * 60 * second) }
        DefaultRetryConfig ss.Scraper (timeNow env w).2 ∧
    (runTask env ss w).nilDeref = false ∧
    (runTask env ss w).notifications.length = 1 ∧
    (∀ r : ScraperResult, (runTask env ss w).retry.result = some r → r.Success = true →
      (runTask env ss w).notifications = [.success r]) ∧
    (∀ r : ScraperResult, (runTask env ss w).retry.result = some r → r.Success = false →
      r.Files.length > 0 → (runTask env ss w).notifications = [.partialSuccess r]) ∧
    ((∀ r : ScraperResult, (runTask env ss w).retry.result = some r →
        r.Success = false ∧ r.Files.length = 0) →
      ∃ e : GoError, (runTask env ss w).retry.err = some e ∧
        (runTask env ss w).notifications = [.error e]) ∧
    (∀ e : GoError, (runTask env ss w).retry.err = some e →
      (runTask env ss w).notifications = [.error e] ∧
      ∀ r : ScraperResult, (runTask env ss w).retry.result = some r →
        r.Success = false ∧ r.Files.length = 0) := by
  have hret := runTask_retry env ss w
  obtain ⟨hnd, hnil, herr⟩ := RunWithRetry_outcome env
    { isDone := false, deadline := some ((timeNow env w).1 + 20 * 60 * second) }
    DefaultRetryConfig ss.Scraper (timeNow env w).2
  rw [← hret] at hnd hnil herr
  obtain ⟨h1, h2, h3⟩ := runTask_sends env ss w
  have hsome : ∀ e : GoError, (runTask env ss w).retry.err = some e →
      ∀ r : ScraperResult, (runTask env ss w).retry.result = some r →
        r.Success = false ∧ r.Files.length = 0 := by
    intro e he r hr
    obtain ⟨ha, hb⟩ := herr (by rw [he]; simp) r hr
    exact ⟨ha, by rw [hb]; rfl⟩
  refine ⟨hret, h1, ?_, ?_, ?_, ?_, ?_⟩
  · cases he : (runTask env ss w).retry.err with
    | some e => rw [h2 e he]; rfl
    | none =>
      obtain ⟨r, hr, _⟩ := hnil he
      rw [h3 r he hr]; rfl
  · intro r hr hs
    cases he : (runTask env ss w).retry.err with
    | some e =>
      have := (hsome e he r hr).1
      rw [hs] at this
      cases this
    | none => rw [h3 r he hr]; simp [hs]
  · intro r hr hs hf
    cases he : (runTask env ss w).retry.err with
    | some e =>
      have := (hsome e he r hr).2
      omega
    | none => rw [h3 r he hr]; simp [hs, hf]
  · intro hall
    cases he : (runTask env ss w).retry.err with
    | some e => exact ⟨e, rfl, h2 e he⟩
    | none =>
      obtain ⟨r, hr, hpos⟩ := hnil he
      have := (hall r hr).2
      omega
  · intro e he
    exact ⟨h2 e he, hsome e he⟩

/-- Witness for C23: the three kinds of notification, one per trigger, in
the worlds where every export succeeds, where two exports time out, and where
the login is rejected at each of the four attempts. -/
theorem runTask_notification_witness :
    ((runTask envAllOk { schedulerBusy with Scraper := scraper0 } script0).retry =
      RunWithRetry envAllOk
        { isDone := false, deadline := some ((timeNow envAllOk script0).1 + 20 * 60 * second) }
        DefaultRetryConfig scraper0 (timeNow envAllOk script0).2) ∧
    ((runTask envAllOk { schedulerBusy with Scraper := scraper0 } script0).notifications.map
      (fun n => match n with
        | .success r => (0, r.Files.length, r.Errors.length)
        | .partialSuccess r => (1, r.Files.length, r.Errors.length)
        | .error _ => (2, 0, 0))) = [(0, 4, 0)] ∧
    ((runTask envHalf { schedulerBusy with Scraper := scraper0 } script0).notifications.map
      (fun n => match n with
        | .success r => (0, r.Files.length, r.Errors.length)
        | .partialSuccess r => (1, r.Files.length, r.Errors.length)
        | .error _ => (2, 0, 0))) = [(1, 2, 2)] ∧
    (runTask envNoLogin { schedulerBusy with Scraper := scraper0 } script0).notifications =
      [.error (.wrapf "falló después de 3 reintentos: "
        (.errorf "error de login: credenciales"))] :=
  ⟨(runTask_notification envAllOk { schedulerBusy with Scraper := scraper0 } script0).1,
    by decide, by decide, by decide⟩

/-! ## A nil error comes with a file -/

/-- Every attempt the loop adds is what a call of `Run` returned. -/
theorem loop_attempts_runs {σ : Type} (env : Env σ) (ctx : Context) (config : RetryConfig)
    (n : Nat) :
    ∀ (attempt delay : Int) (lr : Option ScraperResult) (le : Option GoError)
      (s : GCOScraper) (w : World σ) (done : List (RunOutput σ)),
      ∀ a ∈ (RunWithRetry_loop env ctx config n attempt delay lr le s w done).attempts,
        a ∈ done ∨ ∃ (s2 : GCOScraper) (w2 : World σ), a = Run env ctx s2 w2 := by
  induction n with
  | zero =>
    intro attempt delay lr le s w done a ha
    simp only [RunWithRetry_loop] at ha
    exact Or.inl ha
  | succ n ih =>
    intro attempt delay lr le s w done a ha
    by_cases hf : attemptFiles
        (Run env ctx s (if attempt > 0 then timeSleep env delay w else w)) = []
    · rw [loop_succ_nofiles env ctx config n attempt delay lr le s w done hf] at ha
      rcases ih _ _ _ _ _ _ _ a ha with h | h
      · rcases List.mem_append.mp h with h | h
        · exact Or.inl h
        · exact Or.inr ⟨_, _, List.mem_singleton.mp h⟩
      · exact Or.inr h
    · rw [loop_succ_files env ctx config n attempt delay lr le s w done hf] at ha
      rcases List.mem_append.mp ha with h | h
      · exact Or.inl h
      · exact Or.inr ⟨_, _, List.mem_singleton.mp h⟩

/-- The error of the loop, when there is one, is the wrapping error of its
last line. -/
theorem loop_error_wrapped {σ : Type} (env : Env σ) (ctx : Context) (config : RetryConfig)
    (n : Nat) :
    ∀ (attempt delay : Int) (lr : Option ScraperResult) (le : Option GoError)
      (s : GCOScraper) (w : World σ) (done : List (RunOutput σ)) (e : GoError),
      (RunWithRetry_loop env ctx config n attempt delay lr le s w done).err = some e →
      ∃ last : Option GoError,
        e = errorfWrap ("falló después de " ++ toString config.MaxRetries ++ " reintentos: ")
          last := by
  induction n with
  | zero =>
    intro attempt delay lr le s w done e he
    simp only [RunWithRetry_loop, Option.some.injEq] at he
    exact ⟨le, he.symm⟩
  | succ n ih =>
    intro attempt delay lr le s w done e he
    by_cases hf : attemptFiles
        (Run env ctx s (if attempt > 0 then timeSleep env delay w else w)) = []
    · rw [loop_succ_nofiles env ctx config n attempt delay lr le s w done hf] at he
      exact ih _ _ _ _ _ _ _ e he
    · rw [loop_succ_files env ctx config n attempt delay lr le s w done hf] at he
      cases he

/-- C27. `RunWithRetry` returns a nil error only together with a non-nil
result that holds at least one file, and it never reads `result.Success`
through a nil result, because `Run` returns a nil result only together with
a non-nil error; so in the scheduled task the condition of the last branch
(nil error, `Success` false, no file) is never met, and its notification
"no se descargaron archivos" is never sent. -/
theorem RunWithRetry_nil_error {σ : Type} (env : Env σ) (ctx : Context) (config : RetryConfig)
    (s : GCOScraper) (w : World σ) (ss : ScraperScheduler) :
    ((RunWithRetry env ctx config s w).err = none →
      ∃ r : ScraperResult, (RunWithRetry env ctx config s w).result = some r ∧
        r.Files.length > 0) ∧
    (RunWithRetry env ctx config s w).nilDeref = false ∧
    ((Run env ctx s w).result = none → (Run env ctx s w).err ≠ none) ∧
    (∀ a ∈ (RunWithRetry env ctx config s w).attempts, a.result = none → a.err ≠ none) ∧
    (runTask env ss w).nilDeref = false ∧
    ¬ (∃ r : ScraperResult, (runTask env ss w).retry.err = none ∧
        (runTask env ss w).retry.result = some r ∧ r.Success = false ∧ r.Files.length = 0) ∧
    (runTask env ss w).notifications ≠ [.error (.errorf "no se descargaron archivos")] := by
  obtain ⟨hnd, hnil, _⟩ := RunWithRetry_outcome env ctx config s w
  obtain ⟨h1, h2, h3⟩ := runTask_sends env ss w
  have hret := runTask_retry env ss w
  obtain ⟨_, hnil2, _⟩ := RunWithRetry_outcome env
    { isDone := false, deadline := some ((timeNow env w).1 + 20 * 60 * second) }
    DefaultRetryConfig ss.Scraper (timeNow env w).2
  rw [← hret] at hnil2
  refine ⟨hnil, hnd, Run_nil_result_err env ctx s w, ?_, h1, ?_, ?_⟩
  · intro a ha hres
    rcases loop_attempts_runs env ctx config _ _ _ _ _ _ _ _ a ha with h | ⟨s2, w2, h⟩
    · cases h
    · rw [h] at hres ⊢
      exact Run_nil_result_err env ctx s2 w2 hres
  · rintro ⟨r, he, hr, _, hf⟩
    obtain ⟨r2, hr2, hpos⟩ := hnil2 he
    rw [hr] at hr2
    cases hr2
    omega
  · cases he : (runTask env ss w).retry.err with
    | some e =>
      rw [h2 e he]
      rw [hret] at he
      obtain ⟨last, hl⟩ := loop_error_wrapped env _ DefaultRetryConfig _ _ _ _ _ _ _ _ e he
      rw [hl]
      cases last <;> simp [errorfWrap]
    | none =>
      obtain ⟨r, hr, hpos⟩ := hnil2 he
      rw [h3 r he hr]
      by_cases hs : r.Success = true <;> simp [hs, hpos]

/-- Witness for C27: under the default policy the first attempt brings back
nothing and the second one two files out of four, so `RunWithRetry` returns a
nil error with a result of two files and the task sends the partial-success
notification; when every login is rejected the task sends the wrapped login
error. -/
theorem RunWithRetry_nil_error_witness :
    (((RunWithRetry envSecondTry Context.Background DefaultRetryConfig scraper0 script0).err =
        none →
      ∃ r : ScraperResult,
        (RunWithRetry envSecondTry Context.Background DefaultRetryConfig scraper0
          script0).result = some r ∧ r.Files.length > 0) ∧
    (RunWithRetry envSecondTry Context.Background DefaultRetryConfig scraper0
      script0).nilDeref = false) ∧
    (RunWithRetry envSecondTry Context.Background DefaultRetryConfig scraper0 script0).err =
      none ∧
    (RunWithRetry envSecondTry Context.Background DefaultRetryConfig scraper0
      script0).result.map (fun r => (r.Success, r.Files.length, r.Errors.length)) =
        some (false, 2, 2) ∧
    (RunWithRetry envNoLogin Context.Background DefaultRetryConfig scraper0
      script0).result.map (fun r => (r.Success, r.Files.length, r.Errors.length)) =
        some (false, 0, 1) ∧
    (RunWithRetry envNoLogin Context.Background DefaultRetryConfig scraper0 script0).err =
      some (.wrapf "falló después de 3 reintentos: " (.errorf "error de login: credenciales")) :=
  ⟨⟨(RunWithRetry_nil_error envSecondTry Context.Background DefaultRetryConfig scraper0 script0
      schedulerBusy).1,
    (RunWithRetry_nil_error envSecondTry Context.Background DefaultRetryConfig scraper0 script0
      schedulerBusy).2.1⟩,
    by decide, by decide, by decide, by decide⟩

/-! ## Success means all four exports -/

/-- C26. For every admitted run whose login succeeds, `Success` is true
exactly when all four record types were downloaded: every one of the four
`DownloadCSV` calls returned a file, that is, `Files` holds exactly four
entries, of types clients, policies, receipts and claims in that order, and
`Errors` is empty; a successful result never has fewer than four files. -/
theorem Run_success_all_four {σ : Type} (env : Env σ) (ctx : Context)
    (s : GCOScraper) (w : World σ)
    (h : s.IsRunning = false) (hl : Run_loginOutcome env s w = none) :
    ∃ r : ScraperResult, (Run env ctx s w).result = some r ∧
      (r.Success = true ↔
        (r.Files.map (fun f => f.Type_) =
            [.CSVClientes, .CSVPolizas, .CSVRecibos, .CSVSiniestros] ∧
          r.Errors = [])) ∧
      (r.Success = true ↔ r.Files.length = 4) ∧
      (r.Success = true ↔
        ∀ o ∈ downloadOutcomes env csvTypes (Run_exportWorld env s w), outcomeError o = none) ∧
      (r.Files.length < 4 → r.Success = false) := by
  obtain ⟨t1, hr⟩ := Run_login_ok_result env ctx s w h hl
  have hty := outcomes_types env csvTypes (Run_exportWorld env s w)
  have hsub := outcomes_types_sublist env csvTypes (Run_exportWorld env s w)
  have hlen : ((downloadOutcomes env csvTypes (Run_exportWorld env s w)).filterMap
      outcomeFile).length +
      ((downloadOutcomes env csvTypes (Run_exportWorld env s w)).filterMap
        outcomeError).length = 4 := by
    simp only [filterMap_outcomes_length, downloadOutcomes_length]
    rfl
  rw [← hty] at hsub
  generalize (downloadOutcomes env csvTypes (Run_exportWorld env s w)).filterMap outcomeFile
    = files at hr hty hsub hlen
  have herrs : (downloadOutcomes env csvTypes (Run_exportWorld env s w)).filterMap outcomeError
      = [] ↔
      ∀ o ∈ downloadOutcomes env csvTypes (Run_exportWorld env s w), outcomeError o = none := by
    simp [List.filterMap_eq_nil_iff]
  generalize (downloadOutcomes env csvTypes (Run_exportWorld env s w)).filterMap outcomeError
    = errors at hr hlen herrs
  have hfour : files.length = 4 ↔ errors = [] := by
    rw [← List.length_eq_zero]
    omega
  have hsucc : (decide (errors.length = 0) && decide (files.length > 0)) = true ↔
      files.length = 4 := by
    simp only [Bool.and_eq_true, decide_eq_true_eq]
    omega
  refine ⟨_, hr, ?_, hsucc, ?_, ?_⟩
  · simp only
    rw [hsucc]
    constructor
    · intro h4
      refine ⟨?_, hfour.mp h4⟩
      exact hsub.eq_of_length (by simp [h4, csvTypes])
    · rintro ⟨hmap, _⟩
      have := congrArg List.length hmap
      simpa using this
  · simp only
    rw [hsucc, hfour, herrs]
  · intro hlt
    simp only at hlt ⊢
    cases hb : (decide (errors.length = 0) && decide (files.length > 0)) with
    | false => rfl
    | true =>
      have := hsucc.mp hb
      omega

/-- Witness for C26: with every export succeeding the result holds the four
files in order and is a success; with two exports timing out it holds two
files and is none. -/
theorem Run_success_all_four_witness :
    (scraper0.IsRunning = false ∧ Run_loginOutcome envAllOk scraper0 script0 = none) ∧
    (∃ r : ScraperResult, (Run envAllOk Context.Background scraper0 script0).result = some r ∧
      (r.Success = true ↔
        (r.Files.map (fun f => f.Type_) =
            [.CSVClientes, .CSVPolizas, .CSVRecibos, .CSVSiniestros] ∧
          r.Errors = [])) ∧
      (r.Success = true ↔ r.Files.length = 4) ∧
      (r.Success = true ↔
        ∀ o ∈ downloadOutcomes envAllOk csvTypes (Run_exportWorld envAllOk scraper0 script0),
          outcomeError o = none) ∧
      (r.Files.length < 4 → r.Success = false)) ∧
    (Run envAllOk Context.Background scraper0 script0).result.map
      (fun r => (r.Success, r.Files.map (fun f => f.Type_), r.Errors)) =
        some (true, [.CSVClientes, .CSVPolizas, .CSVRecibos, .CSVSiniestros], []) ∧
    (Run envHalf Context.Background scraper0 script0).result.map
      (fun r => (r.Success, r.Files.map (fun f => f.Type_), r.Errors.length)) =
        some (false, [.CSVClientes, .CSVRecibos], 2) :=
  ⟨⟨by decide, by decide⟩,
    Run_success_all_four envAllOk Context.Background scraper0 script0 (by decide) (by decide),
    by decide, by decide⟩

/-! ## The parent context -/

/-- The retry loop does with one context what it does with any other. -/
theorem loop_context {σ : Type} (env : Env σ) (c1 c2 : Context) (config : RetryConfig) (n : Nat) :
    ∀ (attempt delay : Int) (lr : Option ScraperResult) (le : Option GoError)
      (s : GCOScraper) (w : World σ) (done : List (RunOutput σ)),
      RunWithRetry_loop env c1 config n attempt delay lr le s w done =
        RunWithRetry_loop env c2 config n attempt delay lr le s w done := by
  induction n with
  | zero => intro attempt delay lr le s w done; rfl
  | succ n ih =>
    intro attempt delay lr le s w done
    have hrun : ∀ (s : GCOScraper) (w : World σ), Run env c1 s w = Run env c2 s w :=
      fun _ _ => rfl
    unfold RunWithRetry_loop
    simp only [hrun, ih]

/-- C28. What `Run` returns and leaves behind does not depend on the parent
context it is given: with any two contexts, one of them possibly cancelled
or past its deadline, and the same scraper and outside world, `Run` returns
the same result and error and leaves the same scraper and the same world;
the same holds of `RunWithRetry`, so the scheduled task does what it would do
with `context.Background()`, and the 20-minute deadline it sets neither bounds
nor aborts a run. -/
theorem Run_parent_context {σ : Type} (env : Env σ) (c1 c2 : Context) (config : RetryConfig)
    (s : GCOScraper) (w : World σ) (ss : ScraperScheduler) :
    Run env c1 s w = Run env c2 s w ∧
    (Run env c1 s w).result = (Run env c2 s w).result ∧
    (Run env c1 s w).err = (Run env c2 s w).err ∧
    (Run env c1 s w).s = (Run env c2 s w).s ∧
    (Run env c1 s w).w = (Run env c2 s w).w ∧
    RunWithRetry env c1 config s w = RunWithRetry env c2 config s w ∧
    (runTask env ss w).retry =
      RunWithRetry env Context.Background DefaultRetryConfig ss.Scraper (timeNow env w).2 := by
  refine ⟨rfl, rfl, rfl, rfl, rfl, loop_context env c1 c2 config _ _ _ _ _ _ _ _, ?_⟩
  rw [runTask_retry]
  exact loop_context env _ _ _ _ _ _ _ _ _ _ _

/-- Witness for C28: a run given an already cancelled context does what the
run given `context.Background()` does; and in a world where each export takes
six minutes, the run that the scheduled task starts under its 20-minute
context ends 24 minutes after it started, past the deadline, with all four
files (the six extra nanoseconds are the clock readings in between). -/
theorem Run_parent_context_witness :
    (Run envSlow contextCancelled scraper0 script0 =
      Run envSlow Context.Background scraper0 script0) ∧
    (Run envSlow contextCancelled scraper0 script0).result.map
      (fun r => (r.Success, r.Files.length, r.EndTime - r.StartTime)) =
        some (true, 4, 24 * minute + 6) ∧
    (runTask envSlow scheduler0 script0).retry.result.map
      (fun r => (r.Success, r.Files.length, decide (r.EndTime - r.StartTime > 20 * minute))) =
        some (true, 4, true) ∧
    (runTask envSlow scheduler0 script0).notifications.length = 1 :=
  ⟨(Run_parent_context envSlow contextCancelled Context.Background DefaultRetryConfig scraper0
      script0 scheduler0).1,
    by decide, by decide, by decide⟩

/-! ## Which runs are recorded -/

/-- The status that `RecordRun` stores. -/
theorem RecordRun_status (m : ScraperMetrics) (result : ScraperResult) :
    (RecordRun m result).LastRunStatus =
      some (if result.Success then ScraperStatus.StatusSuccess
        else ScraperStatus.StatusFailed) := by
  unfold RecordRun
  simp only
  split <;> split <;> simp [RecordRun_files_frame]

/-- The result and the metrics of an admitted run whose login succeeded: the
metrics are those of one call of `RecordRun`, on the result returned. -/
theorem Run_login_ok_metrics {σ : Type} (env : Env σ) (ctx : Context)
    (s : GCOScraper) (w : World σ)
    (h : s.IsRunning = false) (hl : Run_loginOutcome env s w = none) :
    ∃ r : ScraperResult, (Run env ctx s w).result = some r ∧
      (Run env ctx s w).s.Metrics = RecordRun s.Metrics r ∧
      (Run env ctx s w).s.Status = Run_finalStatus r ∧
      (r.Success = true ↔ (r.Errors = [] ∧ r.Files ≠ [])) := by
  obtain ⟨t1, hr⟩ := Run_login_ok_result env ctx s w h hl
  obtain ⟨_, ⟨r, t2, tl, hr2, hs⟩, _⟩ := Run_login_ok_state env ctx s w h hl
  refine ⟨r, hr2, by rw [hs], by rw [hs], ?_⟩
  rw [hr] at hr2
  rw [← Option.some.inj hr2]
  simp [List.length_eq_zero, List.length_pos]

/-- C29. A run rejected as already running and a run that fails at login
leave the metrics, every field of them, as they were; a run that gets past
login leaves the metrics that one call of `RecordRun` on the returned result
gives. So `TotalRuns` goes up by one (in `int64` arithmetic) exactly in the
runs that reached the export phase. -/
theorem Run_metrics_frame {σ : Type} (env : Env σ) (ctx : Context)
    (s : GCOScraper) (w : World σ) :
    (s.IsRunning = true → (Run env ctx s w).s.Metrics = s.Metrics) ∧
    (s.IsRunning = false → ∀ err : GoError, Run_loginOutcome env s w = some err →
      (Run env ctx s w).s.Metrics = s.Metrics) ∧
    (s.IsRunning = false → Run_loginOutcome env s w = none →
      ∃ r : ScraperResult, (Run env ctx s w).result = some r ∧
        (Run env ctx s w).s.Metrics = RecordRun s.Metrics r ∧
        Event.download .CSVClientes ∈ (Run env ctx s w).w.trace.drop w.trace.length) ∧
    (Run env ctx s w).s.Metrics.TotalRuns =
      (if s.IsRunning = false ∧ Run_loginOutcome env s w = none then
        wrapInt64 (s.Metrics.TotalRuns + 1)
      else s.Metrics.TotalRuns) ∧
    (isInt64 (s.Metrics.TotalRuns + 1) →
      (Run env ctx s w).s.Metrics.TotalRuns =
        s.Metrics.TotalRuns +
          (if s.IsRunning = false ∧ Run_loginOutcome env s w = none then 1 else 0)) := by
  have hrej : s.IsRunning = true → (Run env ctx s w).s.Metrics = s.Metrics := by
    intro h
    rw [Run_rejected env ctx s w h]
  have hfail : s.IsRunning = false → ∀ err : GoError, Run_loginOutcome env s w = some err →
      (Run env ctx s w).s.Metrics = s.Metrics := by
    intro h err hl
    obtain ⟨_, ⟨t2, hs⟩, _⟩ := Run_login_failed_state env ctx s w h err hl
    rw [hs]
  have htot : (Run env ctx s w).s.Metrics.TotalRuns =
      (if s.IsRunning = false ∧ Run_loginOutcome env s w = none then
        wrapInt64 (s.Metrics.TotalRuns + 1)
      else s.Metrics.TotalRuns) := by
    cases h : s.IsRunning with
    | true => simp [hrej h]
    | false =>
      cases hl : Run_loginOutcome env s w with
      | some err => simp [hfail h err hl]
      | none =>
        obtain ⟨r, _, hm, _⟩ := Run_login_ok_metrics env ctx s w h hl
        simp [hm, (RecordRun_runs s.Metrics r).1]
  refine ⟨hrej, hfail, ?_, htot, ?_⟩
  · intro h hl
    obtain ⟨r, hr, hm, _⟩ := Run_login_ok_metrics env ctx s w h hl
    obtain ⟨_, _, htr⟩ := Run_login_ok_state env ctx s w h hl
    refine ⟨r, hr, hm, ?_⟩
    rw [htr]
    simp [csvTypes]
  · intro hfit
    rw [htot]
    split
    · exact wrapInt64_of_isInt64 _ hfit
    · simp

/-- Witness for C29: from the zero metrics, the rejected call and the run
whose login is rejected leave `TotalRuns` and `FailedRuns` at 0 and the
last-run fields unset, while the run that exports two files out of four is
recorded, as one failed run. -/
theorem Run_metrics_frame_witness :
    (scraperAdmitted.IsRunning = true →
      (Run envAllOk Context.Background scraperAdmitted script0).s.Metrics =
        scraperAdmitted.Metrics) ∧
    (Run envAllOk Context.Background scraperAdmitted script0).s.Metrics = ScraperMetrics.zero ∧
    (Run envNoLogin Context.Background scraper0 script0).s.Metrics = ScraperMetrics.zero ∧
    (Run envNoLogin Context.Background scraper0 script0).s.Status = .StatusFailed ∧
    (Run envHalf Context.Background scraper0 script0).s.Metrics =
      { TotalRuns := 1, SuccessfulRuns := 0, FailedRuns := 1, TotalFilesDownloaded := 2,
        TotalBytesDownloaded := 4096, LastRunTime := 1000, LastRunDuration := 4,
        LastRunStatus := some .StatusFailed, AverageRunDuration := 4 } :=
  ⟨(Run_metrics_frame envAllOk Context.Background scraperAdmitted script0).1,
    by decide, by decide, by decide, by decide⟩

/-! ## Status of the scraper against status of the metrics -/

/-- C30. For every admitted run that gets past login: when it is a partial
success (at least one file and at least one error) the scraper ends with
status success while the metrics recorded for the same run count it as
failed (`FailedRuns` one more, in `int64` arithmetic, `SuccessfulRuns`
unchanged, `LastRunStatus` failed); and the status of the scraper equals the
`LastRunStatus` of the metrics exactly when the run is a full success or
brings back no file. -/
theorem Run_status_against_metrics {σ : Type} (env : Env σ) (ctx : Context)
    (s : GCOScraper) (w : World σ)
    (h : s.IsRunning = false) (hl : Run_loginOutcome env s w = none) :
    ∃ r : ScraperResult, (Run env ctx s w).result = some r ∧
      (r.Files ≠ [] → r.Errors ≠ [] →
        r.Success = false ∧
        (Run env ctx s w).s.Status = .StatusSuccess ∧
        (Run env ctx s w).s.Metrics.LastRunStatus = some .StatusFailed ∧
        (Run env ctx s w).s.Metrics.FailedRuns = wrapInt64 (s.Metrics.FailedRuns + 1) ∧
        (isInt64 (s.Metrics.FailedRuns + 1) →
          (Run env ctx s w).s.Metrics.FailedRuns = s.Metrics.FailedRuns + 1) ∧
        (Run env ctx s w).s.Metrics.SuccessfulRuns = s.Metrics.SuccessfulRuns) ∧
      ((Run env ctx s w).s.Metrics.LastRunStatus = some (Run env ctx s w).s.Status ↔
        (r.Success = true ∨ r.Files = [])) ∧
      (r.Success = true →
        (Run env ctx s w).s.Status = .StatusSuccess ∧
        (Run env ctx s w).s.Metrics.LastRunStatus = some .StatusSuccess) ∧
      (r.Files = [] →
        (Run env ctx s w).s.Status = .StatusFailed ∧
        (Run env ctx s w).s.Metrics.LastRunStatus = some .StatusFailed) := by
  obtain ⟨r, hr, hm, hst, hsucc⟩ := Run_login_ok_metrics env ctx s w h hl
  have hstatus := RecordRun_status s.Metrics r
  obtain ⟨_, hsr, hfr, _, _⟩ := RecordRun_runs s.Metrics r
  refine ⟨r, hr, ?_, ?_, ?_, ?_⟩
  · intro hf he
    have hs : r.Success = false := by
      cases hb : r.Success with
      | false => rfl
      | true => exact absurd (hsucc.mp hb).1 he
    have hpos : r.Files.length > 0 := List.length_pos.mpr hf
    refine ⟨hs, ?_, ?_, ?_, ?_, ?_⟩
    · rw [hst]; simp [Run_finalStatus, hs, hpos]
    · rw [hm, hstatus]; simp [hs]
    · rw [hm, hfr]; simp [hs]
    · intro hfit
      rw [hm, hfr]
      simp only [hs, Bool.false_eq_true, if_false]
      exact wrapInt64_of_isInt64 _ hfit
    · rw [hm, hsr]; simp [hs]
  · rw [hm, hstatus, hst]
    cases hb : r.Success with
    | true => simp [Run_finalStatus, hb]
    | false =>
      cases hf : r.Files with
      | nil => simp [Run_finalStatus, hb, hf]
      | cons f fs => simp [Run_finalStatus, hb, hf]
  · intro hb
    rw [hm, hstatus, hst]
    simp [Run_finalStatus, hb]
  · intro hf
    have hs : r.Success = false := by
      cases hb : r.Success with
      | false => rfl
      | true => exact absurd hf (hsucc.mp hb).2
    rw [hm, hstatus, hst]
    simp [Run_finalStatus, hs, hf]

/-- Witness for C30: the run that exports two files out of four ends with
status success and is recorded as failed; the full success and the run
without any file end with the same status on both sides. -/
theorem Run_status_against_metrics_witness :
    (scraper0.IsRunning = false ∧ Run_loginOutcome envHalf scraper0 script0 = none) ∧
    (∃ r : ScraperResult, (Run envHalf Context.Background scraper0 script0).result = some r ∧
      (r.Files ≠ [] → r.Errors ≠ [] →
        r.Success = false ∧
        (Run envHalf Context.Background scraper0 script0).s.Status = .StatusSuccess ∧
        (Run envHalf Context.Background scraper0 script0).s.Metrics.LastRunStatus =
          some .StatusFailed ∧
        (Run envHalf Context.Background scraper0 script0).s.Metrics.FailedRuns =
          wrapInt64 (scraper0.Metrics.FailedRuns + 1) ∧
        (isInt64 (scraper0.Metrics.FailedRuns + 1) →
          (Run envHalf Context.Background scraper0 script0).s.Metrics.FailedRuns =
            scraper0.Metrics.FailedRuns + 1) ∧
        (Run envHalf Context.Background scraper0 script0).s.Metrics.SuccessfulRuns =
          scraper0.Metrics.SuccessfulRuns) ∧
      ((Run envHalf Context.Background scraper0 script0).s.Metrics.LastRunStatus =
          some (Run envHalf Context.Background scraper0 script0).s.Status ↔
        (r.Success = true ∨ r.Files = [])) ∧
      (r.Success = true →
        (Run envHalf Context.Background scraper0 script0).s.Status = .StatusSuccess ∧
        (Run envHalf Context.Background scraper0 script0).s.Metrics.LastRunStatus =
          some .StatusSuccess) ∧
      (r.Files = [] →
        (Run envHalf Context.Background scraper0 script0).s.Status = .StatusFailed ∧
        (Run envHalf Context.Background scraper0 script0).s.Metrics.LastRunStatus =
          some .StatusFailed)) ∧
    ((Run envHalf Context.Background scraper0 script0).s.Status,
      (Run envHalf Context.Background scraper0 script0).s.Metrics.LastRunStatus,
      (Run envHalf Context.Background scraper0 script0).s.Metrics.FailedRuns,
      (Run envHalf Context.Background scraper0 script0).s.Metrics.SuccessfulRuns) =
        (.StatusSuccess, some .StatusFailed, 1, 0) ∧
    ((Run envAllOk Context.Background scraper0 script0).s.Status,
      (Run envAllOk Context.Background scraper0 script0).s.Metrics.LastRunStatus) =
        (.StatusSuccess, some .StatusSuccess) ∧
    ((Run envNoFile Context.Background scraper0 script0).s.Status,
      (Run envNoFile Context.Background scraper0 script0).s.Metrics.LastRunStatus) =
        (.StatusFailed, some .StatusFailed) :=
  ⟨⟨by decide, by decide⟩,
    Run_status_against_metrics envHalf Context.Background scraper0 script0 (by decide)
      (by decide),
    by decide, by decide, by decide⟩

/-! ## Simultaneous callers -/

/-- The body of `Run` does not write `IsRunning`. -/
theorem Run_body_IsRunning {σ : Type} (env : Env σ) (s : GCOScraper) (w : World σ) :
    (Run_body env s w).1.s.IsRunning = s.IsRunning := by
  unfold Run_body
  simp only
  split <;> rfl

/-- An invocation scheduled alone does what `Run` does. -/
theorem Pool_exec_alone {σ : Type} (env : Env σ) (ctx : Context) (s : GCOScraper) (w : World σ)
    (i : Nat) :
    (Pool.exec env [i, i, i] (Pool.start s w)).s = (Run env ctx s w).s ∧
    (Pool.exec env [i, i, i] (Pool.start s w)).w = (Run env ctx s w).w ∧
    ((Pool.exec env [i, i, i] (Pool.start s w)).callers i).returned =
      some ((Run env ctx s w).result, (Run env ctx s w).err) := by
  cases h : s.IsRunning with
  | true =>
    simp [Pool.exec, Pool.step, Pool.start, Run, Run_guard, h, setCaller, Caller.returned]
  | false =>
    simp [Pool.exec, Pool.step, Pool.start, Run, Run_guard, h, setCaller, Caller.returned]

theorem setCaller_same (c : Nat → Caller) (i : Nat) (x : Caller) : setCaller c i x i = x := by
  simp [setCaller]

theorem setCaller_other (c : Nat → Caller) (i j : Nat) (x : Caller) (h : j ≠ i) :
    setCaller c i x j = c j := by
  simp [setCaller, h]

/-- Moving a caller that was scheduled keeps the record of who is still
waiting. -/
theorem setCaller_waiting (c : Nat → Caller) (pre : List Nat) (j : Nat) (x : Caller)
    (h0 : ∀ i, c i = .waiting ↔ i ∉ pre) (hx : x ≠ .waiting) :
    ∀ i, setCaller c j x i = .waiting ↔ i ∉ pre ++ [j] := by
  intro i
  by_cases hij : i = j
  · subst hij
    simp [setCaller_same, hx]
  · rw [setCaller_other c j i x hij, h0 i]
    simp [hij]

/-- One step of a caller below `N`, taken when the schedule allows it,
keeps the invariant. -/
theorem Pool_step_inv {σ : Type} (env : Env σ) (N : Nat) (pre : List Nat) (p : Pool σ) (j : Nat)
    (hj : j < N) (hsim : 2 ≤ pre.count j → ∀ k < N, k ∈ pre) (hinv : Pool.inv N pre p) :
    Pool.inv N (pre ++ [j]) (Pool.step env j p) := by
  obtain ⟨I0, I1, I2, I3, I4, I5⟩ := hinv
  have hcount : ∀ i, pre.count i ≤ (pre ++ [j]).count i := by
    intro i
    simp [List.count_append]
  unfold Pool.step
  cases hc : p.callers j with
  | waiting =>
    have hjpre : j ∉ pre := (I0 j).mp hc
    have hnofin : ¬ ∃ i r e, p.callers i = .finished r e := fun hfin => hjpre (I1 hfin j hj)
    cases hg : Run_guard p.s with
    | none =>
      have hrun : p.s.IsRunning = true := by
        unfold Run_guard at hg
        split at hg
        · assumption
        · cases hg
      simp only
      unfold Pool.inv
      dsimp only
      refine ⟨setCaller_waiting _ _ _ _ I0 (by simp), ?_, ?_, ?_, ?_, ?_⟩
      · rintro ⟨i, r, e, hi⟩ k hk
        by_cases hij : i = j
        · subst hij; simp [setCaller_same] at hi
        · rw [setCaller_other _ _ _ _ hij] at hi
          exact List.mem_append_left _ (I1 ⟨i, r, e, hi⟩ k hk)
      · intro i r e h hi
        by_cases hij : i = j
        · subst hij; simp [setCaller_same] at hi
        · rw [setCaller_other _ _ _ _ hij] at hi
          exact le_trans (I2 i r e h hi) (hcount i)
      · intro i k hi hk
        by_cases hij : i = j
        · subst hij; simp [setCaller_same, Caller.passed] at hi
        · by_cases hkj : k = j
          · subst hkj; simp [setCaller_same, Caller.passed] at hk
          · rw [setCaller_other _ _ _ _ hij] at hi
            rw [setCaller_other _ _ _ _ hkj] at hk
            exact I3 i k hi hk
      · rw [I4]
        constructor
        · rintro ⟨i, hi⟩
          refine ⟨i, ?_⟩
          by_cases hij : i = j
          · subst hij; simp [hc, Caller.inFlight] at hi
          · rw [setCaller_other _ _ _ _ hij]; exact hi
        · rintro ⟨i, hi⟩
          refine ⟨i, ?_⟩
          by_cases hij : i = j
          · subst hij; simp [setCaller_same, Caller.inFlight] at hi
          · rw [setCaller_other _ _ _ _ hij] at hi; exact hi
      · intro _
        obtain ⟨i, hi⟩ := I4.mp hrun
        have hij : i ≠ j := by
          rintro rfl
          simp [hc, Caller.inFlight] at hi
        refine ⟨i, ?_⟩
        rw [setCaller_other _ _ _ _ hij]
        cases hci : p.callers i <;> simp [hci, Caller.inFlight] at hi <;> rfl
    | some s1 =>
      have hrun : p.s.IsRunning = false ∧ s1.IsRunning = true := by
        unfold Run_guard at hg
        split at hg
        · cases hg
        · rename_i hnr
          cases hg
          exact ⟨by simpa using hnr, rfl⟩
      have hnofl : ∀ i, (p.callers i).inFlight = false := by
        intro i
        cases hfl : (p.callers i).inFlight with
        | false => rfl
        | true =>
          have := I4.mpr ⟨i, hfl⟩
          rw [hrun.1] at this
          cases this
      have hnopass : ∀ i, (p.callers i).passed = false := by
        intro i
        have h1 := hnofl i
        cases hci : p.callers i with
        | finished r e => exact absurd ⟨i, r, e, hci⟩ hnofin
        | waiting => rfl
        | rejected => rfl
        | admitted => simp [hci, Caller.inFlight] at h1
        | unwinding r e h => simp [hci, Caller.inFlight] at h1
      simp only
      unfold Pool.inv
      dsimp only
      refine ⟨setCaller_waiting _ _ _ _ I0 (by simp), ?_, ?_, ?_, ?_, ?_⟩
      · rintro ⟨i, r, e, hi⟩ k hk
        by_cases hij : i = j
        · subst hij; simp [setCaller_same] at hi
        · rw [setCaller_other _ _ _ _ hij] at hi
          exact absurd ⟨i, r, e, hi⟩ hnofin
      · intro i r e h hi
        by_cases hij : i = j
        · subst hij; simp [setCaller_same] at hi
        · rw [setCaller_other _ _ _ _ hij] at hi
          exact le_trans (I2 i r e h hi) (hcount i)
      · intro i k hi hk
        by_cases hij : i = j
        · by_cases hkj : k = j
          · rw [hij, hkj]
          · rw [setCaller_other _ _ _ _ hkj, hnopass k] at hk
            cases hk
        · rw [setCaller_other _ _ _ _ hij, hnopass i] at hi
          cases hi
      · constructor
        · intro _
          exact ⟨j, by simp [setCaller_same, Caller.inFlight]⟩
        · intro _
          exact hrun.2
      · intro _
        exact ⟨j, by simp [setCaller_same, Caller.passed]⟩
  | admitted =>
    have hjpre : j ∈ pre := by
      by_contra hn
      have := (I0 j).mpr hn
      rw [hc] at this
      cases this
    simp only
    unfold Pool.inv
    dsimp only
    refine ⟨setCaller_waiting _ _ _ _ I0 (by simp), ?_, ?_, ?_, ?_, ?_⟩
    · rintro ⟨i, r, e, hi⟩ k hk
      by_cases hij : i = j
      · subst hij; simp [setCaller_same] at hi
      · rw [setCaller_other _ _ _ _ hij] at hi
        exact List.mem_append_left _ (I1 ⟨i, r, e, hi⟩ k hk)
    · intro i r e h hi
      by_cases hij : i = j
      · subst hij
        have h1 : 1 ≤ pre.count i := List.count_pos_iff.mpr hjpre
        have h2 : (pre ++ [i]).count i = pre.count i + 1 := by simp [List.count_append]
        omega
      · rw [setCaller_other _ _ _ _ hij] at hi
        exact le_trans (I2 i r e h hi) (hcount i)
    · intro i k hi hk
      have hi2 : (p.callers i).passed = true := by
        by_cases hij : i = j
        · subst hij; simp [hc, Caller.passed]
        · rw [setCaller_other _ _ _ _ hij] at hi; exact hi
      have hk2 : (p.callers k).passed = true := by
        by_cases hkj : k = j
        · subst hkj; simp [hc, Caller.passed]
        · rw [setCaller_other _ _ _ _ hkj] at hk; exact hk
      exact I3 i k hi2 hk2
    · rw [Run_body_IsRunning, I4]
      constructor
      · rintro ⟨i, hi⟩
        refine ⟨i, ?_⟩
        by_cases hij : i = j
        · subst hij; simp [setCaller_same, Caller.inFlight]
        · rw [setCaller_other _ _ _ _ hij]; exact hi
      · rintro ⟨i, hi⟩
        refine ⟨i, ?_⟩
        by_cases hij : i = j
        · subst hij; simp [hc, Caller.inFlight]
        · rw [setCaller_other _ _ _ _ hij] at hi; exact hi
    · intro _
      exact ⟨j, by simp [setCaller_same, Caller.passed]⟩
  | unwinding r0 e0 h0 =>
    have hall : ∀ k < N, k ∈ pre := hsim (I2 j r0 e0 h0 hc)
    simp only
    unfold Pool.inv
    dsimp only
    refine ⟨setCaller_waiting _ _ _ _ I0 (by simp), ?_, ?_, ?_, ?_, ?_⟩
    · intro _ k hk
      exact List.mem_append_left _ (hall k hk)
    · intro i r e h hi
      by_cases hij : i = j
      · subst hij; simp [setCaller_same] at hi
      · rw [setCaller_other _ _ _ _ hij] at hi
        exact le_trans (I2 i r e h hi) (hcount i)
    · intro i k hi hk
      have hi2 : (p.callers i).passed = true := by
        by_cases hij : i = j
        · subst hij; simp [hc, Caller.passed]
        · rw [setCaller_other _ _ _ _ hij] at hi; exact hi
      have hk2 : (p.callers k).passed = true := by
        by_cases hkj : k = j
        · subst hkj; simp [hc, Caller.passed]
        · rw [setCaller_other _ _ _ _ hkj] at hk; exact hk
      exact I3 i k hi2 hk2
    · constructor
      · intro hr
        simp [Run_deferred] at hr
      · rintro ⟨i, hi⟩
        exfalso
        by_cases hij : i = j
        · subst hij; simp [setCaller_same, Caller.inFlight] at hi
        · rw [setCaller_other _ _ _ _ hij] at hi
          have hi2 : (p.callers i).passed = true := by
            cases hci : p.callers i <;> simp [hci, Caller.inFlight] at hi <;> rfl
          have hj2 : (p.callers j).passed = true := by simp [hc, Caller.passed]
          exact hij (I3 i j hi2 hj2)
    · intro _
      exact ⟨j, by simp [setCaller_same, Caller.passed]⟩
  | rejected =>
    have hjpre : j ∈ pre := by
      by_contra hn
      have := (I0 j).mpr hn
      rw [hc] at this
      cases this
    simp only
    unfold Pool.inv
    refine ⟨?_, ?_, ?_, I3, I4, ?_⟩
    · intro i
      rw [I0 i]
      by_cases hij : i = j
      · subst hij; simp [hjpre]
      · simp [hij]
    · intro hfin k hk
      exact List.mem_append_left _ (I1 hfin k hk)
    · intro i r e h hi
      exact le_trans (I2 i r e h hi) (hcount i)
    · intro _
      exact I5 (List.ne_nil_of_mem hjpre)
  | finished r0 e0 =>
    have hjpre : j ∈ pre := by
      by_contra hn
      have := (I0 j).mpr hn
      rw [hc] at this
      cases this
    simp only
    unfold Pool.inv
    refine ⟨?_, ?_, ?_, I3, I4, ?_⟩
    · intro i
      rw [I0 i]
      by_cases hij : i = j
      · subst hij; simp [hjpre]
      · simp [hij]
    · intro hfin k hk
      exact List.mem_append_left _ (I1 hfin k hk)
    · intro i r e h hi
      exact le_trans (I2 i r e h hi) (hcount i)
    · intro _
      exact I5 (List.ne_nil_of_mem hjpre)

/-- The steps of a schedule of simultaneous invocations keep the
invariant. -/
theorem Pool_exec_inv {σ : Type} (env : Env σ) (N : Nat) (post : List Nat) :
    ∀ (pre : List Nat) (p : Pool σ), (∀ i ∈ post, i < N) → simultaneous N pre post = true →
      Pool.inv N pre p → Pool.inv N (pre ++ post) (Pool.exec env post p) := by
  induction post with
  | nil =>
    intro pre p _ _ hinv
    simpa [Pool.exec] using hinv
  | cons j post ih =>
    intro pre p hlt hsim hinv
    simp only [simultaneous, Bool.and_eq_true, Bool.or_eq_true, decide_eq_true_eq] at hsim
    have hstep := Pool_step_inv env N pre p j (hlt j (List.mem_cons_self _ _))
      (fun h2 => hsim.1.resolve_left (by omega)) hinv
    have := ih (pre ++ [j]) (Pool.step env j p)
      (fun i hi => hlt i (List.mem_cons_of_mem _ hi)) hsim.2 hstep
    simpa [Pool.exec] using this

/-- Before any step, on an idle scraper, the invariant holds. -/
theorem Pool_start_inv {σ : Type} (N : Nat) (s : GCOScraper) (w : World σ)
    (h : s.IsRunning = false) : Pool.inv N [] (Pool.start s w) := by
  unfold Pool.inv Pool.start
  refine ⟨by simp, by simp, by simp, ?_, ?_, by simp⟩
  · intro i j hi
    simp [Caller.passed] at hi
  · simp [h, Caller.inFlight]

theorem Pool_exec_append {σ : Type} (env : Env σ) (a b : List Nat) (p : Pool σ) :
    Pool.exec env (a ++ b) p = Pool.exec env b (Pool.exec env a p) := by
  induction a generalizing p with
  | nil => rfl
  | cons i a ih => simp [Pool.exec, ih]

/-- An invocation that passed the guard stays so, whoever steps. -/
theorem Pool_step_passed {σ : Type} (env : Env σ) (k j : Nat) (p : Pool σ)
    (h : (p.callers j).passed = true) : ((Pool.step env k p).callers j).passed = true := by
  unfold Pool.step
  by_cases hkj : j = k
  · subst hkj
    cases hc : p.callers j <;> simp [hc, Caller.passed, setCaller_same] at h ⊢
  · cases hc : p.callers k with
    | waiting =>
      cases hg : Run_guard p.s <;> simp only <;> rw [setCaller_other _ _ _ _ hkj] <;> exact h
    | admitted => simp only; rw [setCaller_other _ _ _ _ hkj]; exact h
    | unwinding r e h0 => simp only; rw [setCaller_other _ _ _ _ hkj]; exact h
    | rejected => exact h
    | finished r e => exact h

theorem Pool_exec_passed {σ : Type} (env : Env σ) (post : List Nat) (j : Nat) :
    ∀ p : Pool σ, (p.callers j).passed = true →
      ((Pool.exec env post p).callers j).passed = true := by
  induction post with
  | nil => intro p h; exact h
  | cons k post ih =>
    intro p h
    exact ih _ (Pool_step_passed env k j p h)

/-- An invocation that was turned away stays so, whoever steps. -/
theorem Pool_step_rejected {σ : Type} (env : Env σ) (k j : Nat) (p : Pool σ)
    (h : p.callers j = .rejected) : (Pool.step env k p).callers j = .rejected := by
  unfold Pool.step
  by_cases hkj : j = k
  · subst hkj
    simp [h]
  · cases hc : p.callers k with
    | waiting =>
      cases hg : Run_guard p.s <;> simp only <;> rw [setCaller_other _ _ _ _ hkj] <;> exact h
    | admitted => simp only; rw [setCaller_other _ _ _ _ hkj]; exact h
    | unwinding r e h0 => simp only; rw [setCaller_other _ _ _ _ hkj]; exact h
    | rejected => exact h
    | finished r e => exact h

theorem Pool_exec_rejected {σ : Type} (env : Env σ) (post : List Nat) (j : Nat) :
    ∀ p : Pool σ, p.callers j = .rejected → (Pool.exec env post p).callers j = .rejected := by
  induction post with
  | nil => intro p h; exact h
  | cons k post ih =>
    intro p h
    exact ih _ (Pool_step_rejected env k j p h)

/-- A step of an invocation that ends up turned away leaves the scraper and
the world as they were. -/
theorem Pool_step_of_rejected {σ : Type} (env : Env σ) (j : Nat) (post : List Nat) (p : Pool σ)
    (h : (Pool.exec env post (Pool.step env j p)).callers j = .rejected) :
    (Pool.step env j p).s = p.s ∧ (Pool.step env j p).w = p.w := by
  have hnot : ((Pool.step env j p).callers j).passed = false := by
    cases hp : ((Pool.step env j p).callers j).passed with
    | false => rfl
    | true =>
      have := Pool_exec_passed env post j _ hp
      rw [h] at this
      cases this
  unfold Pool.step at hnot ⊢
  cases hc : p.callers j with
  | waiting =>
    cases hg : Run_guard p.s with
    | none => exact ⟨rfl, rfl⟩
    | some s1 => simp [hc, hg, setCaller_same, Caller.passed] at hnot
  | admitted => simp [hc, setCaller_same, Caller.passed] at hnot
  | unwinding r e h0 => simp [hc, setCaller_same, Caller.passed] at hnot
  | rejected => exact ⟨rfl, rfl⟩
  | finished r e => exact ⟨rfl, rfl⟩

/-- The first step of an invocation that passed the guard found the scraper
idle and marked it as running. -/
theorem Pool_step_of_passed {σ : Type} (env : Env σ) (j : Nat) (post : List Nat) (p : Pool σ)
    (hw : p.callers j = .waiting)
    (h : ((Pool.exec env post (Pool.step env j p)).callers j).passed = true) :
    p.s.IsRunning = false ∧
    (Pool.step env j p).s = { p.s with IsRunning := true, Status := .StatusRunning } ∧
    (Pool.step env j p).w = p.w := by
  unfold Pool.step at h ⊢
  rw [hw] at h ⊢
  simp only at h ⊢
  cases hr : p.s.IsRunning with
  | true =>
    have hg : Run_guard p.s = none := by simp [Run_guard, hr]
    rw [hg] at h
    simp only at h
    have := Pool_exec_rejected env post j
      { p with callers := setCaller p.callers j .rejected } (setCaller_same _ _ _)
    rw [this] at h
    cases h
  | false =>
    have hg : Run_guard p.s = some { p.s with IsRunning := true, Status := .StatusRunning } := by
      simp [Run_guard, hr]
    rw [hg]
    exact ⟨rfl, rfl, rfl⟩

/-- An invocation that was not scheduled yet is still waiting. -/
theorem Pool_exec_waiting {σ : Type} (env : Env σ) (pre : List Nat) (j : Nat) :
    ∀ p : Pool σ, p.callers j = .waiting → j ∉ pre →
      (Pool.exec env pre p).callers j = .waiting := by
  induction pre with
  | nil => intro p h _; exact h
  | cons k pre ih =>
    intro p h hj
    have hkj : j ≠ k := fun e => hj (by simp [e])
    refine ih _ ?_ (fun hm => hj (List.mem_cons_of_mem _ hm))
    unfold Pool.step
    cases hc : p.callers k with
    | waiting =>
      cases hg : Run_guard p.s <;> simp only <;> rw [setCaller_other _ _ _ _ hkj] <;> exact h
    | admitted => simp only; rw [setCaller_other _ _ _ _ hkj]; exact h
    | unwinding r e h0 => simp only; rw [setCaller_other _ _ _ _ hkj]; exact h
    | rejected => exact h
    | finished r e => exact h

/-- The first occurrence of a member of a list. -/
theorem first_occurrence (l : List Nat) (i : Nat) (h : i ∈ l) :
    ∃ pre post, l = pre ++ i :: post ∧ i ∉ pre := by
  induction l with
  | nil => cases h
  | cons a l ih =>
    by_cases hai : a = i
    · exact ⟨[], l, by simp [hai], by simp⟩
    · have hl : i ∈ l := by
        rcases List.mem_cons.mp h with h | h
        · exact absurd h.symm hai
        · exact h
      obtain ⟨pre, post, hsplit, hpre⟩ := ih hl
      refine ⟨a :: pre, post, by simp [hsplit], ?_⟩
      simp only [List.mem_cons, not_or]
      exact ⟨fun e => hai e.symm, hpre⟩

/-- C24. Let `N ≥ 2` invocations of `Run` run at once on an idle scraper,
their steps (guard, body, deferred block) interleaved in any order such that
each invocation reaches its guard before any of them has returned through
its deferred block. Then exactly one invocation passes the guard, finding the
scraper idle and marking it as running with status running; every other
invocation returns a nil result with the "already running" error, and none
of the steps of those other invocations changes the scraper or the outside
world. -/
theorem Run_single_flight {σ : Type} (env : Env σ) (N : Nat) (sched : List Nat)
    (s : GCOScraper) (w : World σ)
    (hN : 2 ≤ N) (hidle : s.IsRunning = false)
    (hin : ∀ i ∈ sched, i < N) (hall : ∀ i < N, i ∈ sched)
    (hsim : simultaneous N [] sched = true) :
    ∃ i, i < N ∧
      ((Pool.exec env sched (Pool.start s w)).callers i).passed = true ∧
      (∀ j, j < N → j ≠ i →
        (Pool.exec env sched (Pool.start s w)).callers j = .rejected ∧
        ((Pool.exec env sched (Pool.start s w)).callers j).returned =
          some (none, some (.errorf "el scraper ya está en ejecución"))) ∧
      (∀ j, ((Pool.exec env sched (Pool.start s w)).callers j).passed = true → j = i) ∧
      (∃ pre post, sched = pre ++ i :: post ∧ i ∉ pre ∧
        (Pool.exec env pre (Pool.start s w)).s.IsRunning = false ∧
        (Pool.exec env (pre ++ [i]) (Pool.start s w)).s =
          { (Pool.exec env pre (Pool.start s w)).s with
            IsRunning := true, Status := .StatusRunning } ∧
        (Pool.exec env (pre ++ [i]) (Pool.start s w)).w =
          (Pool.exec env pre (Pool.start s w)).w) ∧
      (∀ pre post j, sched = pre ++ j :: post → j ≠ i →
        (Pool.exec env (pre ++ [j]) (Pool.start s w)).s =
          (Pool.exec env pre (Pool.start s w)).s ∧
        (Pool.exec env (pre ++ [j]) (Pool.start s w)).w =
          (Pool.exec env pre (Pool.start s w)).w) := by
  have hinv := Pool_exec_inv env N sched [] (Pool.start s w) hin hsim
    (Pool_start_inv N s w hidle)
  rw [List.nil_append] at hinv
  obtain ⟨I0, _, _, I3, _, I5⟩ := hinv
  have hne : sched ≠ [] := List.ne_nil_of_mem (hall 0 (by omega))
  obtain ⟨i, hi⟩ := I5 hne
  have hisched : i ∈ sched := by
    by_contra hn
    have := (I0 i).mpr hn
    rw [this] at hi
    cases hi
  have hrej : ∀ j, j < N → j ≠ i →
      (Pool.exec env sched (Pool.start s w)).callers j = .rejected := by
    intro j hj hji
    have hnw : (Pool.exec env sched (Pool.start s w)).callers j ≠ .waiting :=
      fun hw => (I0 j).mp hw (hall j hj)
    have hnp : ((Pool.exec env sched (Pool.start s w)).callers j).passed ≠ true :=
      fun hp => hji (I3 j i hp hi)
    cases hc : (Pool.exec env sched (Pool.start s w)).callers j with
    | waiting => exact absurd hc hnw
    | rejected => rfl
    | admitted => simp [hc, Caller.passed] at hnp
    | unwinding r e h => simp [hc, Caller.passed] at hnp
    | finished r e => simp [hc, Caller.passed] at hnp
  refine ⟨i, hin i hisched, hi, ?_, fun j hj => I3 j i hj hi, ?_, ?_⟩
  · intro j hj hji
    refine ⟨hrej j hj hji, ?_⟩
    rw [hrej j hj hji]
    rfl
  · obtain ⟨pre, post, hsplit, hpre⟩ := first_occurrence sched i hisched
    refine ⟨pre, post, hsplit, hpre, ?_⟩
    have hw := Pool_exec_waiting env pre i (Pool.start s w) rfl hpre
    have hfin : Pool.exec env sched (Pool.start s w) =
        Pool.exec env post (Pool.step env i (Pool.exec env pre (Pool.start s w))) := by
      rw [hsplit, Pool_exec_append]
      rfl
    rw [hfin] at hi
    have := Pool_step_of_passed env i post _ hw hi
    rw [Pool_exec_append]
    exact this
  · intro pre post j hsplit hji
    have hjlt : j < N := hin j (by rw [hsplit]; simp)
    have hfin : Pool.exec env sched (Pool.start s w) =
        Pool.exec env post (Pool.step env j (Pool.exec env pre (Pool.start s w))) := by
      rw [hsplit, Pool_exec_append]
      rfl
    have hr := hrej j hjlt hji
    rw [hfin] at hr
    have := Pool_step_of_rejected env j post _ hr
    rw [Pool_exec_append]
    exact this

/-- Witness for C24: three invocations on the fresh scraper; invocation 2
takes the guard first and is admitted, invocations 0 and 1 reach their guards
while it runs and are turned away, and invocation 2 returns its four files. -/
theorem Run_single_flight_witness :
    (2 ≤ 3 ∧ scraper0.IsRunning = false ∧ (∀ i ∈ [2, 0, 2, 1, 2], i < 3) ∧
      (∀ i < 3, i ∈ [2, 0, 2, 1, 2]) ∧ simultaneous 3 [] [2, 0, 2, 1, 2] = true) ∧
    (∃ i, i < 3 ∧
      ((Pool.exec envAllOk [2, 0, 2, 1, 2] (Pool.start scraper0 script0)).callers i).passed
        = true ∧
      (∀ j, j < 3 → j ≠ i →
        (Pool.exec envAllOk [2, 0, 2, 1, 2] (Pool.start scraper0 script0)).callers j
          = .rejected ∧
        ((Pool.exec envAllOk [2, 0, 2, 1, 2] (Pool.start scraper0 script0)).callers j).returned =
          some (none, some (.errorf "el scraper ya está en ejecución"))) ∧
      (∀ j, ((Pool.exec envAllOk [2, 0, 2, 1, 2] (Pool.start scraper0 script0)).callers j).passed
        = true → j = i) ∧
      (∃ pre post, [2, 0, 2, 1, 2] = pre ++ i :: post ∧ i ∉ pre ∧
        (Pool.exec envAllOk pre (Pool.start scraper0 script0)).s.IsRunning = false ∧
        (Pool.exec envAllOk (pre ++ [i]) (Pool.start scraper0 script0)).s =
          { (Pool.exec envAllOk pre (Pool.start scraper0 script0)).s with
            IsRunning := true, Status := .StatusRunning } ∧
        (Pool.exec envAllOk (pre ++ [i]) (Pool.start scraper0 script0)).w =
          (Pool.exec envAllOk pre (Pool.start scraper0 script0)).w) ∧
      (∀ pre post j, [2, 0, 2, 1, 2] = pre ++ j :: post → j ≠ i →
        (Pool.exec envAllOk (pre ++ [j]) (Pool.start scraper0 script0)).s =
          (Pool.exec envAllOk pre (Pool.start scraper0 script0)).s ∧
        (Pool.exec envAllOk (pre ++ [j]) (Pool.start scraper0 script0)).w =
          (Pool.exec envAllOk pre (Pool.start scraper0 script0)).w)) ∧
    (Pool.exec envAllOk [2, 0, 2, 1, 2] (Pool.start scraper0 script0)).callers 0 = .rejected ∧
    (Pool.exec envAllOk [2, 0, 2, 1, 2] (Pool.start scraper0 script0)).callers 1 = .rejected ∧
    ((Pool.exec envAllOk [2, 0, 2, 1, 2] (Pool.start scraper0 script0)).callers 2).returned.map
      (fun o => (o.1.map (fun r => (r.Success, r.Files.length)), o.2)) =
        some (some (true, 4), none) ∧
    (Pool.exec envAllOk [2, 0, 2, 1, 2] (Pool.start scraper0 script0)).s =
      (Run envAllOk Context.Background scraper0 script0).s :=
  ⟨⟨by decide, by decide, by decide, by decide, by decide⟩,
    Run_single_flight envAllOk 3 [2, 0, 2, 1, 2] scraper0 script0 (by decide) (by decide)
      (by decide) (by decide) (by decide),
    by decide, by decide, by decide, by decide⟩

/-- Two invocations that do not overlap are both admitted: the second
reaches its guard after the first has returned through its deferred block
(this is the release of C6, not a breach of the guard). -/
theorem Pool_one_after_the_other :
    simultaneous 2 [] [0, 0, 0, 1, 1, 1] = false ∧
    ((Pool.exec envAllOk [0, 0, 0, 1, 1, 1] (Pool.start scraper0 script0)).callers 0).passed
      = true ∧
    ((Pool.exec envAllOk [0, 0, 0, 1, 1, 1] (Pool.start scraper0 script0)).callers 1).passed
      = true := by
  decide

/-! ## The directory scans -/

/-- A file that the scan for `*.csv` returns stands for a settled entry;
when its path is not the expected one, the scan has renamed it, and in any
case it has slept two seconds. -/
theorem csv_scan_rename (ep : String) (l : List ScanEntry) (file : String)
    (h : (waitForDownload_csv ep l).1 = some file) :
    ∃ e ∈ l, e.settled ∧
      (e.path ≠ ep → FsAction.rename e.path ep ∈ (waitForDownload_csv ep l).2) ∧
      FsAction.sleep (2 * second) ∈ (waitForDownload_csv ep l).2 := by
  induction l with
  | nil => simp [waitForDownload_csv] at h
  | cons e rest ih =>
    unfold waitForDownload_csv at h ⊢
    cases hi : e.info with
    | none =>
      simp only [hi] at h ⊢
      obtain ⟨e2, he2, h2⟩ := ih h
      exact ⟨e2, List.mem_cons_of_mem _ he2, h2⟩
    | some info =>
      simp only [hi] at h ⊢
      by_cases hc : info.recent = true ∧ info.size > 0
      · rw [if_pos hc] at h ⊢
        by_cases hf : e.final = some info.size
        · rw [if_pos hf] at h ⊢
          refine ⟨e, List.mem_cons_self _ _, ⟨info, hi, hc.1, hc.2, hf⟩, ?_, by simp⟩
          intro hp
          simp [hp]
        · rw [if_neg hf] at h ⊢
          obtain ⟨e2, he2, h2, h3, h4⟩ := ih h
          refine ⟨e2, List.mem_cons_of_mem _ he2, h2, ?_, ?_⟩
          · intro hp
            exact List.mem_append_right _ (h3 hp)
          · exact List.mem_append_right _ h4
      · rw [if_neg hc] at h ⊢
        obtain ⟨e2, he2, h2⟩ := ih h
        exact ⟨e2, List.mem_cons_of_mem _ he2, h2⟩

/-- A file that the scan for `*.xlsx` returns is the path, as listed, of a
fresh entry. -/
theorem xlsx_scan_some (l : List ScanEntry) (file : String)
    (h : waitForDownload_xlsx l = some file) :
    ∃ e ∈ l, file = e.path ∧ e.fresh := by
  induction l with
  | nil => simp [waitForDownload_xlsx] at h
  | cons e rest ih =>
    unfold waitForDownload_xlsx at h
    cases hi : e.info with
    | none =>
      simp only [hi] at h
      obtain ⟨e2, he2, h2⟩ := ih h
      exact ⟨e2, List.mem_cons_of_mem _ he2, h2⟩
    | some info =>
      simp only [hi] at h
      by_cases hc : info.recent = true ∧ info.size > 0
      · rw [if_pos hc] at h
        cases h
        exact ⟨e, List.mem_cons_self _ _, rfl, info, hi, hc.1, hc.2⟩
      · rw [if_neg hc] at h
        obtain ⟨e2, he2, h2⟩ := ih h
        exact ⟨e2, List.mem_cons_of_mem _ he2, h2⟩

/-- Every rename of the scan for `*.csv` moves a listed `*.csv` file, fresh
and not at the expected path, to the expected path. -/
theorem csv_scan_renames (ep : String) (l : List ScanEntry) (src dst : String)
    (h : FsAction.rename src dst ∈ (waitForDownload_csv ep l).2) :
    dst = ep ∧ src ≠ ep ∧ ∃ e ∈ l, e.path = src ∧ e.fresh := by
  induction l with
  | nil => simp [waitForDownload_csv] at h
  | cons e rest ih =>
    unfold waitForDownload_csv at h
    cases hi : e.info with
    | none =>
      simp only [hi] at h
      obtain ⟨h1, h2, e2, he2, h3⟩ := ih h
      exact ⟨h1, h2, e2, List.mem_cons_of_mem _ he2, h3⟩
    | some info =>
      simp only [hi] at h
      by_cases hc : info.recent = true ∧ info.size > 0
      · rw [if_pos hc] at h
        have hhere : FsAction.rename src dst ∈
            (if e.path ≠ ep then [FsAction.rename e.path ep] else []) →
            dst = ep ∧ src ≠ ep ∧ ∃ e2 ∈ e :: rest, e2.path = src ∧ e2.fresh := by
          intro hm
          by_cases hp : e.path = ep
          · simp [hp] at hm
          · simp only [ne_eq, hp, not_false_eq_true, if_true, List.mem_singleton,
              FsAction.rename.injEq] at hm
            refine ⟨hm.2, ?_, e, List.mem_cons_self _ _, hm.1.symm, info, hi, hc.1, hc.2⟩
            rw [hm.1]
            exact hp
        by_cases hf : e.final = some info.size
        · rw [if_pos hf] at h
          simp only [List.mem_append, List.mem_singleton] at h
          rcases h with h | h
          · exact hhere h
          · cases h
        · rw [if_neg hf] at h
          simp only [List.mem_append, List.mem_singleton] at h
          rcases h with (h | h) | h
          · exact hhere h
          · cases h
          · obtain ⟨h1, h2, e2, he2, h3⟩ := ih h
            exact ⟨h1, h2, e2, List.mem_cons_of_mem _ he2, h3⟩
      · rw [if_neg hc] at h
        obtain ⟨h1, h2, e2, he2, h3⟩ := ih h
        exact ⟨h1, h2, e2, List.mem_cons_of_mem _ he2, h3⟩

/-- What the loop comes to when it leaves through one of the scans, and what
its renames are. -/
theorem loop_scans (ep fn : String) (polls : List Poll) :
    ∀ (ls : Int) (c n : Nat) (acts : List FsAction) (obs : List Int),
      ((waitForDownload_loop ep fn polls ls c n acts obs).exit = .csvScan →
        (waitForDownload_loop ep fn polls ls c n acts obs).path = ep ∧
        (waitForDownload_loop ep fn polls ls c n acts obs).err = none ∧
        ∃ poll ∈ polls, ∃ e ∈ poll.csv, e.settled ∧
          (e.path ≠ ep → FsAction.rename e.path ep ∈
            (waitForDownload_loop ep fn polls ls c n acts obs).actions)) ∧
      ((waitForDownload_loop ep fn polls ls c n acts obs).exit = .xlsxScan →
        (waitForDownload_loop ep fn polls ls c n acts obs).err = none ∧
        ∃ poll ∈ polls, (waitForDownload_csv ep poll.csv).1 = none ∧
          ∃ e ∈ poll.xlsx,
            (waitForDownload_loop ep fn polls ls c n acts obs).path = e.path ∧ e.fresh) ∧
      (∀ src dst : String,
        FsAction.rename src dst ∈ (waitForDownload_loop ep fn polls ls c n acts obs).actions →
        FsAction.rename src dst ∈ acts ∨
          (dst = ep ∧ src ≠ ep ∧ ∃ poll ∈ polls, ∃ e ∈ poll.csv, e.path = src ∧ e.fresh)) := by
  induction polls with
  | nil =>
    intro ls c n acts obs
    simp [waitForDownload_loop]
  | cons poll rest ih =>
    intro ls c n acts obs
    have hren : ∀ src dst : String,
        FsAction.rename src dst ∈ acts ++ (waitForDownload_csv ep poll.csv).2 →
        FsAction.rename src dst ∈ acts ∨
          (dst = ep ∧ src ≠ ep ∧
            ∃ p2 ∈ poll :: rest, ∃ e ∈ p2.csv, e.path = src ∧ e.fresh) := by
      intro src dst hm
      rcases List.mem_append.mp hm with hm | hm
      · exact Or.inl hm
      · obtain ⟨h1, h2, e, he, h3⟩ := csv_scan_renames ep poll.csv src dst hm
        exact Or.inr ⟨h1, h2, poll, List.mem_cons_self _ _, e, he, h3⟩
    unfold waitForDownload_loop
    cases hchk : (waitForDownload_check ls c poll.expected).1 with
    | true =>
      simp only [if_true]
      refine ⟨by simp, by simp, ?_⟩
      intro src dst hm
      exact Or.inl hm
    | false =>
      simp only [Bool.false_eq_true, if_false]
      cases hcsv : (waitForDownload_csv ep poll.csv).1 with
      | some file =>
        simp only
        obtain ⟨h1, _⟩ := csv_scan_some ep poll.csv file hcsv
        obtain ⟨e, he, h2, h3, _⟩ := csv_scan_rename ep poll.csv file hcsv
        refine ⟨?_, by simp, hren⟩
        intro _
        exact ⟨h1, trivial, poll, List.mem_cons_self _ _, e, he, h2,
          fun hp => List.mem_append_right _ (h3 hp)⟩
      | none =>
        simp only
        cases hxl : waitForDownload_xlsx poll.xlsx with
        | some file =>
          simp only
          obtain ⟨e, he, h1, h2⟩ := xlsx_scan_some poll.xlsx file hxl
          refine ⟨by simp, ?_, hren⟩
          intro _
          exact ⟨trivial, poll, List.mem_cons_self _ _, hcsv, e, he, h1, h2⟩
        | none =>
          simp only
          obtain ⟨k1, k2, k3⟩ := ih (waitForDownload_check ls c poll.expected).2.1
            (waitForDownload_check ls c poll.expected).2.2 (n + 1)
            (acts ++ (waitForDownload_csv ep poll.csv).2 ++ [.sleep second])
            (observe obs poll.expected)
          refine ⟨?_, ?_, ?_⟩
          · intro hx
            obtain ⟨a1, a2, p2, hp2, a3⟩ := k1 hx
            exact ⟨a1, a2, p2, List.mem_cons_of_mem _ hp2, a3⟩
          · intro hx
            obtain ⟨a1, p2, hp2, a3⟩ := k2 hx
            exact ⟨a1, p2, List.mem_cons_of_mem _ hp2, a3⟩
          · intro src dst hm
            rcases k3 src dst hm with hm2 | ⟨a1, a2, p2, hp2, a3⟩
            · have hm3 : FsAction.rename src dst ∈
                  acts ++ (waitForDownload_csv ep poll.csv).2 := by
                simpa using hm2
              exact hren src dst hm3
            · exact Or.inr ⟨a1, a2, p2, List.mem_cons_of_mem _ hp2, a3⟩

/-- C21, as amended. The scans of the download directory are made at every
poll that the loop reaches and at which the stability count does not
complete, whether or not the expected file is there. At such a poll, if a
listed `*.csv` file is settled (modified within the last two minutes, not
empty, and of the same size at the single re-check two seconds later), the
loop returns the expected path at that poll, and it has renamed to the
expected path every fresh file it came to whose path is another, the settled
one included (sixth part); if none is settled and a listed `*.xlsx` file is
fresh (modified within the last two minutes and not empty), the loop returns
at that poll the path of the first such file, as listed (seventh part).
Conversely a return through the scan for `*.csv` rests on a settled file of
some poll and gives the expected path (first part), a return through the
scan for `*.xlsx` gives the path of a fresh `*.xlsx` file at a poll without a
settled `*.csv` file (second part), and the only renames ever made move a
fresh `*.csv` file to the expected path (third part): a `*.xlsx` file is not
renamed and not re-checked. The fourth and fifth parts give the whole
outcome at the first poll. -/
theorem waitForDownload_scans (d : Downloader) (fn : String) (polls : List Poll) :
    ((d.waitForDownload fn polls).exit = .csvScan →
      (d.waitForDownload fn polls).path = filepathJoin d.DownloadDir fn ∧
      (d.waitForDownload fn polls).err = none ∧
      ∃ poll ∈ polls, ∃ e ∈ poll.csv, e.settled ∧
        (e.path ≠ filepathJoin d.DownloadDir fn →
          FsAction.rename e.path (filepathJoin d.DownloadDir fn) ∈
            (d.waitForDownload fn polls).actions)) ∧
    ((d.waitForDownload fn polls).exit = .xlsxScan →
      (d.waitForDownload fn polls).err = none ∧
      ∃ poll ∈ polls, (waitForDownload_csv (filepathJoin d.DownloadDir fn) poll.csv).1 = none ∧
        ∃ e ∈ poll.xlsx, (d.waitForDownload fn polls).path = e.path ∧ e.fresh) ∧
    (∀ src dst : String, FsAction.rename src dst ∈ (d.waitForDownload fn polls).actions →
      dst = filepathJoin d.DownloadDir fn ∧ src ≠ filepathJoin d.DownloadDir fn ∧
      ∃ poll ∈ polls, ∃ e ∈ poll.csv, e.path = src ∧ e.fresh) ∧
    (∀ (x : Option Int) (e : ScanEntry) (rest xl : List ScanEntry), e.settled →
      d.waitForDownload fn ({ expected := x, csv := e :: rest, xlsx := xl } :: polls) =
        { path := filepathJoin d.DownloadDir fn, err := none, exit := .csvScan, polls := 1,
          actions :=
            (if e.path ≠ filepathJoin d.DownloadDir fn then
              [FsAction.rename e.path (filepathJoin d.DownloadDir fn)] else []) ++
              [FsAction.sleep (2 * second)],
          observed := observe [] x }) ∧
    (∀ (x : Option Int) (e : ScanEntry) (rest : List ScanEntry), e.fresh →
      d.waitForDownload fn ({ expected := x, csv := [], xlsx := e :: rest } :: polls) =
        { path := e.path, err := none, exit := .xlsxScan, polls := 1, actions := [],
          observed := observe [] x }) ∧
    (∀ (poll : Poll) (post : List Poll),
      (d.waitForDownload fn polls).exit = .timeout → (∃ e ∈ poll.csv, e.settled) →
      (d.waitForDownload fn (polls ++ poll :: post)).polls = polls.length + 1 ∧
      (d.waitForDownload fn (polls ++ poll :: post)).path = filepathJoin d.DownloadDir fn ∧
      (d.waitForDownload fn (polls ++ poll :: post)).err = none ∧
      ((d.waitForDownload fn (polls ++ poll :: post)).exit = .stable ∨
        (d.waitForDownload fn (polls ++ poll :: post)).exit = .csvScan) ∧
      (poll.expected = none →
        (d.waitForDownload fn (polls ++ poll :: post)).exit = .csvScan) ∧
      (∀ (cpre : List ScanEntry) (e : ScanEntry) (cpost : List ScanEntry),
        poll.csv = cpre ++ e :: cpost → e.fresh → (∀ e2 ∈ cpre, ¬ e2.settled) →
        (d.waitForDownload fn (polls ++ poll :: post)).exit = .csvScan →
        e.path ≠ filepathJoin d.DownloadDir fn →
        FsAction.rename e.path (filepathJoin d.DownloadDir fn) ∈
          (d.waitForDownload fn (polls ++ poll :: post)).actions)) ∧
    (∀ (poll : Poll) (after : List Poll) (before : List ScanEntry) (e : ScanEntry)
        (behind : List ScanEntry),
      (d.waitForDownload fn polls).exit = .timeout → (∀ e2 ∈ poll.csv, ¬ e2.settled) →
      poll.xlsx = before ++ e :: behind → e.fresh → (∀ e2 ∈ before, ¬ e2.fresh) →
      (d.waitForDownload fn (polls ++ poll :: after)).polls = polls.length + 1 ∧
      (d.waitForDownload fn (polls ++ poll :: after)).err = none ∧
      (((d.waitForDownload fn (polls ++ poll :: after)).exit = .stable ∧
          (d.waitForDownload fn (polls ++ poll :: after)).path =
            filepathJoin d.DownloadDir fn) ∨
        ((d.waitForDownload fn (polls ++ poll :: after)).exit = .xlsxScan ∧
          (d.waitForDownload fn (polls ++ poll :: after)).path = e.path)) ∧
      (poll.expected = none →
        (d.waitForDownload fn (polls ++ poll :: after)).exit = .xlsxScan ∧
        (d.waitForDownload fn (polls ++ poll :: after)).path = e.path)) := by
  have hfirst : ∀ x : Option Int, (waitForDownload_check (-1) 0 x).1 = false := by
    intro x
    cases x with
    | none => rfl
    | some cur =>
      simp only [waitForDownload_check]
      by_cases hc : cur = -1 ∧ cur > 0
      · omega
      · rw [if_neg hc]
  obtain ⟨h1, h2, h3⟩ := loop_scans (filepathJoin d.DownloadDir fn) fn polls (-1) 0 0 [] []
  refine ⟨h1, h2, ?_, ?_, ?_, ?_, ?_⟩
  · intro src dst hm
    rcases h3 src dst hm with h | h
    · cases h
    · exact h
  · rintro x e rest xl ⟨info, hi, hr, hs, hf⟩
    unfold Downloader.waitForDownload waitForDownload_loop
    simp only [hfirst, Bool.false_eq_true, if_false]
    have hcsv : waitForDownload_csv (filepathJoin d.DownloadDir fn) (e :: rest) =
        (some (filepathJoin d.DownloadDir fn),
          (if e.path ≠ filepathJoin d.DownloadDir fn then
            [FsAction.rename e.path (filepathJoin d.DownloadDir fn)] else []) ++
            [FsAction.sleep (2 * second)]) := by
      unfold waitForDownload_csv
      simp only [hi, hr, hs, hf, and_self, if_true]
      by_cases hp : e.path = filepathJoin d.DownloadDir fn
      · simp [hp]
      · simp [hp]
    rw [hcsv]
    simp
  · rintro x e rest ⟨info, hi, hr, hs⟩
    unfold Downloader.waitForDownload waitForDownload_loop
    simp only [hfirst, Bool.false_eq_true, if_false]
    have hx : waitForDownload_xlsx (e :: rest) = some e.path := by
      unfold waitForDownload_xlsx
      simp [hi, hr, hs]
    rw [hx]
    simp [waitForDownload_csv]
  · intro poll post hpre hset
    obtain ⟨k1, k2, k3, k4, k5, k6⟩ :=
      (loop_scan_forward (filepathJoin d.DownloadDir fn) fn polls poll post (-1) 0 0 [] []
        hpre).1 hset
    refine ⟨?_, k2, k3, k4, k5, k6⟩
    unfold Downloader.waitForDownload
    rw [k1]
    omega
  · intro poll after before e behind hpre hno hsplit hf hxno
    obtain ⟨k1, k2, k3, k4⟩ :=
      (loop_scan_forward (filepathJoin d.DownloadDir fn) fn polls poll after (-1) 0 0 [] []
        hpre).2 hno before e behind hsplit hf hxno
    refine ⟨?_, k2, k3, k4⟩
    unfold Downloader.waitForDownload
    rw [k1]
    omega

/-- Witness for C21 as amended: next to an old `CLIENTES.csv` the directory
holds a fresh `descarga.csv`; the scan renames it over the expected file and
returns the expected path, at the first poll and, just the same, at the
second poll after a first one that showed nothing; and a fresh `export.xlsx`
is returned under its own path at the second poll. -/
theorem waitForDownload_scans_witness :
    (downloader0.waitForDownload "CLIENTES.csv" [pollStray]).exit = .csvScan ∧
    ((downloader0.waitForDownload "CLIENTES.csv" [pollStray]).path =
        filepathJoin downloader0.DownloadDir "CLIENTES.csv" ∧
      (downloader0.waitForDownload "CLIENTES.csv" [pollStray]).err = none ∧
      ∃ poll ∈ [pollStray], ∃ e ∈ poll.csv, e.settled ∧
        (e.path ≠ filepathJoin downloader0.DownloadDir "CLIENTES.csv" →
          FsAction.rename e.path (filepathJoin downloader0.DownloadDir "CLIENTES.csv") ∈
            (downloader0.waitForDownload "CLIENTES.csv" [pollStray]).actions)) ∧
    (downloader0.waitForDownload "CLIENTES.csv" [pollStray]).actions =
      [FsAction.rename "/opt/soriano/backend/CSV/scraped/descarga.csv"
        "/opt/soriano/backend/CSV/scraped/CLIENTES.csv", FsAction.sleep (2 * second)] ∧
    (downloader0.waitForDownload "CLIENTES.csv" [pollGone]).exit = .timeout ∧
    ((downloader0.waitForDownload "CLIENTES.csv" ([pollGone] ++ pollStray :: [])).polls =
        [pollGone].length + 1 ∧
      (downloader0.waitForDownload "CLIENTES.csv" ([pollGone] ++ pollStray :: [])).path =
        filepathJoin downloader0.DownloadDir "CLIENTES.csv" ∧
      (downloader0.waitForDownload "CLIENTES.csv" ([pollGone] ++ pollStray :: [])).err = none) ∧
    ((downloader0.waitForDownload "CLIENTES.csv" ([pollGone] ++ pollXlsx :: [])).polls =
        [pollGone].length + 1 ∧
      (downloader0.waitForDownload "CLIENTES.csv" ([pollGone] ++ pollXlsx :: [])).err = none) ∧
    (downloader0.waitForDownload "CLIENTES.csv" [pollGone, pollXlsx]).path =
      "/opt/soriano/backend/CSV/scraped/export.xlsx" ∧
    (downloader0.waitForDownload "CLIENTES.csv" [pollGone, pollXlsx]).actions =
      [FsAction.sleep second] :=
  ⟨by decide,
    (waitForDownload_scans downloader0 "CLIENTES.csv" [pollStray]).1 (by decide),
    by decide, by decide,
    ⟨((waitForDownload_scans downloader0 "CLIENTES.csv" [pollGone]).2.2.2.2.2.1 pollStray []
        (by decide)
        ⟨_, List.mem_cons_of_mem _ (List.mem_cons_self _ _), ⟨_, rfl, rfl, by decide, rfl⟩⟩).1,
      ((waitForDownload_scans downloader0 "CLIENTES.csv" [pollGone]).2.2.2.2.2.1 pollStray []
        (by decide)
        ⟨_, List.mem_cons_of_mem _ (List.mem_cons_self _ _),
          ⟨_, rfl, rfl, by decide, rfl⟩⟩).2.1,
      ((waitForDownload_scans downloader0 "CLIENTES.csv" [pollGone]).2.2.2.2.2.1 pollStray []
        (by decide)
        ⟨_, List.mem_cons_of_mem _ (List.mem_cons_self _ _),
          ⟨_, rfl, rfl, by decide, rfl⟩⟩).2.2.1⟩,
    ⟨((waitForDownload_scans downloader0 "CLIENTES.csv" [pollGone]).2.2.2.2.2.2 pollXlsx []
        [] _ [] (by decide) (by simp [pollXlsx]) rfl ⟨_, rfl, rfl, by decide⟩ (by simp)).1,
      ((waitForDownload_scans downloader0 "CLIENTES.csv" [pollGone]).2.2.2.2.2.2 pollXlsx []
        [] _ [] (by decide) (by simp [pollXlsx]) rfl ⟨_, rfl, rfl, by decide⟩ (by simp)).2.1⟩,
    by decide, by decide⟩

/-- Counterexample to C21 as stated. With the expected file absent and a
fresh `export.xlsx` in the directory, `waitForDownload` returns at the first
poll the path of the spreadsheet itself, not the expected path, having
renamed nothing and re-checked nothing. And with the expected file present,
the scan is made all the same and returns, at the first poll, a fresh
`descarga.csv` renamed over it. -/
theorem waitForDownload_scan_returns_xlsx :
    downloader0.waitForDownload "CLIENTES.csv" [pollXlsx] =
      { path := "/opt/soriano/backend/CSV/scraped/export.xlsx", err := none, exit := .xlsxScan,
        polls := 1, actions := [], observed := [] } ∧
    (downloader0.waitForDownload "CLIENTES.csv" [pollXlsx]).path ≠
      filepathJoin downloader0.DownloadDir "CLIENTES.csv" ∧
    pollStray.expected = some 512 ∧
    downloader0.waitForDownload "CLIENTES.csv" [pollStray] =
      { path := "/opt/soriano/backend/CSV/scraped/CLIENTES.csv", err := none, exit := .csvScan,
        polls := 1,
        actions := [FsAction.rename "/opt/soriano/backend/CSV/scraped/descarga.csv"
          "/opt/soriano/backend/CSV/scraped/CLIENTES.csv", FsAction.sleep (2 * second)],
        observed := [512] } := by
  decide

/-! ## The order of the menu candidates -/

/-- A character list begins with itself. -/
theorem isPrefixOf_append_self (sub b : List Char) : sub.isPrefixOf (sub ++ b) = true := by
  induction sub with
  | nil => simp [List.isPrefixOf]
  | cons c cs ih => simp [List.isPrefixOf, ih]

/-- A character list contains what stands in its middle. -/
theorem containsChars_mid (sub a b : List Char) : containsChars sub (a ++ (sub ++ b)) = true := by
  induction a with
  | nil =>
    cases hs : sub ++ b with
    | nil =>
      have hsub : sub = [] := (List.append_eq_nil.mp hs).1
      simp [containsChars, hsub]
    | cons c cs =>
      simp only [List.nil_append, hs, containsChars, Bool.or_eq_true]
      left
      rw [← hs]
      exact isPrefixOf_append_self sub b
  | cons x a ih =>
    simp only [List.cons_append, containsChars, Bool.or_eq_true]
    right
    exact ih

/-- A text contains what stands in its middle. -/
theorem stringsContains_mid (pre sub post : String) :
    stringsContains (pre ++ sub ++ post) sub = true := by
  unfold stringsContains
  simp only [String.data_append, List.append_assoc]
  exact containsChars_mid sub.data pre.data post.data

/-- The first three candidates of `clickMenu` hold `:contains`, whatever the
menu item. -/
theorem menuSelectors_head (toLower : String → String) (menuItem : String) :
    ∃ (s1 s2 s3 : String) (rest : List String),
      menuSelectors toLower menuItem = s1 :: s2 :: s3 :: rest ∧
      stringsContains s1 ":contains" = true ∧ stringsContains s2 ":contains" = true ∧
      stringsContains s3 ":contains" = true := by
  refine ⟨_, _, _, _, rfl, ?_, ?_, ?_⟩
  · have h : "a:contains(\"" ++ menuItem ++ "\")" =
        "a" ++ ":contains" ++ ("(\"" ++ menuItem ++ "\")") := by
      simp [String.ext_iff, String.data_append]
    rw [h]
    exact stringsContains_mid _ _ _
  · have h : "span:contains(\"" ++ menuItem ++ "\")" =
        "span" ++ ":contains" ++ ("(\"" ++ menuItem ++ "\")") := by
      simp [String.ext_iff, String.data_append]
    rw [h]
    exact stringsContains_mid _ _ _
  · have h : "li:contains(\"" ++ menuItem ++ "\") > a" =
        "li" ++ ":contains" ++ ("(\"" ++ menuItem ++ "\") > a") := by
      simp [String.ext_iff, String.data_append]
    rw [h]
    exact stringsContains_mid _ _ _

/-- One turn of the loop of `clickMenu` on a candidate that holds
`:contains`: the text search, and nothing else. -/
theorem clickMenu_loop_text {σ : Type} (b : Browser σ) (t sel : String) (rest : List String)
    (w : Page σ) (h : stringsContains sel ":contains" = true) :
    clickMenu_loop b t (sel :: rest) w =
      if (b.menuSearch t w.st).1 = some true then
        (true, { st := (b.menuSearch t w.st).2, trace := w.trace ++ [.menuSearch t] })
      else
        clickMenu_loop b t rest
          { st := (b.menuSearch t w.st).2, trace := w.trace ++ [.menuSearch t] } := by
  rw [clickMenu_loop]
  simp [h]

/-- The loop of `clickMenu` only adds to the trace. -/
theorem clickMenu_loop_trace {σ : Type} (b : Browser σ) (t : String) (sels : List String) :
    ∀ w : Page σ, ∃ added : List NavEvent,
      (clickMenu_loop b t sels w).2.trace = w.trace ++ added ∧
      ∀ ev ∈ added, ev.ofMenu = true := by
  induction sels with
  | nil =>
    intro w
    exact ⟨[], by simp [clickMenu_loop], by simp⟩
  | cons sel rest ih =>
    intro w
    rw [clickMenu_loop]
    dsimp only
    split
    · split
      · exact ⟨[.menuSearch t], rfl, by simp [NavEvent.ofMenu]⟩
      · obtain ⟨added, h1, h2⟩ := ih
          { st := (b.menuSearch t w.st).2, trace := w.trace ++ [.menuSearch t] }
        refine ⟨.menuSearch t :: added, by rw [h1]; simp, ?_⟩
        intro ev hev
        rcases List.mem_cons.mp hev with h | h
        · rw [h]; rfl
        · exact h2 ev h
    · split
      · split
        · exact ⟨[.query sel, .click sel], by simp, by simp [NavEvent.ofMenu]⟩
        · obtain ⟨added, h1, h2⟩ := ih
            { st := (b.click sel (b.query sel w.st).2).2,
              trace := w.trace ++ [.query sel] ++ [.click sel] }
          refine ⟨.query sel :: .click sel :: added, by rw [h1]; simp, ?_⟩
          intro ev hev
          simp only [List.mem_cons] at hev
          rcases hev with h | h | h
          · rw [h]; rfl
          · rw [h]; rfl
          · exact h2 ev h
      · obtain ⟨added, h1, h2⟩ := ih
          { st := (b.query sel w.st).2, trace := w.trace ++ [.query sel] }
        refine ⟨.query sel :: added, by rw [h1]; simp, ?_⟩
        intro ev hev
        rcases List.mem_cons.mp hev with h | h
        · rw [h]; rfl
        · exact h2 ev h

/-- The first three turns of the loop of `clickMenu`. -/
theorem clickMenu_loop_three {σ : Type} (b : Browser σ) (t s1 s2 s3 : String)
    (rest : List String) (w : Page σ)
    (h1 : stringsContains s1 ":contains" = true) (h2 : stringsContains s2 ":contains" = true)
    (h3 : stringsContains s3 ":contains" = true) :
    clickMenu_loop b t (s1 :: s2 :: s3 :: rest) w =
      if (b.menuSearch t w.st).1 = some true then
        (true, { st := (b.menuSearch t w.st).2, trace := w.trace ++ [.menuSearch t] })
      else if (b.menuSearch t (b.menuSearch t w.st).2).1 = some true then
        (true, { st := (b.menuSearch t (b.menuSearch t w.st).2).2,
                 trace := w.trace ++ [.menuSearch t, .menuSearch t] })
      else if (b.menuSearch t (b.menuSearch t (b.menuSearch t w.st).2).2).1 = some true then
        (true, { st := (b.menuSearch t (b.menuSearch t (b.menuSearch t w.st).2).2).2,
                 trace := w.trace ++ [.menuSearch t, .menuSearch t, .menuSearch t] })
      else
        clickMenu_loop b t rest
          { st := (b.menuSearch t (b.menuSearch t (b.menuSearch t w.st).2).2).2,
            trace := w.trace ++ [.menuSearch t, .menuSearch t, .menuSearch t] } := by
  rw [clickMenu_loop_text b t s1 _ w h1]
  split
  · rfl
  · rw [clickMenu_loop_text b t s2 _ _ h2]
    split
    · simp
    · rw [clickMenu_loop_text b t s3 _ _ h3]
      split
      · simp
      · simp

/-- What `clickMenu` returns, by what its loop returns. -/
theorem clickMenu_of_loop {σ : Type} (b : Browser σ) (menuItem : String) (w : Page σ) :
    (Downloader.clickMenu b menuItem w).2 =
      (clickMenu_loop b (b.toLower menuItem) (menuSelectors b.toLower menuItem) w).2 ∧
    ((clickMenu_loop b (b.toLower menuItem) (menuSelectors b.toLower menuItem) w).1 = true →
      (Downloader.clickMenu b menuItem w).1 = none) ∧
    ((clickMenu_loop b (b.toLower menuItem) (menuSelectors b.toLower menuItem) w).1 = false →
      (Downloader.clickMenu b menuItem w).1 =
        some (.errorf ("no se encontró elemento de menú: " ++ menuItem))) := by
  unfold Downloader.clickMenu
  split
  · rename_i h
    exact ⟨rfl, fun _ => rfl, fun h2 => by rw [h] at h2; cases h2⟩
  · rename_i h
    exact ⟨rfl, fun h2 => absurd h2 h, fun _ => rfl⟩

/-- C25, as amended. For every menu label, `clickMenu` begins with the
free-text search: its first call on the browser is the script that looks for
the lower-cased label among the `a`, `span`, `li`, `button` and `div` elements
and clicks the first hit, because its first three candidates hold
`:contains`; when that search clicks, `clickMenu` returns nil having made no
other call, whatever the structural candidates would match; and a structural
candidate is queried or clicked only after three text searches in a row have
clicked nothing. -/
theorem clickMenu_text_first {σ : Type} (b : Browser σ) (menuItem : String) (w : Page σ) :
    (∃ rest : List NavEvent,
      (Downloader.clickMenu b menuItem w).2.trace =
        w.trace ++ NavEvent.menuSearch (b.toLower menuItem) :: rest) ∧
    ((b.menuSearch (b.toLower menuItem) w.st).1 = some true →
      (Downloader.clickMenu b menuItem w).1 = none ∧
      (Downloader.clickMenu b menuItem w).2.st = (b.menuSearch (b.toLower menuItem) w.st).2 ∧
      (Downloader.clickMenu b menuItem w).2.trace =
        w.trace ++ [NavEvent.menuSearch (b.toLower menuItem)]) ∧
    (∀ sel : String,
      (NavEvent.query sel ∈ (Downloader.clickMenu b menuItem w).2.trace.drop w.trace.length ∨
        NavEvent.click sel ∈ (Downloader.clickMenu b menuItem w).2.trace.drop w.trace.length) →
      (b.menuSearch (b.toLower menuItem) w.st).1 ≠ some true ∧
      (b.menuSearch (b.toLower menuItem)
        (b.menuSearch (b.toLower menuItem) w.st).2).1 ≠ some true ∧
      (b.menuSearch (b.toLower menuItem)
        (b.menuSearch (b.toLower menuItem)
          (b.menuSearch (b.toLower menuItem) w.st).2).2).1 ≠ some true ∧
      ∃ rest : List NavEvent,
        (Downloader.clickMenu b menuItem w).2.trace =
          w.trace ++ NavEvent.menuSearch (b.toLower menuItem) ::
            NavEvent.menuSearch (b.toLower menuItem) ::
            NavEvent.menuSearch (b.toLower menuItem) :: rest) := by
  obtain ⟨s1, s2, s3, rest, hsel, h1, h2, h3⟩ := menuSelectors_head b.toLower menuItem
  obtain ⟨hw, hok, _⟩ := clickMenu_of_loop b menuItem w
  have hthree := clickMenu_loop_three b (b.toLower menuItem) s1 s2 s3 rest w h1 h2 h3
  rw [← hsel] at hthree
  generalize clickMenu_loop b (b.toLower menuItem) (menuSelectors b.toLower menuItem) w = x
    at hw hok hthree
  generalize Downloader.clickMenu b menuItem w = y at hw hok
  generalize b.toLower menuItem = t at hthree ⊢
  by_cases c1 : (b.menuSearch t w.st).1 = some true
  · rw [if_pos c1] at hthree
    have hy : y.2 = { st := (b.menuSearch t w.st).2, trace := w.trace ++ [.menuSearch t] } := by
      rw [hw, hthree]
    refine ⟨⟨[], by rw [hy]⟩, fun _ => ⟨hok (by rw [hthree]), by rw [hy], by rw [hy]⟩, ?_⟩
    intro sel hq
    rw [hy] at hq
    simp at hq
  · rw [if_neg c1] at hthree
    refine ⟨?_, fun h => absurd h c1, ?_⟩
    · by_cases c2 : (b.menuSearch t (b.menuSearch t w.st).2).1 = some true
      · rw [if_pos c2] at hthree
        exact ⟨[.menuSearch t], by rw [hw, hthree]⟩
      · rw [if_neg c2] at hthree
        by_cases c3 : (b.menuSearch t (b.menuSearch t (b.menuSearch t w.st).2).2).1 = some true
        · rw [if_pos c3] at hthree
          exact ⟨[.menuSearch t, .menuSearch t], by rw [hw, hthree]⟩
        · rw [if_neg c3] at hthree
          obtain ⟨added, ha, _⟩ := clickMenu_loop_trace b t rest
            { st := (b.menuSearch t (b.menuSearch t (b.menuSearch t w.st).2).2).2,
              trace := w.trace ++ [.menuSearch t, .menuSearch t, .menuSearch t] }
          refine ⟨.menuSearch t :: .menuSearch t :: added, ?_⟩
          rw [hw, hthree, ha]
          simp
    · intro sel hq
      by_cases c2 : (b.menuSearch t (b.menuSearch t w.st).2).1 = some true
      · rw [if_pos c2] at hthree
        rw [hw, hthree] at hq
        simp at hq
      · rw [if_neg c2] at hthree
        by_cases c3 : (b.menuSearch t (b.menuSearch t (b.menuSearch t w.st).2).2).1 = some true
        · rw [if_pos c3] at hthree
          rw [hw, hthree] at hq
          simp at hq
        · rw [if_neg c3] at hthree
          obtain ⟨added, ha, _⟩ := clickMenu_loop_trace b t rest
            { st := (b.menuSearch t (b.menuSearch t (b.menuSearch t w.st).2).2).2,
              trace := w.trace ++ [.menuSearch t, .menuSearch t, .menuSearch t] }
          refine ⟨c1, c2, c3, added, ?_⟩
          rw [hw, hthree, ha]
          simp

/-- Witness for C25 as amended: on a portal where the text search finds
"cartera", `clickMenu` makes that one call; on a portal where it finds nothing
and an element with `data-menu="Cartera"` exists, the structural candidate is
queried and clicked after three text searches. -/
theorem clickMenu_text_first_witness :
    ((siteBrowser siteBoth).menuSearch ((siteBrowser siteBoth).toLower "Cartera") page0.st).1
      = some true ∧
    ((Downloader.clickMenu (siteBrowser siteBoth) "Cartera" page0).1 = none ∧
      (Downloader.clickMenu (siteBrowser siteBoth) "Cartera" page0).2.st =
        ((siteBrowser siteBoth).menuSearch ((siteBrowser siteBoth).toLower "Cartera")
          page0.st).2 ∧
      (Downloader.clickMenu (siteBrowser siteBoth) "Cartera" page0).2.trace =
        page0.trace ++ [NavEvent.menuSearch ((siteBrowser siteBoth).toLower "Cartera")]) ∧
    (menuSelectors asciiLower "Cartera").map (fun sel => stringsContains sel ":contains") =
      [true, true, true, false, false, false, true, true] ∧
    (Downloader.clickMenu (siteBrowser siteStructural) "Cartera" page0).2.trace =
      [.menuSearch "cartera", .menuSearch "cartera", .menuSearch "cartera",
        .query "[data-menu=\"Cartera\"]", .click "[data-menu=\"Cartera\"]"] :=
  ⟨by decide,
    (clickMenu_text_first (siteBrowser siteBoth) "Cartera" page0).2.1 (by decide),
    by decide, by decide⟩

/-- Counterexample to C25 as stated: the page holds an element with
`data-menu="Cartera"`, which the fourth candidate, a structural one, matches;
`clickMenu` nevertheless runs the text search first and returns after that
search has clicked, without having queried any structural candidate. -/
theorem clickMenu_text_despite_structural :
    "[data-menu=\"Cartera\"]" ∈ menuSelectors (siteBrowser siteBoth).toLower "Cartera" ∧
    stringsContains "[data-menu=\"Cartera\"]" ":contains" = false ∧
    ((siteBrowser siteBoth).query "[data-menu=\"Cartera\"]" page0.st).1 = some true ∧
    (Downloader.clickMenu (siteBrowser siteBoth) "Cartera" page0).1 = none ∧
    (Downloader.clickMenu (siteBrowser siteBoth) "Cartera" page0).2.trace =
      [.menuSearch "cartera"] := by
  decide

/-! ## Navigation before export -/

/-- The calls of `clickMenu` resolve or click a menu item, and its error
names the item. -/
theorem clickMenu_spec {σ : Type} (b : Browser σ) (menuItem : String) (w : Page σ) :
    (∃ added : List NavEvent,
      (Downloader.clickMenu b menuItem w).2.trace = w.trace ++ added ∧
      ∀ ev ∈ added, ev.ofMenu = true) ∧
    (∀ e : GoError, (Downloader.clickMenu b menuItem w).1 = some e →
      e = .errorf ("no se encontró elemento de menú: " ++ menuItem)) := by
  obtain ⟨hw, hok, hfail⟩ := clickMenu_of_loop b menuItem w
  constructor
  · rw [hw]
    exact clickMenu_loop_trace b _ _ w
  · intro e he
    cases hl : (clickMenu_loop b (b.toLower menuItem) (menuSelectors b.toLower menuItem) w).1 with
    | true =>
      rw [hok hl] at he
      cases he
    | false =>
      rw [hfail hl] at he
      exact (Option.some.inj he).symm

/-- The calls of `takeScreenshot`: the capture, and the file when the
capture went through. -/
theorem takeScreenshot_trace {σ : Type} (b : Browser σ) (filename : String) (w : Page σ) :
    (Downloader.takeScreenshot b filename w).trace = w.trace ++ [.captureScreenshot] ∨
    (Downloader.takeScreenshot b filename w).trace =
      w.trace ++ [.captureScreenshot, .writeFile (screenshotPath b.logDir filename)] := by
  unfold Downloader.takeScreenshot
  split
  · exact Or.inl rfl
  · exact Or.inr rfl

/-- The navigation loop of `DownloadCSV`: it makes no call of the export
step; when it goes through, `clickMenu` was called for every item, in order,
and returned nil each time; when it returns an error, `clickMenu` was called
for the items up to one for which it returned an error, and for none after
it, the error names that item, and a screenshot was taken. -/
theorem DownloadCSV_menu_spec {σ : Type} (b : Browser σ) (csvType : CSVType)
    (path : List String) :
    ∀ (i : Nat) (w : Page σ) (done : List (String × Option GoError)),
      ∃ added : List NavEvent,
        (DownloadCSV_menu b csvType path i w done).2.1.trace = w.trace ++ added ∧
        (∀ ev ∈ added, ev.afterNavigation = false) ∧
        ((DownloadCSV_menu b csvType path i w done).1 = none →
          (DownloadCSV_menu b csvType path i w done).2.2 =
            done ++ path.map (fun l => (l, none))) ∧
        (∀ e : GoError, (DownloadCSV_menu b csvType path i w done).1 = some e →
          NavEvent.captureScreenshot ∈ added ∧
          ∃ (pre : List String) (label : String) (post : List String),
            path = pre ++ label :: post ∧
            (DownloadCSV_menu b csvType path i w done).2.2 =
              done ++ pre.map (fun l => (l, none)) ++
                [(label, some (.errorf ("no se encontró elemento de menú: " ++ label)))] ∧
            e = .wrapf ("error navegando a menú '" ++ label ++ "': ")
              (.errorf ("no se encontró elemento de menú: " ++ label))) := by
  induction path with
  | nil =>
    intro i w done
    exact ⟨[], by simp [DownloadCSV_menu], by simp, by simp [DownloadCSV_menu],
      by simp [DownloadCSV_menu]⟩
  | cons menuItem rest ih =>
    intro i w done
    obtain ⟨⟨added1, ht1, hm1⟩, herr⟩ := clickMenu_spec b menuItem w
    have hnav : ∀ ev ∈ added1, ev.afterNavigation = false := by
      intro ev hev
      have := hm1 ev hev
      cases ev <;> simp [NavEvent.ofMenu] at this <;> rfl
    rw [DownloadCSV_menu]
    cases hc : Downloader.clickMenu b menuItem w with
    | mk e1 w1 =>
      rw [hc] at ht1 herr
      simp only at ht1 herr
      cases e1 with
      | some err =>
        simp only
        have herr2 := herr err rfl
        rcases takeScreenshot_trace b
          ("menu_error_" ++ csvType.str ++ "_" ++ toString i ++ ".png") w1 with hs | hs
        · refine ⟨added1 ++ [.captureScreenshot], by rw [hs, ht1]; simp, ?_, by simp, ?_⟩
          · intro ev hev
            rcases List.mem_append.mp hev with h | h
            · exact hnav ev h
            · simp at h; rw [h]; rfl
          · intro e he
            refine ⟨by simp, [], menuItem, rest, rfl, ?_, ?_⟩
            · simp [herr2]
            · simp only [Option.some.injEq] at he
              rw [← he, herr2]
        · refine ⟨added1 ++ [.captureScreenshot, .writeFile (screenshotPath b.logDir
              ("menu_error_" ++ csvType.str ++ "_" ++ toString i ++ ".png"))],
            by rw [hs, ht1]; simp, ?_, by simp, ?_⟩
          · intro ev hev
            rcases List.mem_append.mp hev with h | h
            · exact hnav ev h
            · simp at h
              rcases h with h | h <;> rw [h] <;> rfl
          · intro e he
            refine ⟨by simp, [], menuItem, rest, rfl, ?_, ?_⟩
            · simp [herr2]
            · simp only [Option.some.injEq] at he
              rw [← he, herr2]
      | none =>
        simp only
        obtain ⟨added2, ht2, hn2, hok2, hfail2⟩ := ih (i + 1)
          { st := b.sleep (2 * second) w1.st, trace := w1.trace ++ [.sleep (2 * second)] }
          (done ++ [(menuItem, none)])
        refine ⟨added1 ++ [.sleep (2 * second)] ++ added2, by rw [ht2, ht1]; simp, ?_, ?_, ?_⟩
        · intro ev hev
          simp only [List.mem_append, List.mem_singleton] at hev
          rcases hev with (h | h) | h
          · exact hnav ev h
          · rw [h]; rfl
          · exact hn2 ev h
        · intro hnone
          rw [hok2 hnone]
          simp
        · intro e he
          obtain ⟨hcap, pre, label, post, hp, hmenu, hwrap⟩ := hfail2 e he
          refine ⟨by simp [hcap], menuItem :: pre, label, post, by simp [hp], ?_, hwrap⟩
          rw [hmenu]
          simp

/-- The fields of what `DownloadCSV` comes to, by what its navigation loop
returned. -/
theorem DownloadCSVOn_fields {σ : Type} (b : Browser σ) (d : Downloader) (csvType : CSVType)
    (config : DownloadConfig) (w : Page σ) (hc : d.Configs.lookup csvType = some config) :
    (d.DownloadCSVOn b csvType w).menu =
      (DownloadCSV_menu b csvType config.MenuPath 0 w []).2.2 ∧
    (∀ e : GoError, (DownloadCSV_menu b csvType config.MenuPath 0 w []).1 = some e →
      (d.DownloadCSVOn b csvType w).err = some e ∧
      (d.DownloadCSVOn b csvType w).file = none ∧
      (d.DownloadCSVOn b csvType w).dataWait = none ∧
      (d.DownloadCSVOn b csvType w).exportStep = none ∧
      (d.DownloadCSVOn b csvType w).w = (DownloadCSV_menu b csvType config.MenuPath 0 w []).2.1) ∧
    ((DownloadCSV_menu b csvType config.MenuPath 0 w []).1 = none →
      (d.DownloadCSVOn b csvType w).dataWait =
        some (Downloader.waitForData b config.WaitSelector
          (DownloadCSV_menu b csvType config.MenuPath 0 w []).2.1).1 ∧
      (d.DownloadCSVOn b csvType w).exportStep =
        some (Downloader.clickExportAndDownload b d config
          (Downloader.waitForData b config.WaitSelector
            (DownloadCSV_menu b csvType config.MenuPath 0 w []).2.1).2).1) := by
  unfold Downloader.DownloadCSVOn
  simp only [hc]
  generalize DownloadCSV_menu b csvType config.MenuPath 0 w [] = r
  obtain ⟨e1, w1, menu⟩ := r
  cases e1 with
  | some err =>
    refine ⟨rfl, ?_, fun h => (by cases h)⟩
    intro e he
    cases he
    exact ⟨rfl, rfl, rfl, rfl, rfl⟩
  | none =>
    refine ⟨?_, fun e he => (by cases he), fun _ => ?_⟩
    · dsimp only
      split
      · rfl
      · split <;> rfl
    · dsimp only
      split
      · exact ⟨rfl, rfl⟩
      · split <;> exact ⟨rfl, rfl⟩

/-- C22. For a record type that has a configuration, `DownloadCSV` makes the
export step exactly when `clickMenu` was called for every label of the menu
path, in order, and returned nil each time. When `clickMenu` returns an error
for a label, `DownloadCSV` returns at once an error that names that label and
wraps the error of `clickMenu`, having called `clickMenu` for no later label
and made no call of the data wait or of the export step, and having taken a
screenshot. And the export step is made whenever the data wait was, whatever
the data wait returned: its error never makes `DownloadCSV` return. -/
theorem DownloadCSV_export_iff {σ : Type} (b : Browser σ) (d : Downloader) (csvType : CSVType)
    (config : DownloadConfig) (w : Page σ) (hc : d.Configs.lookup csvType = some config) :
    ((d.DownloadCSVOn b csvType w).exportStep.isSome = true ↔
      (d.DownloadCSVOn b csvType w).menu = config.MenuPath.map (fun l => (l, none))) ∧
    (∀ (label : String) (err : GoError), (label, some err) ∈ (d.DownloadCSVOn b csvType w).menu →
      ∃ (pre post : List String), config.MenuPath = pre ++ label :: post ∧
        (d.DownloadCSVOn b csvType w).menu =
          pre.map (fun l => (l, none)) ++ [(label, some err)] ∧
        err = .errorf ("no se encontró elemento de menú: " ++ label) ∧
        (d.DownloadCSVOn b csvType w).err =
          some (.wrapf ("error navegando a menú '" ++ label ++ "': ") err) ∧
        (d.DownloadCSVOn b csvType w).file = none ∧
        (d.DownloadCSVOn b csvType w).dataWait = none ∧
        (d.DownloadCSVOn b csvType w).exportStep = none ∧
        ∃ added : List NavEvent, (d.DownloadCSVOn b csvType w).w.trace = w.trace ++ added ∧
          (∀ ev ∈ added, ev.afterNavigation = false) ∧
          NavEvent.captureScreenshot ∈ added) ∧
    ((d.DownloadCSVOn b csvType w).exportStep.isSome =
      (d.DownloadCSVOn b csvType w).dataWait.isSome) ∧
    (∀ e : GoError, (d.DownloadCSVOn b csvType w).dataWait = some (some e) →
      (d.DownloadCSVOn b csvType w).exportStep.isSome = true ∧
      (d.DownloadCSVOn b csvType w).menu = config.MenuPath.map (fun l => (l, none))) := by
  obtain ⟨hmenu, hfail, hok⟩ := DownloadCSVOn_fields b d csvType config w hc
  obtain ⟨added, htr, hnav, hnone, hsome⟩ := DownloadCSV_menu_spec b csvType config.MenuPath 0 w []
  simp only [List.nil_append] at hnone hsome
  have hnomix : ∀ (pre : List String) (label : String) (err : GoError),
      pre.map (fun l => (l, (none : Option GoError))) ++ [(label, some err)] ≠
        config.MenuPath.map (fun l => (l, none)) := by
    intro pre label err heq
    have hmem : (label, some err) ∈ config.MenuPath.map (fun l => (l, (none : Option GoError))) := by
      rw [← heq]
      simp
    simp at hmem
  cases hr : (DownloadCSV_menu b csvType config.MenuPath 0 w []).1 with
  | some e =>
    obtain ⟨h1, h2, h3, h4, h5⟩ := hfail e hr
    obtain ⟨hcap, pre, label, post, hp, hm, hwrap⟩ := hsome e hr
    rw [hm] at hmenu
    refine ⟨?_, ?_, by rw [h3, h4]; rfl, ?_⟩
    · rw [h4, hmenu]
      constructor
      · intro h
        cases h
      · intro h
        exact absurd h (hnomix _ _ _)
    · intro label2 err2 hmem
      rw [hmenu] at hmem
      simp only [List.mem_append, List.mem_map, Prod.mk.injEq, List.mem_singleton] at hmem
      rcases hmem with ⟨_, _, _, h⟩ | ⟨hl, he⟩
      · cases h
      · subst hl
        have he2 := Option.some.inj he
        subst he2
        exact ⟨pre, post, hp, hmenu, rfl, by rw [h1, hwrap], h2, h3, h4, added,
          by rw [h5, htr], hnav, hcap⟩
    · intro e2 hd
      rw [h3] at hd
      cases hd
  | none =>
    obtain ⟨h1, h2⟩ := hok hr
    rw [hnone hr] at hmenu
    refine ⟨?_, ?_, by rw [h1, h2]; rfl, ?_⟩
    · rw [h2, hmenu]
      simp
    · intro label err hmem
      rw [hmenu] at hmem
      simp at hmem
    · intro e2 _
      rw [h2, hmenu]
      exact ⟨rfl, rfl⟩

/-- Witness for C22: for clients the menu path is "Cartera", "Clientes". On
the portal where "Clientes" is not found, `DownloadCSV` stops at that label
with an error naming it, after a screenshot, and makes no export call; on the
portal where both are found and no indicator of loaded data exists, the data
wait returns an error and the export is made all the same, bringing the file
back. -/
theorem DownloadCSV_export_iff_witness :
    downloader0.Configs.lookup .CSVClientes =
      some { Type_ := .CSVClientes, MenuPath := ["Cartera", "Clientes"],
             ExportButton := defaultExportButton, FileName := "CLIENTES.csv",
             WaitSelector := defaultWaitSelector } ∧
    ((downloader0.DownloadCSVOn (siteBrowser siteNoGrid) .CSVClientes page0).exportStep.isSome
        = true ↔
      (downloader0.DownloadCSVOn (siteBrowser siteNoGrid) .CSVClientes page0).menu =
        ["Cartera", "Clientes"].map (fun l => (l, none))) ∧
    (downloader0.DownloadCSVOn (siteBrowser siteNoGrid) .CSVClientes page0).dataWait =
      some (some (.errorf "no se encontró indicador de datos cargados")) ∧
    (downloader0.DownloadCSVOn (siteBrowser siteNoGrid) .CSVClientes page0).exportStep =
      some ("/opt/soriano/backend/CSV/scraped/CLIENTES.csv", none) ∧
    (downloader0.DownloadCSVOn (siteBrowser siteNoGrid) .CSVClientes page0).file.map
      (fun f => (f.Type_, f.Path, f.Size)) =
        some (.CSVClientes, "/opt/soriano/backend/CSV/scraped/CLIENTES.csv", 2048) ∧
    (downloader0.DownloadCSVOn (siteBrowser siteNoGrid) .CSVClientes page0).w.trace =
      [.menuSearch "cartera", .sleep (2 * second), .menuSearch "clientes", .sleep (2 * second),
        .query "table", .query ".grid", .query ".data-table", .query ".ag-body",
        .query "button[title*=\"Exportar\"]", .query ".btn-export", .click ".btn-export",
        .waitForDownload "CLIENTES.csv",
        .stat "/opt/soriano/backend/CSV/scraped/CLIENTES.csv"] ∧
    (downloader0.DownloadCSVOn (siteBrowser siteNoClientes) .CSVClientes page0).menu =
      [("Cartera", none),
        ("Clientes", some (.errorf "no se encontró elemento de menú: Clientes"))] ∧
    (downloader0.DownloadCSVOn (siteBrowser siteNoClientes) .CSVClientes page0).err =
      some (.wrapf "error navegando a menú 'Clientes': "
        (.errorf "no se encontró elemento de menú: Clientes")) ∧
    (downloader0.DownloadCSVOn (siteBrowser siteNoClientes) .CSVClientes page0).exportStep =
      none ∧
    (downloader0.DownloadCSVOn (siteBrowser siteNoClientes) .CSVClientes page0).w.trace =
      [.menuSearch "cartera", .sleep (2 * second), .menuSearch "clientes",
        .menuSearch "clientes", .menuSearch "clientes", .query "[data-menu=\"Clientes\"]",
        .query "[title=\"Clientes\"]", .query "nav a[href*=\"clientes\" i]",
        .menuSearch "clientes", .menuSearch "clientes", .captureScreenshot,
        .writeFile "/opt/soriano/logs/scraper/menu_error_clientes_1.png"] :=
  ⟨by decide,
    (DownloadCSV_export_iff (siteBrowser siteNoGrid) downloader0 .CSVClientes
      { Type_ := .CSVClientes, MenuPath := ["Cartera", "Clientes"],
        ExportButton := defaultExportButton, FileName := "CLIENTES.csv",
        WaitSelector := defaultWaitSelector } page0 (by decide)).1,
    by decide, by decide, by decide, by decide, by decide, by decide, by decide, by decide⟩

end Scraper
